import Mathlib

/-!
Verification development for the spimdisasm MIPS disassembler core.

The configuration layer (`InputEndian`, `Compiler`, `GlobalConfig`,
`parseArgs`) is embedded directly from
`src/spimdisasm/common/GlobalConfig.py`.  The analysis components
(instruction decoder, relocation pair tracker, function boundary
analyzer, symbol table, pointer candidate finder) are not shipped under
`src/`; they are modelled from the specification, as marked on each
definition.
-/

namespace Spimdisasm

/-- Embeds `InputEndian` from `src/spimdisasm/common/GlobalConfig.py`. -/
inductive InputEndian where
  | BIG
  | LITTLE
  | MIDDLE
deriving DecidableEq

/-- Embeds `compilerOptions = {"IDO", "GCC", "SN64"}` from
`src/spimdisasm/common/GlobalConfig.py`. -/
def compilerOptions : List String := ["IDO", "GCC", "SN64"]

/-- Embeds the `Compiler` enum from `src/spimdisasm/common/GlobalConfig.py`. -/
inductive Compiler where
  | UNKNOWN
  | IDO
  | GCC
  | SN64
deriving DecidableEq

namespace Compiler

/-- Embeds `Compiler.fromStr`: membership test against `compilerOptions`,
then the enum value lookup (`Compiler(value)`). -/
def fromStr (value : String) : Compiler :=
  if value ∈ compilerOptions then
    -- `Compiler(value)`: the enum member whose value is the string
    match value with
    | "IDO" => Compiler.IDO
    | "GCC" => Compiler.GCC
    | "SN64" => Compiler.SN64
    | _ => Compiler.UNKNOWN
  else
    Compiler.UNKNOWN

end Compiler

/-- Embeds the class attributes of `GlobalConfig` from
`src/spimdisasm/common/GlobalConfig.py` as a record of configuration
state; the Python class-level mutation becomes explicit state passing. -/
structure GlobalConfig where
  DISASSEMBLE_UNKNOWN_INSTRUCTIONS : Bool
  ADD_NEW_SYMBOLS : Bool
  PRODUCE_SYMBOLS_PLUS_OFFSET : Bool
  TRUST_USER_FUNCTIONS : Bool
  TRUST_JAL_FUNCTIONS : Bool
  STRING_GUESSER : Bool
  AUTOGENERATED_NAMES_BASED_ON_SECTION_TYPE : Bool
  AUTOGENERATED_NAMES_BASED_ON_DATA_TYPE : Bool
  COMPILER : Compiler
  ENDIAN : InputEndian
  GP_VALUE : Option Nat
  SYMBOL_FINDER_FILTER_LOW_ADDRESSES : Bool
  SYMBOL_FINDER_FILTER_HIGH_ADDRESSES : Bool
  SYMBOL_FINDER_FILTERED_ADDRESSES_AS_CONSTANTS : Bool
  SYMBOL_FINDER_FILTERED_ADDRESSES_AS_HILO : Bool
  ASM_COMMENT : Bool
  GLABEL_ASM_COUNT : Bool
  ASM_TEXT_LABEL : String
  ASM_DATA_LABEL : String
  ASM_TEXT_ENT_LABEL : String
  ASM_TEXT_END_LABEL : String
  ASM_TEXT_FUNC_AS_LABEL : Bool
  PRINT_NEW_FILE_BOUNDARIES : Bool
  USE_DOT_BYTE : Bool
  USE_DOT_SHORT : Bool
  LINE_ENDS : String
  QUIET : Bool
  VERBOSE : Bool
  PRINT_FUNCTION_ANALYSIS_DEBUG_INFO : Bool
  PRINT_SYMBOL_FINDER_DEBUG_INFO : Bool
  PRINT_UNPAIRED_LUIS_DEBUG_INFO : Bool
  REMOVE_POINTERS : Bool
  IGNORE_BRANCHES : Bool
  WRITE_BINARY : Bool
deriving DecidableEq

/-- The default values of every `GlobalConfig` attribute, as written in
`src/spimdisasm/common/GlobalConfig.py`. -/
def defaultConfig : GlobalConfig where
  DISASSEMBLE_UNKNOWN_INSTRUCTIONS := false
  ADD_NEW_SYMBOLS := true
  PRODUCE_SYMBOLS_PLUS_OFFSET := true
  TRUST_USER_FUNCTIONS := true
  TRUST_JAL_FUNCTIONS := true
  STRING_GUESSER := true
  AUTOGENERATED_NAMES_BASED_ON_SECTION_TYPE := true
  AUTOGENERATED_NAMES_BASED_ON_DATA_TYPE := true
  COMPILER := Compiler.IDO
  ENDIAN := InputEndian.BIG
  GP_VALUE := none
  SYMBOL_FINDER_FILTER_LOW_ADDRESSES := true
  SYMBOL_FINDER_FILTER_HIGH_ADDRESSES := true
  SYMBOL_FINDER_FILTERED_ADDRESSES_AS_CONSTANTS := true
  SYMBOL_FINDER_FILTERED_ADDRESSES_AS_HILO := true
  ASM_COMMENT := true
  GLABEL_ASM_COUNT := true
  ASM_TEXT_LABEL := "glabel"
  ASM_DATA_LABEL := "glabel"
  ASM_TEXT_ENT_LABEL := ""
  ASM_TEXT_END_LABEL := ""
  ASM_TEXT_FUNC_AS_LABEL := false
  PRINT_NEW_FILE_BOUNDARIES := false
  USE_DOT_BYTE := true
  USE_DOT_SHORT := true
  LINE_ENDS := "\n"
  QUIET := false
  VERBOSE := false
  PRINT_FUNCTION_ANALYSIS_DEBUG_INFO := false
  PRINT_SYMBOL_FINDER_DEBUG_INFO := false
  PRINT_UNPAIRED_LUIS_DEBUG_INFO := false
  REMOVE_POINTERS := false
  IGNORE_BRANCHES := false
  WRITE_BINARY := false

/-- Embeds the `argparse.Namespace` consumed by `GlobalConfig.parseArgs`.
Options registered with `BooleanOptionalAction` are `None` when absent
(`Option Bool` here); plain string options are `None` when absent
(`Option String`); `--endian` always carries a string because argparse
gives it the default `"big"`.  `args.gp` is modelled as the already
parsed hexadecimal value (`int(args.gp, 16)` itself is not embedded). -/
structure Args where
  disasm_unknown : Option Bool
  string_guesser : Option Bool
  name_vars_by_section : Option Bool
  name_vars_by_type : Option Bool
  compiler : Option String
  endian : String
  gp : Option Nat
  filter_low_addresses : Option Bool
  filter_high_addresses : Option Bool
  filtered_addresses_as_constants : Option Bool
  filtered_addresses_as_hilo : Option Bool
  asm_comments : Option Bool
  glabel_count : Option Bool
  asm_text_label : Option String
  asm_data_label : Option String
  asm_ent_label : Option String
  asm_end_label : Option String
  asm_func_as_label : Option Bool
  print_new_file_boundaries : Option Bool
  use_dot_byte : Option Bool
  use_dot_short : Option Bool
  verbose : Option Bool
  quiet : Option Bool
  debug_func_analysis : Option Bool
  debug_symbol_finder : Option Bool
  debug_unpaired_luis : Option Bool
deriving DecidableEq

/-- Python truthiness of an optional string (`if args.asm_text_label:`):
false for `None` and for the empty string. -/
def truthy : Option String → Bool
  | none => false
  | some s => !s.isEmpty

/-- Embeds `GlobalConfig.parseArgs` from
`src/spimdisasm/common/GlobalConfig.py` lines 167-239.  Each `if x is
not None` guard becomes a `match` on the optional field; the four label
options use Python truthiness (`if args.asm_text_label:`); the endian
option is an unguarded if/elif/else chain.  Each guarded assignment of
the Python method is one `stepXX` function below, in source order, and
`parseArgs` is their sequential composition. -/
def step01 (args : Args) (cfg : GlobalConfig) : GlobalConfig :=
  match args.disasm_unknown with
  | some v => { cfg with DISASSEMBLE_UNKNOWN_INSTRUCTIONS := v }
  | none => cfg

def step02 (args : Args) (cfg : GlobalConfig) : GlobalConfig :=
  match args.string_guesser with
  | some v => { cfg with STRING_GUESSER := v }
  | none => cfg

def step03 (args : Args) (cfg : GlobalConfig) : GlobalConfig :=
  match args.name_vars_by_section with
  | some v => { cfg with AUTOGENERATED_NAMES_BASED_ON_SECTION_TYPE := v }
  | none => cfg

def step04 (args : Args) (cfg : GlobalConfig) : GlobalConfig :=
  match args.name_vars_by_type with
  | some v => { cfg with AUTOGENERATED_NAMES_BASED_ON_DATA_TYPE := v }
  | none => cfg

def step05 (args : Args) (cfg : GlobalConfig) : GlobalConfig :=
  match args.compiler with
  | some v => { cfg with COMPILER := Compiler.fromStr v }
  | none => cfg

def step06 (args : Args) (cfg : GlobalConfig) : GlobalConfig :=
  if args.endian = "little" then { cfg with ENDIAN := InputEndian.LITTLE }
  else if args.endian = "middle" then { cfg with ENDIAN := InputEndian.MIDDLE }
  else { cfg with ENDIAN := InputEndian.BIG }

def step07 (args : Args) (cfg : GlobalConfig) : GlobalConfig :=
  match args.gp with
  | some v => { cfg with GP_VALUE := some v }
  | none => cfg

def step08 (args : Args) (cfg : GlobalConfig) : GlobalConfig :=
  match args.filter_low_addresses with
  | some v => { cfg with SYMBOL_FINDER_FILTER_LOW_ADDRESSES := v }
  | none => cfg

def step09 (args : Args) (cfg : GlobalConfig) : GlobalConfig :=
  match args.filter_high_addresses with
  | some v => { cfg with SYMBOL_FINDER_FILTER_HIGH_ADDRESSES := v }
  | none => cfg

def step10 (args : Args) (cfg : GlobalConfig) : GlobalConfig :=
  match args.filtered_addresses_as_constants with
  | some v => { cfg with SYMBOL_FINDER_FILTERED_ADDRESSES_AS_CONSTANTS := v }
  | none => cfg

def step11 (args : Args) (cfg : GlobalConfig) : GlobalConfig :=
  match args.filtered_addresses_as_hilo with
  | some v => { cfg with SYMBOL_FINDER_FILTERED_ADDRESSES_AS_HILO := v }
  | none => cfg

def step12 (args : Args) (cfg : GlobalConfig) : GlobalConfig :=
  match args.asm_comments with
  | some v => { cfg with ASM_COMMENT := v }
  | none => cfg

def step13 (args : Args) (cfg : GlobalConfig) : GlobalConfig :=
  match args.glabel_count with
  | some v => { cfg with GLABEL_ASM_COUNT := v }
  | none => cfg

def step14 (args : Args) (cfg : GlobalConfig) : GlobalConfig :=
  match args.asm_text_label with
  | some v => if v.isEmpty then cfg else { cfg with ASM_TEXT_LABEL := v }
  | none => cfg

def step15 (args : Args) (cfg : GlobalConfig) : GlobalConfig :=
  match args.asm_data_label with
  | some v => if v.isEmpty then cfg else { cfg with ASM_DATA_LABEL := v }
  | none => cfg

def step16 (args : Args) (cfg : GlobalConfig) : GlobalConfig :=
  match args.asm_ent_label with
  | some v => if v.isEmpty then cfg else { cfg with ASM_TEXT_ENT_LABEL := v }
  | none => cfg

def step17 (args : Args) (cfg : GlobalConfig) : GlobalConfig :=
  match args.asm_end_label with
  | some v => if v.isEmpty then cfg else { cfg with ASM_TEXT_END_LABEL := v }
  | none => cfg

def step18 (args : Args) (cfg : GlobalConfig) : GlobalConfig :=
  match args.asm_func_as_label with
  | some v => { cfg with ASM_TEXT_FUNC_AS_LABEL := v }
  | none => cfg

def step19 (args : Args) (cfg : GlobalConfig) : GlobalConfig :=
  match args.print_new_file_boundaries with
  | some v => { cfg with PRINT_NEW_FILE_BOUNDARIES := v }
  | none => cfg

def step20 (args : Args) (cfg : GlobalConfig) : GlobalConfig :=
  match args.use_dot_byte with
  | some v => { cfg with USE_DOT_BYTE := v }
  | none => cfg

def step21 (args : Args) (cfg : GlobalConfig) : GlobalConfig :=
  match args.use_dot_short with
  | some v => { cfg with USE_DOT_SHORT := v }
  | none => cfg

def step22 (args : Args) (cfg : GlobalConfig) : GlobalConfig :=
  match args.verbose with
  | some v => { cfg with VERBOSE := v }
  | none => cfg

def step23 (args : Args) (cfg : GlobalConfig) : GlobalConfig :=
  match args.quiet with
  | some v => { cfg with QUIET := v }
  | none => cfg

def step24 (args : Args) (cfg : GlobalConfig) : GlobalConfig :=
  match args.debug_func_analysis with
  | some v => { cfg with PRINT_FUNCTION_ANALYSIS_DEBUG_INFO := v }
  | none => cfg

def step25 (args : Args) (cfg : GlobalConfig) : GlobalConfig :=
  match args.debug_symbol_finder with
  | some v => { cfg with PRINT_SYMBOL_FINDER_DEBUG_INFO := v }
  | none => cfg

def step26 (args : Args) (cfg : GlobalConfig) : GlobalConfig :=
  match args.debug_unpaired_luis with
  | some v => { cfg with PRINT_UNPAIRED_LUIS_DEBUG_INFO := v }
  | none => cfg

/-- `GlobalConfig.parseArgs`: the guarded assignments of lines 169-239
of `src/spimdisasm/common/GlobalConfig.py`, applied in source order. -/
def parseArgs (args : Args) (cfg : GlobalConfig) : GlobalConfig :=
  step26 args (step25 args (step24 args (step23 args (step22 args
    (step21 args (step20 args (step19 args (step18 args (step17 args
    (step16 args (step15 args (step14 args (step13 args (step12 args
    (step11 args (step10 args (step09 args (step08 args (step07 args
    (step06 args (step05 args (step04 args (step03 args (step02 args
    (step01 args cfg)))))))))))))))))))))))))

/-! ## Instruction Decoder -/

/-- Modelled from the spec: §3 Instruction — "decoded mnemonic (from a
closed enumeration of MIPS opcodes)" with "a flag marking it as unknown
if no decode rule matched".  The decoder itself is not shipped under
`src/`. -/
inductive Mnemonic where
  | sll | srl | sra | sllv | srlv | srav
  | jr | jalr | syscall
  | mfhi | mthi | mflo | mtlo
  | mult | multu | div | divu
  | add | addu | sub | subu
  | and | or | xor | nor | slt | sltu
  | bltz | bgez | bltzal | bgezal
  | j | jal | beq | bne | blez | bgtz
  | addi | addiu | slti | sltiu
  | andi | ori | xori | lui
  | mfc1 | cfc1 | mtc1 | ctc1
  | lb | lh | lwl | lw | lbu | lhu | lwr
  | sb | sh | swl | sw | swr
  | lwc1 | swc1
  | unknown
deriving DecidableEq

/-- Modelled from the spec: §3 Instruction — "immutable value — raw
32-bit word, decoded mnemonic, up to three operand slots (register,
immediate, target-address), and a flag marking it as unknown".  The
register/immediate operand slots carry the fixed MIPS bit fields. -/
structure Instruction where
  raw : Nat
  mnemonic : Mnemonic
  rs : Nat
  rt : Nat
  rd : Nat
  sa : Nat
  imm : Nat
  target : Nat
deriving DecidableEq

/-- 6-bit primary opcode field of a 32-bit word. -/
def opcodeField (w : Nat) : Nat := w / 2 ^ 26 % 64

/-- 5-bit `rs` field (bits 25..21). -/
def rsField (w : Nat) : Nat := w / 2 ^ 21 % 32

/-- 5-bit `rt` field (bits 20..16). -/
def rtField (w : Nat) : Nat := w / 2 ^ 16 % 32

/-- 5-bit `rd` field (bits 15..11). -/
def rdField (w : Nat) : Nat := w / 2 ^ 11 % 32

/-- 5-bit shift-amount field (bits 10..6). -/
def saField (w : Nat) : Nat := w / 2 ^ 6 % 32

/-- 6-bit function field (bits 5..0) used by the SPECIAL group. -/
def functField (w : Nat) : Nat := w % 64

/-- 16-bit immediate field (bits 15..0). -/
def immField (w : Nat) : Nat := w % 2 ^ 16

/-- 26-bit jump-target field (bits 25..0). -/
def targetField (w : Nat) : Nat := w % 2 ^ 26

/-- Modelled from the spec: §4.1 — "Decoding is a pure lookup over the
6-bit primary opcode field, then secondary function/subfield dispatch
for R-type/SPECIAL/REGIMM/COP1 groups".  Primary opcode 0 is SPECIAL
(dispatch on the function field), 1 is REGIMM (dispatch on the `rt`
field), 17 is COP1 (dispatch on the `rs` field); anything that matches
no rule is `Mnemonic.unknown`. -/
def decodeMnemonic (w : Nat) : Mnemonic :=
  match opcodeField w with
  | 0 =>
    match functField w with
    | 0 => .sll | 2 => .srl | 3 => .sra | 4 => .sllv | 6 => .srlv | 7 => .srav
    | 8 => .jr | 9 => .jalr | 12 => .syscall
    | 16 => .mfhi | 17 => .mthi | 18 => .mflo | 19 => .mtlo
    | 24 => .mult | 25 => .multu | 26 => .div | 27 => .divu
    | 32 => .add | 33 => .addu | 34 => .sub | 35 => .subu
    | 36 => .and | 37 => .or | 38 => .xor | 39 => .nor
    | 42 => .slt | 43 => .sltu
    | _ => .unknown
  | 1 =>
    match rtField w with
    | 0 => .bltz | 1 => .bgez | 16 => .bltzal | 17 => .bgezal
    | _ => .unknown
  | 2 => .j | 3 => .jal
  | 4 => .beq | 5 => .bne | 6 => .blez | 7 => .bgtz
  | 8 => .addi | 9 => .addiu | 10 => .slti | 11 => .sltiu
  | 12 => .andi | 13 => .ori | 14 => .xori | 15 => .lui
  | 17 =>
    match rsField w with
    | 0 => .mfc1 | 2 => .cfc1 | 4 => .mtc1 | 6 => .ctc1
    | _ => .unknown
  | 32 => .lb | 33 => .lh | 34 => .lwl | 35 => .lw
  | 36 => .lbu | 37 => .lhu | 38 => .lwr
  | 40 => .sb | 41 => .sh | 42 => .swl | 43 => .sw | 46 => .swr
  | 49 => .lwc1 | 57 => .swc1
  | _ => .unknown

/-- Modelled from the spec: §4.1 — the Decoder turns one 32-bit word
into an Instruction value, tagging unrecognized encodings instead of
failing; the raw word is always carried along. -/
def decode (w : Nat) : Instruction where
  raw := w
  mnemonic := decodeMnemonic w
  rs := rsField w
  rt := rtField w
  rd := rdField w
  sa := saField w
  imm := immField w
  target := targetField w

/-- An instruction is Unknown-tagged iff no decode rule matched. -/
def Instruction.isUnknown (i : Instruction) : Bool :=
  i.mnemonic = Mnemonic.unknown

/-- Modelled from the spec: §4.1 — assembling a 32-bit word from four
stored bytes under the configured endianness; "middle" swaps the two
bytes inside each 16-bit half relative to big-endian. -/
def wordFromBytes (e : InputEndian) (b0 b1 b2 b3 : Nat) : Nat :=
  match e with
  | .BIG => b0 * 2 ^ 24 + b1 * 2 ^ 16 + b2 * 2 ^ 8 + b3
  | .LITTLE => b3 * 2 ^ 24 + b2 * 2 ^ 16 + b1 * 2 ^ 8 + b0
  | .MIDDLE => b1 * 2 ^ 24 + b0 * 2 ^ 16 + b3 * 2 ^ 8 + b2

/-- Modelled from the spec: §4.1 / §7 DecodeAmbiguous — whether the
engine aborts on a decoded instruction is governed solely by the
unknown-instruction policy flag `DISASSEMBLE_UNKNOWN_INSTRUCTIONS`
(from `src/spimdisasm/common/GlobalConfig.py` line 35): an Unknown
instruction is a hard stop exactly when that flag is off. -/
def abortsAnalysis (cfg : GlobalConfig) (i : Instruction) : Bool :=
  i.isUnknown && !cfg.DISASSEMBLE_UNKNOWN_INSTRUCTIONS

/-! ## Relocation Pair Tracker -/

/-- Modelled from the spec: §3 RelocationPair — "association between a
high-part instruction address, a low-part instruction address, and the
resolved target address". -/
structure RelocationPair where
  hiAddr : Nat
  loAddr : Nat
  target : Nat
deriving DecidableEq

/-- A pending high-part: an `LUI` into `reg` at `hiAddr` with upper
immediate `immHi`, still waiting for its low part. -/
structure PendingHi where
  reg : Nat
  hiAddr : Nat
  immHi : Nat
deriving DecidableEq

/-- Modelled from the spec: §4.2 — per-function tracker state: pending
high parts (at most one live `LUI` per register in the forward scan),
the resolved pairs, and the unpaired-`LUI` diagnostics
(high-part address and upper immediate). -/
structure TrackerState where
  pending : List PendingHi
  pairs : List RelocationPair
  unpaired : List (Nat × Nat)
deriving DecidableEq

/-- The destination register an instruction writes, if any: R-type
results go to `rd`, immediate arithmetic and loads to `rt`, `jal`
links into `$ra` (31). -/
def writesReg (i : Instruction) : Option Nat :=
  match i.mnemonic with
  | .sll | .srl | .sra | .sllv | .srlv | .srav
  | .mfhi | .mflo
  | .add | .addu | .sub | .subu
  | .and | .or | .xor | .nor | .slt | .sltu
  | .jalr => some i.rd
  | .addi | .addiu | .slti | .sltiu
  | .andi | .ori | .xori | .lui
  | .lb | .lh | .lwl | .lw | .lbu | .lhu | .lwr
  | .mfc1 | .cfc1 => some i.rt
  | .jal | .bltzal | .bgezal => some 31
  | _ => none

/-- Modelled from the spec: §4.2 — an eligible low-part instruction:
an `ADDIU`, load, or store using its `rs` field as the base register of
an immediate-offset operation.  Returns the base register and the
16-bit low immediate. -/
def lowCandidate (i : Instruction) : Option (Nat × Nat) :=
  match i.mnemonic with
  | .addiu
  | .lb | .lh | .lwl | .lw | .lbu | .lhu | .lwr
  | .sb | .sh | .swl | .sw | .swr
  | .lwc1 | .swc1 => some (i.rs, i.imm)
  | _ => none

/-- Sign extension of a 16-bit immediate to 32 bits, as a `Nat`. -/
def signExt32 (lo : Nat) : Nat :=
  if lo < 2 ^ 15 then lo else lo + 0xFFFF0000

/-- Modelled from the spec: §4.2 — "The match yields a candidate target
address = `(imm_hi << 16) + sign_extend(imm_lo)`", wrapped to 32 bits. -/
def targetAddr (hi lo : Nat) : Nat :=
  (hi * 2 ^ 16 + signExt32 lo) % 2 ^ 32

/-- The pending entry for register `r`, if present. -/
def lookupPending : List PendingHi → Nat → Option PendingHi
  | [], _ => none
  | e :: rest, r => if e.reg = r then some e else lookupPending rest r

/-- Drop every pending entry for register `r`. -/
def removeReg : List PendingHi → Nat → List PendingHi
  | [], _ => []
  | e :: rest, r => if e.reg = r then removeReg rest r else e :: removeReg rest r

/-- Modelled from the spec: §4.2 — greedy pairing: the nearest eligible
low-part after the high-part wins; the matched register's pending entry
is consumed. -/
def stepLow (st : TrackerState) (addr : Nat) (i : Instruction) : TrackerState :=
  match lowCandidate i with
  | some (b, lo) =>
    match lookupPending st.pending b with
    | some p =>
      { pending := removeReg st.pending b
        pairs := st.pairs ++ [⟨p.hiAddr, addr, targetAddr p.immHi lo⟩]
        unpaired := st.unpaired }
    | none => st
  | none => st

/-- Modelled from the spec: §4.2 / §7 UnpairedRelocation — an
instruction that overwrites a register carrying a pending `LUI`
displaces it: the `LUI` is recorded as an unpaired diagnostic, never an
error. -/
def stepWrite (st : TrackerState) (i : Instruction) : TrackerState :=
  match writesReg i with
  | some d =>
    match lookupPending st.pending d with
    | some p =>
      { pending := removeReg st.pending d
        pairs := st.pairs
        unpaired := st.unpaired ++ [(p.hiAddr, p.immHi)] }
    | none => st
  | none => st

/-- Modelled from the spec: §4.2 — an `LUI rX, imm_hi` opens a new
pending high part on `rX`. -/
def stepLui (st : TrackerState) (addr : Nat) (i : Instruction) : TrackerState :=
  if i.mnemonic = Mnemonic.lui then
    { st with pending := st.pending ++ [⟨i.rt, addr, i.imm⟩] }
  else st

/-- One tracker step: try to pair a low part, then account for the
destination-register write, then open a pending entry if the
instruction is an `LUI` (which both displaces and replaces). -/
def trackStep (st : TrackerState) (addr : Nat) (i : Instruction) : TrackerState :=
  stepLui (stepWrite (stepLow st addr i) i) addr i

/-- Forward scan of a function body, one instruction (4 bytes) at a
time; at function end every still-pending high part becomes an
unpaired diagnostic. -/
def runTrackerAux : List Instruction → Nat → TrackerState → TrackerState
  | [], _, st =>
    { pending := []
      pairs := st.pairs
      unpaired := st.unpaired ++ st.pending.map (fun p => (p.hiAddr, p.immHi)) }
  | i :: rest, addr, st => runTrackerAux rest (addr + 4) (trackStep st addr i)

/-- Modelled from the spec: §4.2 — the Relocation Pair Tracker over one
Function's instruction sequence starting at address `base`. -/
def trackFunction (base : Nat) (l : List Instruction) : TrackerState :=
  runTrackerAux l base ⟨[], [], []⟩

/-! ## Symbol Table / Cross-Reference Graph -/

/-- Modelled from the spec: §3 Symbol — "inferred type (one of Function,
Text-data, Rodata, Bss, Generic-data, String, Float32, Float64)". -/
inductive SymType where
  | function
  | textData
  | rodata
  | bss
  | genericData
  | stringData
  | float32
  | float64
deriving DecidableEq

/-- Modelled from the spec: §3 invariant and §7 SymbolTypeConflict —
the append-only type-refinement merge: Function classification from
control-flow evidence always wins; a symbol already classified as
Function stays Function; Generic-data is the ambiguous default and is
refined by any evidence; any other established classification is kept
against weaker evidence. -/
def mergeType (old evid : SymType) : SymType :=
  match evid, old with
  | .function, _ => .function
  | _, .function => .function
  | e, .genericData => e
  | _, o => o

/-- Modelled from the spec: §3 Symbol — identity is the starting
address, with inferred type, optional size, and back-references. -/
structure Symbol where
  address : Nat
  symType : SymType
  size : Option Nat
  refs : List Nat
deriving DecidableEq

/-- The Symbol Table: symbols in creation order, identified by address. -/
abbrev SymbolTable : Type := List Symbol

/-- Look up a symbol by address. -/
def findSymbol : SymbolTable → Nat → Option Symbol
  | [], _ => none
  | s :: rest, a => if s.address = a then some s else findSymbol rest a

/-- Refine an existing type by an optional hint. -/
def applyHint (old : SymType) : Option SymType → SymType
  | some h => mergeType old h
  | none => old

/-- Modelled from the spec: §4.5 — `getOrCreate(address, hintType)`:
returns the table with the symbol present; an existing symbol has its
type refined per the append-only rule (size and references untouched),
an absent address gets a fresh symbol whose type is the hint or the
Generic-data default, with unknown size and no references. -/
def getOrCreate : SymbolTable → Nat → Option SymType → SymbolTable
  | [], a, hint => [⟨a, (hint.getD SymType.genericData), none, []⟩]
  | s :: rest, a, hint =>
    if s.address = a then { s with symType := applyHint s.symType hint } :: rest
    else s :: getOrCreate rest a hint

/-- Append a back-reference to the symbol at `toA` (no-op when the
address is absent). -/
def appendRef : SymbolTable → Nat → Nat → SymbolTable
  | [], _, _ => []
  | s :: rest, fromA, toA =>
    if s.address = toA then { s with refs := s.refs ++ [fromA] } :: rest
    else s :: appendRef rest fromA toA

/-- Modelled from the spec: §4.5 — `addReference(fromAddress,
toAddress)`: records a back-reference; never fails, creates the target
symbol if absent. -/
def addReference (t : SymbolTable) (fromA toA : Nat) : SymbolTable :=
  appendRef (getOrCreate t toA none) fromA toA

/-- The recorded type at an address, if the symbol exists. -/
def typeAt (t : SymbolTable) (a : Nat) : Option SymType :=
  (findSymbol t a).map Symbol.symType

/-- The recorded size at an address, if the symbol exists. -/
def sizeAt (t : SymbolTable) (a : Nat) : Option (Option Nat) :=
  (findSymbol t a).map Symbol.size

/-- The recorded back-references at an address. -/
def refsAt (t : SymbolTable) (a : Nat) : List Nat :=
  ((findSymbol t a).map Symbol.refs).getD []

/-- Modelled from the spec: §4.2 — "Resolved target addresses are fed
to the Symbol Table as new-or-existing Symbol references". -/
def feedPairs (t : SymbolTable) (ps : List RelocationPair) : SymbolTable :=
  ps.foldl (fun acc p => addReference acc p.hiAddr p.target) t

/-- Modelled from the spec: §3 / §4.3 — a pointer-candidate scan hit
creates or refines a symbol with a data-type hint and records the
referencing word's address. -/
def applyDataScan (t : SymbolTable) (fromA a : Nat) (hint : SymType) : SymbolTable :=
  addReference (getOrCreate t a (some hint)) fromA a

/-- Modelled from the spec: §3 / §4.4 — a `JAL`/`JALR` call target is
promoted to a Function-typed symbol and the call site recorded, under
the `TRUST_JAL_FUNCTIONS` flag of `src/spimdisasm/common/GlobalConfig.py`
line 41. -/
def applyJalTarget (cfg : GlobalConfig) (t : SymbolTable) (fromA a : Nat) : SymbolTable :=
  if cfg.TRUST_JAL_FUNCTIONS then
    addReference (getOrCreate t a (some SymType.function)) fromA a
  else t

/-! ## Function Boundary Analyzer -/

/-- A return instruction: unconditional jump-register through `$ra`
(register 31). -/
def isReturn (i : Instruction) : Bool :=
  i.mnemonic = Mnemonic.jr && i.rs = 31

/-- `NOP` padding: the all-zero word (the canonical `sll $0,$0,0`). -/
def isNop (i : Instruction) : Bool :=
  i.raw = 0

/-- Modelled from the spec: §4.4 — a word that "decodes as the start of
plausible new function prologue": a stack-pointer adjustment, a save
through the stack pointer, or a fresh `LUI`. -/
def plausiblePrologue (i : Instruction) : Bool :=
  (i.mnemonic = Mnemonic.addiu && i.rt = 29 && i.rs = 29) ||
  (i.mnemonic = Mnemonic.sw && i.rs = 29) ||
  i.mnemonic = Mnemonic.lui

/-- The instruction at index `k`, when inside the section. -/
def instrAt (l : List Instruction) (k : Nat) : Option Instruction :=
  l.get? k

/-- Modelled from the spec: §4.4 — should the current Function be closed
after processing index `k`?  True when index `k` is the delay slot of a
return at `k - 1` and the following word (if any) is `NOP` padding or a
plausible new prologue. -/
def closeAfter (l : List Instruction) (k : Nat) : Bool :=
  match k with
  | 0 => false
  | k' + 1 =>
    match instrAt l k' with
    | some prev =>
      isReturn prev &&
      (match instrAt l (k' + 2) with
       | none => true
       | some nxt => isNop nxt || plausiblePrologue nxt)
    | none => false

/-- Modelled from the spec: §4.4 — the boundary state machine, one pass
left to right over instruction indices.  The current Function started
at index `start` and index `k` is about to be examined; spans are
half-open index intervals.  A trusted hint strictly inside the open
span force-splits; a detected end-of-function closes and restarts; the
end of the Section closes the last open Function unconditionally
(truncated Functions included). -/
def fbWalk (l : List Instruction) (hints : List Nat) (start k : Nat) :
    List (Nat × Nat) :=
  if h : l.length ≤ k then [(start, l.length)]
  else if start < k ∧ k ∈ hints then (start, k) :: fbWalk l hints k k
  else if closeAfter l k ∧ k + 1 < l.length then
    (start, k + 1) :: fbWalk l hints (k + 1) (k + 1)
  else fbWalk l hints start (k + 1)
termination_by (l.length - k) * 2 + (k - start)
decreasing_by
  all_goals simp_wf
  all_goals omega

/-- Modelled from the spec: §4.4 — partition a text Section's decoded
instruction list into Function spans (index intervals), given the
trusted function-start hints. -/
def findFunctions (l : List Instruction) (hints : List Nat) : List (Nat × Nat) :=
  if l.length = 0 then [] else fbWalk l hints 0 0

/-- The spans `sp` tile the half-open interval `[a, b)` exactly: each
span is nonempty, starts where the previous one ended, and the last one
ends at `b`. -/
def spansChain : List (Nat × Nat) → Nat → Nat → Prop
  | [], a, b => a = b
  | (s, e) :: rest, a, b => s = a ∧ a < e ∧ spansChain rest e b

/-- A hand-authored `LUI rt, imm` for tracker-level properties; the
fields the Relocation Pair Tracker consumes (mnemonic, registers,
immediate) are populated, with the genuine big-endian encoding as raw
word. -/
def luiInstr (rt imm : Nat) : Instruction where
  raw := 15 * 2 ^ 26 + rt * 2 ^ 16 + imm
  mnemonic := Mnemonic.lui
  rs := 0
  rt := rt
  rd := 0
  sa := 0
  imm := imm
  target := rt * 2 ^ 16 + imm

/-- A hand-authored `ADDIU rt, rs, imm` for tracker-level properties,
populated like `luiInstr`. -/
def addiuInstr (rt rs imm : Nat) : Instruction where
  raw := 9 * 2 ^ 26 + rs * 2 ^ 21 + rt * 2 ^ 16 + imm
  mnemonic := Mnemonic.addiu
  rs := rs
  rt := rt
  rd := 0
  sa := 0
  imm := imm
  target := (rs * 2 ^ 21 + rt * 2 ^ 16 + imm) % 2 ^ 26

/-! ## Pointer/Symbol Candidate Finder -/

/-- Modelled from the spec: §4.3 — the address-range filtering policy,
driven by `SYMBOL_FINDER_FILTER_LOW_ADDRESSES` and
`SYMBOL_FINDER_FILTER_HIGH_ADDRESSES` of
`src/spimdisasm/common/GlobalConfig.py` lines 64-67: values lower than
0x40000000 or higher than 0xC0000000 are filtered out. -/
def addressFilteredOut (cfg : GlobalConfig) (v : Nat) : Bool :=
  (cfg.SYMBOL_FINDER_FILTER_LOW_ADDRESSES && decide (v < 0x40000000)) ||
  (cfg.SYMBOL_FINDER_FILTER_HIGH_ADDRESSES && decide (0xC0000000 < v))

/-- What the finder decides for one scanned word: auto-promote to a
Symbol, keep as a constant-pair candidate, and/or allow %hi/%lo split
rendering. -/
structure FinderVerdict where
  promoteSymbol : Bool
  constantCandidate : Bool
  hiloCandidate : Bool
deriving DecidableEq

/-- Does the value fall inside any known section (half-open ranges)? -/
def inAnySection (sections : List (Nat × Nat)) (v : Nat) : Bool :=
  sections.any (fun s => s.1 ≤ v && v < s.2)

/-- Modelled from the spec: §4.3 — the Pointer/Symbol Candidate Finder
on one data word: a filtered value is never auto-promoted but may stay
a constant-pair candidate or a %hi/%lo rendering candidate per the
`SYMBOL_FINDER_FILTERED_ADDRESSES_AS_CONSTANTS` /
`SYMBOL_FINDER_FILTERED_ADDRESSES_AS_HILO` toggles (lines 68-71 of
`src/spimdisasm/common/GlobalConfig.py`); an unfiltered value is
promoted when it addresses a known section and new symbols are allowed. -/
def scanWord (cfg : GlobalConfig) (sections : List (Nat × Nat)) (v : Nat) :
    FinderVerdict :=
  if addressFilteredOut cfg v then
    { promoteSymbol := false
      constantCandidate := cfg.SYMBOL_FINDER_FILTERED_ADDRESSES_AS_CONSTANTS
      hiloCandidate := cfg.SYMBOL_FINDER_FILTERED_ADDRESSES_AS_HILO }
  else
    { promoteSymbol := inAnySection sections v && cfg.ADD_NEW_SYMBOLS
      constantCandidate := false
      hiloCandidate := true }

/-- An argument namespace in which no option was supplied: every
optional field is `none` and the endian option holds its argparse
default `"big"`. -/
def noneArgs : Args where
  disasm_unknown := none
  string_guesser := none
  name_vars_by_section := none
  name_vars_by_type := none
  compiler := none
  endian := "big"
  gp := none
  filter_low_addresses := none
  filter_high_addresses := none
  filtered_addresses_as_constants := none
  filtered_addresses_as_hilo := none
  asm_comments := none
  glabel_count := none
  asm_text_label := none
  asm_data_label := none
  asm_ent_label := none
  asm_end_label := none
  asm_func_as_label := none
  print_new_file_boundaries := none
  use_dot_byte := none
  use_dot_short := none
  verbose := none
  quiet := none
  debug_func_analysis := none
  debug_symbol_finder := none
  debug_unpaired_luis := none


/-! ## Theorems -/

/-! ### Symbol table lemmas -/

lemma mergeType_self (o : SymType) : mergeType o o = o := by
  cases o <;> rfl

lemma mergeType_idem (o e : SymType) : mergeType (mergeType o e) e = mergeType o e := by
  cases o <;> cases e <;> rfl

lemma mergeType_function (o : SymType) : mergeType o SymType.function = SymType.function := by
  cases o <;> rfl

lemma mergeType_function_left (e : SymType) : mergeType SymType.function e = SymType.function := by
  cases e <;> rfl

lemma applyHint_idem (o : SymType) (h : Option SymType) :
    applyHint (applyHint o h) h = applyHint o h := by
  cases h with
  | none => rfl
  | some x => exact mergeType_idem o x

lemma applyHint_getD (h : Option SymType) :
    applyHint (h.getD SymType.genericData) h = h.getD SymType.genericData := by
  cases h with
  | none => rfl
  | some x => exact mergeType_self x

/-- `getOrCreate` is idempotent at the level of whole tables: a second
call with the same address and hint changes nothing. -/
lemma goc_goc (t : SymbolTable) (a : Nat) (h : Option SymType) :
    getOrCreate (getOrCreate t a h) a h = getOrCreate t a h := by
  induction t with
  | nil => simp [getOrCreate, applyHint_getD]
  | cons s rest ih =>
    by_cases hs : s.address = a
    · simp [getOrCreate, hs, applyHint_idem]
    · simp [getOrCreate, hs, ih]

/-- A hint-less `getOrCreate` on an address just created or refined is
the identity. -/
lemma goc_none_goc (t : SymbolTable) (a : Nat) (h : Option SymType) :
    getOrCreate (getOrCreate t a h) a none = getOrCreate t a h := by
  induction t with
  | nil => simp [getOrCreate, applyHint]
  | cons s rest ih =>
    by_cases hs : s.address = a
    · simp [getOrCreate, hs, applyHint]
    · simp [getOrCreate, hs, ih]

/-- What `getOrCreate` leaves at the requested address. -/
lemma findSymbol_goc_self (t : SymbolTable) (a : Nat) (h : Option SymType) :
    findSymbol (getOrCreate t a h) a =
      some (match findSymbol t a with
            | some s => { s with symType := applyHint s.symType h }
            | none => ⟨a, h.getD SymType.genericData, none, []⟩) := by
  induction t with
  | nil => simp [getOrCreate, findSymbol]
  | cons s rest ih =>
    by_cases hs : s.address = a
    · simp [getOrCreate, findSymbol, hs]
    · simpa [getOrCreate, findSymbol, hs] using ih

/-- What `appendRef` leaves at the target address. -/
lemma findSymbol_appendRef_self (t : SymbolTable) (f a : Nat) :
    findSymbol (appendRef t f a) a =
      (findSymbol t a).map (fun s => { s with refs := s.refs ++ [f] }) := by
  induction t with
  | nil => simp [appendRef, findSymbol]
  | cons s rest ih =>
    by_cases hs : s.address = a
    · simp [appendRef, findSymbol, hs]
    · simpa [appendRef, findSymbol, hs] using ih

/-! ### Claim theorems C5, C4 -/

/-- C5: for an address already present in the Symbol Table, calling
`getOrCreate` a second time with the same address and no new evidence
(the same hint again, or no hint) leaves the symbol's recorded type and
size unchanged. -/
theorem C5_getOrCreate_idempotent (t : SymbolTable) (a : Nat) (hint : Option SymType) :
    typeAt (getOrCreate (getOrCreate t a hint) a hint) a
      = typeAt (getOrCreate t a hint) a ∧
    sizeAt (getOrCreate (getOrCreate t a hint) a hint) a
      = sizeAt (getOrCreate t a hint) a ∧
    typeAt (getOrCreate (getOrCreate t a hint) a none) a
      = typeAt (getOrCreate t a hint) a ∧
    sizeAt (getOrCreate (getOrCreate t a hint) a none) a
      = sizeAt (getOrCreate t a hint) a := by
  refine ⟨?_, ?_, ?_, ?_⟩ <;> simp [goc_goc, goc_none_goc]

/-- C4: a symbol first created by a data-pointer scan and then targeted
by a `JAL` ends with type Function (control-flow evidence wins), keeps
both the scan reference and the call reference, and — append-only — no
later hint can demote it from Function. -/
theorem C4_jal_promotion (t : SymbolTable) (a fromA fromB : Nat) (hint : SymType) :
    typeAt (applyJalTarget defaultConfig (applyDataScan t fromA a hint) fromB a) a
      = some SymType.function ∧
    fromA ∈ refsAt (applyJalTarget defaultConfig (applyDataScan t fromA a hint) fromB a) a ∧
    fromB ∈ refsAt (applyJalTarget defaultConfig (applyDataScan t fromA a hint) fromB a) a ∧
    (∀ h2 : SymType,
      typeAt (getOrCreate
        (applyJalTarget defaultConfig (applyDataScan t fromA a hint) fromB a)
        a (some h2)) a = some SymType.function) := by
  have e1 : applyDataScan t fromA a hint
      = appendRef (getOrCreate t a (some hint)) fromA a := by
    unfold applyDataScan addReference
    rw [goc_none_goc]
  have e2 : ∀ u : SymbolTable, applyJalTarget defaultConfig u fromB a
      = appendRef (getOrCreate u a (some SymType.function)) fromB a := by
    intro u
    unfold applyJalTarget
    rw [if_pos (show defaultConfig.TRUST_JAL_FUNCTIONS = true from rfl)]
    unfold addReference
    rw [goc_none_goc]
  rw [e1, e2]
  obtain ⟨s1, g1⟩ : ∃ x, findSymbol (getOrCreate t a (some hint)) a = some x :=
    ⟨_, findSymbol_goc_self t a (some hint)⟩
  have g2 : findSymbol (appendRef (getOrCreate t a (some hint)) fromA a) a
      = some { s1 with refs := s1.refs ++ [fromA] } := by
    rw [findSymbol_appendRef_self, g1]
    rfl
  have g3 : findSymbol
      (getOrCreate (appendRef (getOrCreate t a (some hint)) fromA a) a
        (some SymType.function)) a
      = some { s1 with symType := SymType.function, refs := s1.refs ++ [fromA] } := by
    rw [findSymbol_goc_self, g2]
    simp [applyHint, mergeType_function]
  have g4 : findSymbol
      (appendRef
        (getOrCreate (appendRef (getOrCreate t a (some hint)) fromA a) a
          (some SymType.function)) fromB a) a
      = some { s1 with symType := SymType.function,
                       refs := (s1.refs ++ [fromA]) ++ [fromB] } := by
    rw [findSymbol_appendRef_self, g3]
    rfl
  refine ⟨?_, ?_, ?_, ?_⟩
  · simp [typeAt, g4]
  · simp [refsAt, g4]
  · simp [refsAt, g4]
  · intro h2
    simp [typeAt, findSymbol_goc_self, g4, applyHint, mergeType_function_left]

/-! ### Claim theorems C8, C1, C7, C2 -/

/-- C8: `Compiler.fromStr` is total and never raises: it returns the
matching variant exactly for "IDO", "GCC" and "SN64", and
`Compiler.UNKNOWN` for every other string. -/
theorem C8_fromStr_total (s : String) :
    (Compiler.fromStr s = Compiler.IDO ↔ s = "IDO") ∧
    (Compiler.fromStr s = Compiler.GCC ↔ s = "GCC") ∧
    (Compiler.fromStr s = Compiler.SN64 ↔ s = "SN64") ∧
    (Compiler.fromStr s = Compiler.UNKNOWN ↔
      ¬(s = "IDO" ∨ s = "GCC" ∨ s = "SN64")) := by
  by_cases h1 : s = "IDO"
  · subst h1; decide
  · by_cases h2 : s = "GCC"
    · subst h2; decide
    · by_cases h3 : s = "SN64"
      · subst h3; decide
      · simp [Compiler.fromStr, compilerOptions, h1, h2, h3]

/-- C1: for every endianness and every stored byte quadruple, decoding
is total: the assembled word fits in 32 bits, the decoded Instruction
carries the raw word, it is either recognized or Unknown-tagged, and
whether an Unknown instruction aborts analysis is decided solely by the
`DISASSEMBLE_UNKNOWN_INSTRUCTIONS` policy flag, never by the decoder. -/
theorem C1_decoder_total (e : InputEndian) (b0 b1 b2 b3 : Nat)
    (h0 : b0 < 256) (h1 : b1 < 256) (h2 : b2 < 256) (h3 : b3 < 256) :
    wordFromBytes e b0 b1 b2 b3 < 2 ^ 32 ∧
    (decode (wordFromBytes e b0 b1 b2 b3)).raw = wordFromBytes e b0 b1 b2 b3 ∧
    ((decode (wordFromBytes e b0 b1 b2 b3)).isUnknown = false ∨
      ((decode (wordFromBytes e b0 b1 b2 b3)).isUnknown = true ∧
        (decode (wordFromBytes e b0 b1 b2 b3)).raw = wordFromBytes e b0 b1 b2 b3)) ∧
    (∀ cfg cfg' : GlobalConfig,
      cfg.DISASSEMBLE_UNKNOWN_INSTRUCTIONS = cfg'.DISASSEMBLE_UNKNOWN_INSTRUCTIONS →
      abortsAnalysis cfg (decode (wordFromBytes e b0 b1 b2 b3)) =
        abortsAnalysis cfg' (decode (wordFromBytes e b0 b1 b2 b3))) ∧
    (∀ cfg : GlobalConfig,
      (decode (wordFromBytes e b0 b1 b2 b3)).isUnknown = false →
      abortsAnalysis cfg (decode (wordFromBytes e b0 b1 b2 b3)) = false) := by
  refine ⟨?_, rfl, ?_, ?_, ?_⟩
  · cases e <;> simp only [wordFromBytes] <;> omega
  · cases hu : (decode (wordFromBytes e b0 b1 b2 b3)).isUnknown
    · exact Or.inl rfl
    · exact Or.inr ⟨rfl, rfl⟩
  · intro cfg cfg' hc
    simp [abortsAnalysis, hc]
  · intro cfg hu
    simp [abortsAnalysis, hu]

/-- Witness for C1 at a concrete input: the big-endian bytes of the
word `LUI $t0, 0x8012`. -/
theorem C1_decoder_total_witness :
    wordFromBytes InputEndian.BIG 60 8 128 18 < 2 ^ 32 ∧
    (decode (wordFromBytes InputEndian.BIG 60 8 128 18)).raw
      = wordFromBytes InputEndian.BIG 60 8 128 18 ∧
    ((decode (wordFromBytes InputEndian.BIG 60 8 128 18)).isUnknown = false ∨
      ((decode (wordFromBytes InputEndian.BIG 60 8 128 18)).isUnknown = true ∧
        (decode (wordFromBytes InputEndian.BIG 60 8 128 18)).raw
          = wordFromBytes InputEndian.BIG 60 8 128 18)) ∧
    (∀ cfg cfg' : GlobalConfig,
      cfg.DISASSEMBLE_UNKNOWN_INSTRUCTIONS = cfg'.DISASSEMBLE_UNKNOWN_INSTRUCTIONS →
      abortsAnalysis cfg (decode (wordFromBytes InputEndian.BIG 60 8 128 18)) =
        abortsAnalysis cfg' (decode (wordFromBytes InputEndian.BIG 60 8 128 18))) ∧
    (∀ cfg : GlobalConfig,
      (decode (wordFromBytes InputEndian.BIG 60 8 128 18)).isUnknown = false →
      abortsAnalysis cfg (decode (wordFromBytes InputEndian.BIG 60 8 128 18)) = false) :=
  C1_decoder_total InputEndian.BIG 60 8 128 18
    (by decide) (by decide) (by decide) (by decide)

/-- C7: under the filtering policy, a word whose value is below
0x40000000 or above 0xC0000000 is never auto-promoted to a Symbol; it
stays a constant-pair candidate and/or a %hi/%lo rendering candidate
exactly per the corresponding configuration toggles. -/
theorem C7_finder_filtering (cfg : GlobalConfig) (sections : List (Nat × Nat)) (v : Nat)
    (hlow : cfg.SYMBOL_FINDER_FILTER_LOW_ADDRESSES = true)
    (hhigh : cfg.SYMBOL_FINDER_FILTER_HIGH_ADDRESSES = true)
    (hv : v < 0x40000000 ∨ 0xC0000000 < v) :
    (scanWord cfg sections v).promoteSymbol = false ∧
    (scanWord cfg sections v).constantCandidate
      = cfg.SYMBOL_FINDER_FILTERED_ADDRESSES_AS_CONSTANTS ∧
    (scanWord cfg sections v).hiloCandidate
      = cfg.SYMBOL_FINDER_FILTERED_ADDRESSES_AS_HILO := by
  have hf : addressFilteredOut cfg v = true := by
    rcases hv with hv | hv <;> simp [addressFilteredOut, hlow, hhigh, hv]
  refine ⟨?_, ?_, ?_⟩ <;> simp [scanWord, hf]

/-- Witness for C7 at a concrete input: the plain constant 0x100 under
the default configuration. -/
theorem C7_finder_filtering_witness :
    (scanWord defaultConfig [] 256).promoteSymbol = false ∧
    (scanWord defaultConfig [] 256).constantCandidate
      = defaultConfig.SYMBOL_FINDER_FILTERED_ADDRESSES_AS_CONSTANTS ∧
    (scanWord defaultConfig [] 256).hiloCandidate
      = defaultConfig.SYMBOL_FINDER_FILTERED_ADDRESSES_AS_HILO :=
  C7_finder_filtering defaultConfig [] 256 rfl rfl (Or.inl (by decide))

/-- C2: `LUI $t0, 0x8012` directly followed by `ADDIU $t0, $t0, 0x3456`
resolves to the single relocation pair with target
`(0x8012 << 16) + sign_extend(0x3456) = 0x80123456`, and feeding the
pair into an empty Symbol Table creates a Symbol at that address. -/
theorem C2_lui_addiu_roundtrip :
    (trackFunction 0x80024000 [decode 0x3C088012, decode 0x25083456]).pairs
      = [⟨0x80024000, 0x80024004, 0x80123456⟩] ∧
    (trackFunction 0x80024000 [decode 0x3C088012, decode 0x25083456]).unpaired = [] ∧
    (findSymbol
      (feedPairs []
        (trackFunction 0x80024000 [decode 0x3C088012, decode 0x25083456]).pairs)
      0x80123456).isSome = true := by
  refine ⟨?_, ?_, ?_⟩ <;> rfl

/- Frame lemmas: each `parseArgs` step leaves every field it does not
own unchanged.  `frJJ_KK` says step `JJ` preserves the field owned by
step `KK`. -/

lemma fr02_01 (args : Args) (c : GlobalConfig) : (step02 args c).DISASSEMBLE_UNKNOWN_INSTRUCTIONS = c.DISASSEMBLE_UNKNOWN_INSTRUCTIONS := by cases h : args.string_guesser <;> simp [step02, h]
lemma fr03_01 (args : Args) (c : GlobalConfig) : (step03 args c).DISASSEMBLE_UNKNOWN_INSTRUCTIONS = c.DISASSEMBLE_UNKNOWN_INSTRUCTIONS := by cases h : args.name_vars_by_section <;> simp [step03, h]
lemma fr04_01 (args : Args) (c : GlobalConfig) : (step04 args c).DISASSEMBLE_UNKNOWN_INSTRUCTIONS = c.DISASSEMBLE_UNKNOWN_INSTRUCTIONS := by cases h : args.name_vars_by_type <;> simp [step04, h]
lemma fr05_01 (args : Args) (c : GlobalConfig) : (step05 args c).DISASSEMBLE_UNKNOWN_INSTRUCTIONS = c.DISASSEMBLE_UNKNOWN_INSTRUCTIONS := by cases h : args.compiler <;> simp [step05, h]
lemma fr06_01 (args : Args) (c : GlobalConfig) : (step06 args c).DISASSEMBLE_UNKNOWN_INSTRUCTIONS = c.DISASSEMBLE_UNKNOWN_INSTRUCTIONS := by by_cases h1 : args.endian = "little" <;> by_cases h2 : args.endian = "middle" <;> simp [step06, h1, h2]
lemma fr07_01 (args : Args) (c : GlobalConfig) : (step07 args c).DISASSEMBLE_UNKNOWN_INSTRUCTIONS = c.DISASSEMBLE_UNKNOWN_INSTRUCTIONS := by cases h : args.gp <;> simp [step07, h]
lemma fr08_01 (args : Args) (c : GlobalConfig) : (step08 args c).DISASSEMBLE_UNKNOWN_INSTRUCTIONS = c.DISASSEMBLE_UNKNOWN_INSTRUCTIONS := by cases h : args.filter_low_addresses <;> simp [step08, h]
lemma fr09_01 (args : Args) (c : GlobalConfig) : (step09 args c).DISASSEMBLE_UNKNOWN_INSTRUCTIONS = c.DISASSEMBLE_UNKNOWN_INSTRUCTIONS := by cases h : args.filter_high_addresses <;> simp [step09, h]
lemma fr10_01 (args : Args) (c : GlobalConfig) : (step10 args c).DISASSEMBLE_UNKNOWN_INSTRUCTIONS = c.DISASSEMBLE_UNKNOWN_INSTRUCTIONS := by cases h : args.filtered_addresses_as_constants <;> simp [step10, h]
lemma fr11_01 (args : Args) (c : GlobalConfig) : (step11 args c).DISASSEMBLE_UNKNOWN_INSTRUCTIONS = c.DISASSEMBLE_UNKNOWN_INSTRUCTIONS := by cases h : args.filtered_addresses_as_hilo <;> simp [step11, h]
lemma fr12_01 (args : Args) (c : GlobalConfig) : (step12 args c).DISASSEMBLE_UNKNOWN_INSTRUCTIONS = c.DISASSEMBLE_UNKNOWN_INSTRUCTIONS := by cases h : args.asm_comments <;> simp [step12, h]
lemma fr13_01 (args : Args) (c : GlobalConfig) : (step13 args c).DISASSEMBLE_UNKNOWN_INSTRUCTIONS = c.DISASSEMBLE_UNKNOWN_INSTRUCTIONS := by cases h : args.glabel_count <;> simp [step13, h]
lemma fr14_01 (args : Args) (c : GlobalConfig) : (step14 args c).DISASSEMBLE_UNKNOWN_INSTRUCTIONS = c.DISASSEMBLE_UNKNOWN_INSTRUCTIONS := by cases h : args.asm_text_label <;> simp only [step14, h] <;> first | rfl | (split <;> rfl)
lemma fr15_01 (args : Args) (c : GlobalConfig) : (step15 args c).DISASSEMBLE_UNKNOWN_INSTRUCTIONS = c.DISASSEMBLE_UNKNOWN_INSTRUCTIONS := by cases h : args.asm_data_label <;> simp only [step15, h] <;> first | rfl | (split <;> rfl)
lemma fr16_01 (args : Args) (c : GlobalConfig) : (step16 args c).DISASSEMBLE_UNKNOWN_INSTRUCTIONS = c.DISASSEMBLE_UNKNOWN_INSTRUCTIONS := by cases h : args.asm_ent_label <;> simp only [step16, h] <;> first | rfl | (split <;> rfl)
lemma fr17_01 (args : Args) (c : GlobalConfig) : (step17 args c).DISASSEMBLE_UNKNOWN_INSTRUCTIONS = c.DISASSEMBLE_UNKNOWN_INSTRUCTIONS := by cases h : args.asm_end_label <;> simp only [step17, h] <;> first | rfl | (split <;> rfl)
lemma fr18_01 (args : Args) (c : GlobalConfig) : (step18 args c).DISASSEMBLE_UNKNOWN_INSTRUCTIONS = c.DISASSEMBLE_UNKNOWN_INSTRUCTIONS := by cases h : args.asm_func_as_label <;> simp [step18, h]
lemma fr19_01 (args : Args) (c : GlobalConfig) : (step19 args c).DISASSEMBLE_UNKNOWN_INSTRUCTIONS = c.DISASSEMBLE_UNKNOWN_INSTRUCTIONS := by cases h : args.print_new_file_boundaries <;> simp [step19, h]
lemma fr20_01 (args : Args) (c : GlobalConfig) : (step20 args c).DISASSEMBLE_UNKNOWN_INSTRUCTIONS = c.DISASSEMBLE_UNKNOWN_INSTRUCTIONS := by cases h : args.use_dot_byte <;> simp [step20, h]
lemma fr21_01 (args : Args) (c : GlobalConfig) : (step21 args c).DISASSEMBLE_UNKNOWN_INSTRUCTIONS = c.DISASSEMBLE_UNKNOWN_INSTRUCTIONS := by cases h : args.use_dot_short <;> simp [step21, h]
lemma fr22_01 (args : Args) (c : GlobalConfig) : (step22 args c).DISASSEMBLE_UNKNOWN_INSTRUCTIONS = c.DISASSEMBLE_UNKNOWN_INSTRUCTIONS := by cases h : args.verbose <;> simp [step22, h]
lemma fr23_01 (args : Args) (c : GlobalConfig) : (step23 args c).DISASSEMBLE_UNKNOWN_INSTRUCTIONS = c.DISASSEMBLE_UNKNOWN_INSTRUCTIONS := by cases h : args.quiet <;> simp [step23, h]
lemma fr24_01 (args : Args) (c : GlobalConfig) : (step24 args c).DISASSEMBLE_UNKNOWN_INSTRUCTIONS = c.DISASSEMBLE_UNKNOWN_INSTRUCTIONS := by cases h : args.debug_func_analysis <;> simp [step24, h]
lemma fr25_01 (args : Args) (c : GlobalConfig) : (step25 args c).DISASSEMBLE_UNKNOWN_INSTRUCTIONS = c.DISASSEMBLE_UNKNOWN_INSTRUCTIONS := by cases h : args.debug_symbol_finder <;> simp [step25, h]
lemma fr26_01 (args : Args) (c : GlobalConfig) : (step26 args c).DISASSEMBLE_UNKNOWN_INSTRUCTIONS = c.DISASSEMBLE_UNKNOWN_INSTRUCTIONS := by cases h : args.debug_unpaired_luis <;> simp [step26, h]

lemma fr01_02 (args : Args) (c : GlobalConfig) : (step01 args c).STRING_GUESSER = c.STRING_GUESSER := by cases h : args.disasm_unknown <;> simp [step01, h]
lemma fr03_02 (args : Args) (c : GlobalConfig) : (step03 args c).STRING_GUESSER = c.STRING_GUESSER := by cases h : args.name_vars_by_section <;> simp [step03, h]
lemma fr04_02 (args : Args) (c : GlobalConfig) : (step04 args c).STRING_GUESSER = c.STRING_GUESSER := by cases h : args.name_vars_by_type <;> simp [step04, h]
lemma fr05_02 (args : Args) (c : GlobalConfig) : (step05 args c).STRING_GUESSER = c.STRING_GUESSER := by cases h : args.compiler <;> simp [step05, h]
lemma fr06_02 (args : Args) (c : GlobalConfig) : (step06 args c).STRING_GUESSER = c.STRING_GUESSER := by by_cases h1 : args.endian = "little" <;> by_cases h2 : args.endian = "middle" <;> simp [step06, h1, h2]
lemma fr07_02 (args : Args) (c : GlobalConfig) : (step07 args c).STRING_GUESSER = c.STRING_GUESSER := by cases h : args.gp <;> simp [step07, h]
lemma fr08_02 (args : Args) (c : GlobalConfig) : (step08 args c).STRING_GUESSER = c.STRING_GUESSER := by cases h : args.filter_low_addresses <;> simp [step08, h]
lemma fr09_02 (args : Args) (c : GlobalConfig) : (step09 args c).STRING_GUESSER = c.STRING_GUESSER := by cases h : args.filter_high_addresses <;> simp [step09, h]
lemma fr10_02 (args : Args) (c : GlobalConfig) : (step10 args c).STRING_GUESSER = c.STRING_GUESSER := by cases h : args.filtered_addresses_as_constants <;> simp [step10, h]
lemma fr11_02 (args : Args) (c : GlobalConfig) : (step11 args c).STRING_GUESSER = c.STRING_GUESSER := by cases h : args.filtered_addresses_as_hilo <;> simp [step11, h]
lemma fr12_02 (args : Args) (c : GlobalConfig) : (step12 args c).STRING_GUESSER = c.STRING_GUESSER := by cases h : args.asm_comments <;> simp [step12, h]
lemma fr13_02 (args : Args) (c : GlobalConfig) : (step13 args c).STRING_GUESSER = c.STRING_GUESSER := by cases h : args.glabel_count <;> simp [step13, h]
lemma fr14_02 (args : Args) (c : GlobalConfig) : (step14 args c).STRING_GUESSER = c.STRING_GUESSER := by cases h : args.asm_text_label <;> simp only [step14, h] <;> first | rfl | (split <;> rfl)
lemma fr15_02 (args : Args) (c : GlobalConfig) : (step15 args c).STRING_GUESSER = c.STRING_GUESSER := by cases h : args.asm_data_label <;> simp only [step15, h] <;> first | rfl | (split <;> rfl)
lemma fr16_02 (args : Args) (c : GlobalConfig) : (step16 args c).STRING_GUESSER = c.STRING_GUESSER := by cases h : args.asm_ent_label <;> simp only [step16, h] <;> first | rfl | (split <;> rfl)
lemma fr17_02 (args : Args) (c : GlobalConfig) : (step17 args c).STRING_GUESSER = c.STRING_GUESSER := by cases h : args.asm_end_label <;> simp only [step17, h] <;> first | rfl | (split <;> rfl)
lemma fr18_02 (args : Args) (c : GlobalConfig) : (step18 args c).STRING_GUESSER = c.STRING_GUESSER := by cases h : args.asm_func_as_label <;> simp [step18, h]
lemma fr19_02 (args : Args) (c : GlobalConfig) : (step19 args c).STRING_GUESSER = c.STRING_GUESSER := by cases h : args.print_new_file_boundaries <;> simp [step19, h]
lemma fr20_02 (args : Args) (c : GlobalConfig) : (step20 args c).STRING_GUESSER = c.STRING_GUESSER := by cases h : args.use_dot_byte <;> simp [step20, h]
lemma fr21_02 (args : Args) (c : GlobalConfig) : (step21 args c).STRING_GUESSER = c.STRING_GUESSER := by cases h : args.use_dot_short <;> simp [step21, h]
lemma fr22_02 (args : Args) (c : GlobalConfig) : (step22 args c).STRING_GUESSER = c.STRING_GUESSER := by cases h : args.verbose <;> simp [step22, h]
lemma fr23_02 (args : Args) (c : GlobalConfig) : (step23 args c).STRING_GUESSER = c.STRING_GUESSER := by cases h : args.quiet <;> simp [step23, h]
lemma fr24_02 (args : Args) (c : GlobalConfig) : (step24 args c).STRING_GUESSER = c.STRING_GUESSER := by cases h : args.debug_func_analysis <;> simp [step24, h]
lemma fr25_02 (args : Args) (c : GlobalConfig) : (step25 args c).STRING_GUESSER = c.STRING_GUESSER := by cases h : args.debug_symbol_finder <;> simp [step25, h]
lemma fr26_02 (args : Args) (c : GlobalConfig) : (step26 args c).STRING_GUESSER = c.STRING_GUESSER := by cases h : args.debug_unpaired_luis <;> simp [step26, h]

lemma fr01_03 (args : Args) (c : GlobalConfig) : (step01 args c).AUTOGENERATED_NAMES_BASED_ON_SECTION_TYPE = c.AUTOGENERATED_NAMES_BASED_ON_SECTION_TYPE := by cases h : args.disasm_unknown <;> simp [step01, h]
lemma fr02_03 (args : Args) (c : GlobalConfig) : (step02 args c).AUTOGENERATED_NAMES_BASED_ON_SECTION_TYPE = c.AUTOGENERATED_NAMES_BASED_ON_SECTION_TYPE := by cases h : args.string_guesser <;> simp [step02, h]
lemma fr04_03 (args : Args) (c : GlobalConfig) : (step04 args c).AUTOGENERATED_NAMES_BASED_ON_SECTION_TYPE = c.AUTOGENERATED_NAMES_BASED_ON_SECTION_TYPE := by cases h : args.name_vars_by_type <;> simp [step04, h]
lemma fr05_03 (args : Args) (c : GlobalConfig) : (step05 args c).AUTOGENERATED_NAMES_BASED_ON_SECTION_TYPE = c.AUTOGENERATED_NAMES_BASED_ON_SECTION_TYPE := by cases h : args.compiler <;> simp [step05, h]
lemma fr06_03 (args : Args) (c : GlobalConfig) : (step06 args c).AUTOGENERATED_NAMES_BASED_ON_SECTION_TYPE = c.AUTOGENERATED_NAMES_BASED_ON_SECTION_TYPE := by by_cases h1 : args.endian = "little" <;> by_cases h2 : args.endian = "middle" <;> simp [step06, h1, h2]
lemma fr07_03 (args : Args) (c : GlobalConfig) : (step07 args c).AUTOGENERATED_NAMES_BASED_ON_SECTION_TYPE = c.AUTOGENERATED_NAMES_BASED_ON_SECTION_TYPE := by cases h : args.gp <;> simp [step07, h]
lemma fr08_03 (args : Args) (c : GlobalConfig) : (step08 args c).AUTOGENERATED_NAMES_BASED_ON_SECTION_TYPE = c.AUTOGENERATED_NAMES_BASED_ON_SECTION_TYPE := by cases h : args.filter_low_addresses <;> simp [step08, h]
lemma fr09_03 (args : Args) (c : GlobalConfig) : (step09 args c).AUTOGENERATED_NAMES_BASED_ON_SECTION_TYPE = c.AUTOGENERATED_NAMES_BASED_ON_SECTION_TYPE := by cases h : args.filter_high_addresses <;> simp [step09, h]
lemma fr10_03 (args : Args) (c : GlobalConfig) : (step10 args c).AUTOGENERATED_NAMES_BASED_ON_SECTION_TYPE = c.AUTOGENERATED_NAMES_BASED_ON_SECTION_TYPE := by cases h : args.filtered_addresses_as_constants <;> simp [step10, h]
lemma fr11_03 (args : Args) (c : GlobalConfig) : (step11 args c).AUTOGENERATED_NAMES_BASED_ON_SECTION_TYPE = c.AUTOGENERATED_NAMES_BASED_ON_SECTION_TYPE := by cases h : args.filtered_addresses_as_hilo <;> simp [step11, h]
lemma fr12_03 (args : Args) (c : GlobalConfig) : (step12 args c).AUTOGENERATED_NAMES_BASED_ON_SECTION_TYPE = c.AUTOGENERATED_NAMES_BASED_ON_SECTION_TYPE := by cases h : args.asm_comments <;> simp [step12, h]
lemma fr13_03 (args : Args) (c : GlobalConfig) : (step13 args c).AUTOGENERATED_NAMES_BASED_ON_SECTION_TYPE = c.AUTOGENERATED_NAMES_BASED_ON_SECTION_TYPE := by cases h : args.glabel_count <;> simp [step13, h]
lemma fr14_03 (args : Args) (c : GlobalConfig) : (step14 args c).AUTOGENERATED_NAMES_BASED_ON_SECTION_TYPE = c.AUTOGENERATED_NAMES_BASED_ON_SECTION_TYPE := by cases h : args.asm_text_label <;> simp only [step14, h] <;> first | rfl | (split <;> rfl)
lemma fr15_03 (args : Args) (c : GlobalConfig) : (step15 args c).AUTOGENERATED_NAMES_BASED_ON_SECTION_TYPE = c.AUTOGENERATED_NAMES_BASED_ON_SECTION_TYPE := by cases h : args.asm_data_label <;> simp only [step15, h] <;> first | rfl | (split <;> rfl)
lemma fr16_03 (args : Args) (c : GlobalConfig) : (step16 args c).AUTOGENERATED_NAMES_BASED_ON_SECTION_TYPE = c.AUTOGENERATED_NAMES_BASED_ON_SECTION_TYPE := by cases h : args.asm_ent_label <;> simp only [step16, h] <;> first | rfl | (split <;> rfl)
lemma fr17_03 (args : Args) (c : GlobalConfig) : (step17 args c).AUTOGENERATED_NAMES_BASED_ON_SECTION_TYPE = c.AUTOGENERATED_NAMES_BASED_ON_SECTION_TYPE := by cases h : args.asm_end_label <;> simp only [step17, h] <;> first | rfl | (split <;> rfl)
lemma fr18_03 (args : Args) (c : GlobalConfig) : (step18 args c).AUTOGENERATED_NAMES_BASED_ON_SECTION_TYPE = c.AUTOGENERATED_NAMES_BASED_ON_SECTION_TYPE := by cases h : args.asm_func_as_label <;> simp [step18, h]
lemma fr19_03 (args : Args) (c : GlobalConfig) : (step19 args c).AUTOGENERATED_NAMES_BASED_ON_SECTION_TYPE = c.AUTOGENERATED_NAMES_BASED_ON_SECTION_TYPE := by cases h : args.print_new_file_boundaries <;> simp [step19, h]
lemma fr20_03 (args : Args) (c : GlobalConfig) : (step20 args c).AUTOGENERATED_NAMES_BASED_ON_SECTION_TYPE = c.AUTOGENERATED_NAMES_BASED_ON_SECTION_TYPE := by cases h : args.use_dot_byte <;> simp [step20, h]
lemma fr21_03 (args : Args) (c : GlobalConfig) : (step21 args c).AUTOGENERATED_NAMES_BASED_ON_SECTION_TYPE = c.AUTOGENERATED_NAMES_BASED_ON_SECTION_TYPE := by cases h : args.use_dot_short <;> simp [step21, h]
lemma fr22_03 (args : Args) (c : GlobalConfig) : (step22 args c).AUTOGENERATED_NAMES_BASED_ON_SECTION_TYPE = c.AUTOGENERATED_NAMES_BASED_ON_SECTION_TYPE := by cases h : args.verbose <;> simp [step22, h]
lemma fr23_03 (args : Args) (c : GlobalConfig) : (step23 args c).AUTOGENERATED_NAMES_BASED_ON_SECTION_TYPE = c.AUTOGENERATED_NAMES_BASED_ON_SECTION_TYPE := by cases h : args.quiet <;> simp [step23, h]
lemma fr24_03 (args : Args) (c : GlobalConfig) : (step24 args c).AUTOGENERATED_NAMES_BASED_ON_SECTION_TYPE = c.AUTOGENERATED_NAMES_BASED_ON_SECTION_TYPE := by cases h : args.debug_func_analysis <;> simp [step24, h]
lemma fr25_03 (args : Args) (c : GlobalConfig) : (step25 args c).AUTOGENERATED_NAMES_BASED_ON_SECTION_TYPE = c.AUTOGENERATED_NAMES_BASED_ON_SECTION_TYPE := by cases h : args.debug_symbol_finder <;> simp [step25, h]
lemma fr26_03 (args : Args) (c : GlobalConfig) : (step26 args c).AUTOGENERATED_NAMES_BASED_ON_SECTION_TYPE = c.AUTOGENERATED_NAMES_BASED_ON_SECTION_TYPE := by cases h : args.debug_unpaired_luis <;> simp [step26, h]

lemma fr01_04 (args : Args) (c : GlobalConfig) : (step01 args c).AUTOGENERATED_NAMES_BASED_ON_DATA_TYPE = c.AUTOGENERATED_NAMES_BASED_ON_DATA_TYPE := by cases h : args.disasm_unknown <;> simp [step01, h]
lemma fr02_04 (args : Args) (c : GlobalConfig) : (step02 args c).AUTOGENERATED_NAMES_BASED_ON_DATA_TYPE = c.AUTOGENERATED_NAMES_BASED_ON_DATA_TYPE := by cases h : args.string_guesser <;> simp [step02, h]
lemma fr03_04 (args : Args) (c : GlobalConfig) : (step03 args c).AUTOGENERATED_NAMES_BASED_ON_DATA_TYPE = c.AUTOGENERATED_NAMES_BASED_ON_DATA_TYPE := by cases h : args.name_vars_by_section <;> simp [step03, h]
lemma fr05_04 (args : Args) (c : GlobalConfig) : (step05 args c).AUTOGENERATED_NAMES_BASED_ON_DATA_TYPE = c.AUTOGENERATED_NAMES_BASED_ON_DATA_TYPE := by cases h : args.compiler <;> simp [step05, h]
lemma fr06_04 (args : Args) (c : GlobalConfig) : (step06 args c).AUTOGENERATED_NAMES_BASED_ON_DATA_TYPE = c.AUTOGENERATED_NAMES_BASED_ON_DATA_TYPE := by by_cases h1 : args.endian = "little" <;> by_cases h2 : args.endian = "middle" <;> simp [step06, h1, h2]
lemma fr07_04 (args : Args) (c : GlobalConfig) : (step07 args c).AUTOGENERATED_NAMES_BASED_ON_DATA_TYPE = c.AUTOGENERATED_NAMES_BASED_ON_DATA_TYPE := by cases h : args.gp <;> simp [step07, h]
lemma fr08_04 (args : Args) (c : GlobalConfig) : (step08 args c).AUTOGENERATED_NAMES_BASED_ON_DATA_TYPE = c.AUTOGENERATED_NAMES_BASED_ON_DATA_TYPE := by cases h : args.filter_low_addresses <;> simp [step08, h]
lemma fr09_04 (args : Args) (c : GlobalConfig) : (step09 args c).AUTOGENERATED_NAMES_BASED_ON_DATA_TYPE = c.AUTOGENERATED_NAMES_BASED_ON_DATA_TYPE := by cases h : args.filter_high_addresses <;> simp [step09, h]
lemma fr10_04 (args : Args) (c : GlobalConfig) : (step10 args c).AUTOGENERATED_NAMES_BASED_ON_DATA_TYPE = c.AUTOGENERATED_NAMES_BASED_ON_DATA_TYPE := by cases h : args.filtered_addresses_as_constants <;> simp [step10, h]
lemma fr11_04 (args : Args) (c : GlobalConfig) : (step11 args c).AUTOGENERATED_NAMES_BASED_ON_DATA_TYPE = c.AUTOGENERATED_NAMES_BASED_ON_DATA_TYPE := by cases h : args.filtered_addresses_as_hilo <;> simp [step11, h]
lemma fr12_04 (args : Args) (c : GlobalConfig) : (step12 args c).AUTOGENERATED_NAMES_BASED_ON_DATA_TYPE = c.AUTOGENERATED_NAMES_BASED_ON_DATA_TYPE := by cases h : args.asm_comments <;> simp [step12, h]
lemma fr13_04 (args : Args) (c : GlobalConfig) : (step13 args c).AUTOGENERATED_NAMES_BASED_ON_DATA_TYPE = c.AUTOGENERATED_NAMES_BASED_ON_DATA_TYPE := by cases h : args.glabel_count <;> simp [step13, h]
lemma fr14_04 (args : Args) (c : GlobalConfig) : (step14 args c).AUTOGENERATED_NAMES_BASED_ON_DATA_TYPE = c.AUTOGENERATED_NAMES_BASED_ON_DATA_TYPE := by cases h : args.asm_text_label <;> simp only [step14, h] <;> first | rfl | (split <;> rfl)
lemma fr15_04 (args : Args) (c : GlobalConfig) : (step15 args c).AUTOGENERATED_NAMES_BASED_ON_DATA_TYPE = c.AUTOGENERATED_NAMES_BASED_ON_DATA_TYPE := by cases h : args.asm_data_label <;> simp only [step15, h] <;> first | rfl | (split <;> rfl)
lemma fr16_04 (args : Args) (c : GlobalConfig) : (step16 args c).AUTOGENERATED_NAMES_BASED_ON_DATA_TYPE = c.AUTOGENERATED_NAMES_BASED_ON_DATA_TYPE := by cases h : args.asm_ent_label <;> simp only [step16, h] <;> first | rfl | (split <;> rfl)
lemma fr17_04 (args : Args) (c : GlobalConfig) : (step17 args c).AUTOGENERATED_NAMES_BASED_ON_DATA_TYPE = c.AUTOGENERATED_NAMES_BASED_ON_DATA_TYPE := by cases h : args.asm_end_label <;> simp only [step17, h] <;> first | rfl | (split <;> rfl)
lemma fr18_04 (args : Args) (c : GlobalConfig) : (step18 args c).AUTOGENERATED_NAMES_BASED_ON_DATA_TYPE = c.AUTOGENERATED_NAMES_BASED_ON_DATA_TYPE := by cases h : args.asm_func_as_label <;> simp [step18, h]
lemma fr19_04 (args : Args) (c : GlobalConfig) : (step19 args c).AUTOGENERATED_NAMES_BASED_ON_DATA_TYPE = c.AUTOGENERATED_NAMES_BASED_ON_DATA_TYPE := by cases h : args.print_new_file_boundaries <;> simp [step19, h]
lemma fr20_04 (args : Args) (c : GlobalConfig) : (step20 args c).AUTOGENERATED_NAMES_BASED_ON_DATA_TYPE = c.AUTOGENERATED_NAMES_BASED_ON_DATA_TYPE := by cases h : args.use_dot_byte <;> simp [step20, h]
lemma fr21_04 (args : Args) (c : GlobalConfig) : (step21 args c).AUTOGENERATED_NAMES_BASED_ON_DATA_TYPE = c.AUTOGENERATED_NAMES_BASED_ON_DATA_TYPE := by cases h : args.use_dot_short <;> simp [step21, h]
lemma fr22_04 (args : Args) (c : GlobalConfig) : (step22 args c).AUTOGENERATED_NAMES_BASED_ON_DATA_TYPE = c.AUTOGENERATED_NAMES_BASED_ON_DATA_TYPE := by cases h : args.verbose <;> simp [step22, h]
lemma fr23_04 (args : Args) (c : GlobalConfig) : (step23 args c).AUTOGENERATED_NAMES_BASED_ON_DATA_TYPE = c.AUTOGENERATED_NAMES_BASED_ON_DATA_TYPE := by cases h : args.quiet <;> simp [step23, h]
lemma fr24_04 (args : Args) (c : GlobalConfig) : (step24 args c).AUTOGENERATED_NAMES_BASED_ON_DATA_TYPE = c.AUTOGENERATED_NAMES_BASED_ON_DATA_TYPE := by cases h : args.debug_func_analysis <;> simp [step24, h]
lemma fr25_04 (args : Args) (c : GlobalConfig) : (step25 args c).AUTOGENERATED_NAMES_BASED_ON_DATA_TYPE = c.AUTOGENERATED_NAMES_BASED_ON_DATA_TYPE := by cases h : args.debug_symbol_finder <;> simp [step25, h]
lemma fr26_04 (args : Args) (c : GlobalConfig) : (step26 args c).AUTOGENERATED_NAMES_BASED_ON_DATA_TYPE = c.AUTOGENERATED_NAMES_BASED_ON_DATA_TYPE := by cases h : args.debug_unpaired_luis <;> simp [step26, h]

lemma fr01_05 (args : Args) (c : GlobalConfig) : (step01 args c).COMPILER = c.COMPILER := by cases h : args.disasm_unknown <;> simp [step01, h]
lemma fr02_05 (args : Args) (c : GlobalConfig) : (step02 args c).COMPILER = c.COMPILER := by cases h : args.string_guesser <;> simp [step02, h]
lemma fr03_05 (args : Args) (c : GlobalConfig) : (step03 args c).COMPILER = c.COMPILER := by cases h : args.name_vars_by_section <;> simp [step03, h]
lemma fr04_05 (args : Args) (c : GlobalConfig) : (step04 args c).COMPILER = c.COMPILER := by cases h : args.name_vars_by_type <;> simp [step04, h]
lemma fr06_05 (args : Args) (c : GlobalConfig) : (step06 args c).COMPILER = c.COMPILER := by by_cases h1 : args.endian = "little" <;> by_cases h2 : args.endian = "middle" <;> simp [step06, h1, h2]
lemma fr07_05 (args : Args) (c : GlobalConfig) : (step07 args c).COMPILER = c.COMPILER := by cases h : args.gp <;> simp [step07, h]
lemma fr08_05 (args : Args) (c : GlobalConfig) : (step08 args c).COMPILER = c.COMPILER := by cases h : args.filter_low_addresses <;> simp [step08, h]
lemma fr09_05 (args : Args) (c : GlobalConfig) : (step09 args c).COMPILER = c.COMPILER := by cases h : args.filter_high_addresses <;> simp [step09, h]
lemma fr10_05 (args : Args) (c : GlobalConfig) : (step10 args c).COMPILER = c.COMPILER := by cases h : args.filtered_addresses_as_constants <;> simp [step10, h]
lemma fr11_05 (args : Args) (c : GlobalConfig) : (step11 args c).COMPILER = c.COMPILER := by cases h : args.filtered_addresses_as_hilo <;> simp [step11, h]
lemma fr12_05 (args : Args) (c : GlobalConfig) : (step12 args c).COMPILER = c.COMPILER := by cases h : args.asm_comments <;> simp [step12, h]
lemma fr13_05 (args : Args) (c : GlobalConfig) : (step13 args c).COMPILER = c.COMPILER := by cases h : args.glabel_count <;> simp [step13, h]
lemma fr14_05 (args : Args) (c : GlobalConfig) : (step14 args c).COMPILER = c.COMPILER := by cases h : args.asm_text_label <;> simp only [step14, h] <;> first | rfl | (split <;> rfl)
lemma fr15_05 (args : Args) (c : GlobalConfig) : (step15 args c).COMPILER = c.COMPILER := by cases h : args.asm_data_label <;> simp only [step15, h] <;> first | rfl | (split <;> rfl)
lemma fr16_05 (args : Args) (c : GlobalConfig) : (step16 args c).COMPILER = c.COMPILER := by cases h : args.asm_ent_label <;> simp only [step16, h] <;> first | rfl | (split <;> rfl)
lemma fr17_05 (args : Args) (c : GlobalConfig) : (step17 args c).COMPILER = c.COMPILER := by cases h : args.asm_end_label <;> simp only [step17, h] <;> first | rfl | (split <;> rfl)
lemma fr18_05 (args : Args) (c : GlobalConfig) : (step18 args c).COMPILER = c.COMPILER := by cases h : args.asm_func_as_label <;> simp [step18, h]
lemma fr19_05 (args : Args) (c : GlobalConfig) : (step19 args c).COMPILER = c.COMPILER := by cases h : args.print_new_file_boundaries <;> simp [step19, h]
lemma fr20_05 (args : Args) (c : GlobalConfig) : (step20 args c).COMPILER = c.COMPILER := by cases h : args.use_dot_byte <;> simp [step20, h]
lemma fr21_05 (args : Args) (c : GlobalConfig) : (step21 args c).COMPILER = c.COMPILER := by cases h : args.use_dot_short <;> simp [step21, h]
lemma fr22_05 (args : Args) (c : GlobalConfig) : (step22 args c).COMPILER = c.COMPILER := by cases h : args.verbose <;> simp [step22, h]
lemma fr23_05 (args : Args) (c : GlobalConfig) : (step23 args c).COMPILER = c.COMPILER := by cases h : args.quiet <;> simp [step23, h]
lemma fr24_05 (args : Args) (c : GlobalConfig) : (step24 args c).COMPILER = c.COMPILER := by cases h : args.debug_func_analysis <;> simp [step24, h]
lemma fr25_05 (args : Args) (c : GlobalConfig) : (step25 args c).COMPILER = c.COMPILER := by cases h : args.debug_symbol_finder <;> simp [step25, h]
lemma fr26_05 (args : Args) (c : GlobalConfig) : (step26 args c).COMPILER = c.COMPILER := by cases h : args.debug_unpaired_luis <;> simp [step26, h]

lemma fr01_06 (args : Args) (c : GlobalConfig) : (step01 args c).ENDIAN = c.ENDIAN := by cases h : args.disasm_unknown <;> simp [step01, h]
lemma fr02_06 (args : Args) (c : GlobalConfig) : (step02 args c).ENDIAN = c.ENDIAN := by cases h : args.string_guesser <;> simp [step02, h]
lemma fr03_06 (args : Args) (c : GlobalConfig) : (step03 args c).ENDIAN = c.ENDIAN := by cases h : args.name_vars_by_section <;> simp [step03, h]
lemma fr04_06 (args : Args) (c : GlobalConfig) : (step04 args c).ENDIAN = c.ENDIAN := by cases h : args.name_vars_by_type <;> simp [step04, h]
lemma fr05_06 (args : Args) (c : GlobalConfig) : (step05 args c).ENDIAN = c.ENDIAN := by cases h : args.compiler <;> simp [step05, h]
lemma fr07_06 (args : Args) (c : GlobalConfig) : (step07 args c).ENDIAN = c.ENDIAN := by cases h : args.gp <;> simp [step07, h]
lemma fr08_06 (args : Args) (c : GlobalConfig) : (step08 args c).ENDIAN = c.ENDIAN := by cases h : args.filter_low_addresses <;> simp [step08, h]
lemma fr09_06 (args : Args) (c : GlobalConfig) : (step09 args c).ENDIAN = c.ENDIAN := by cases h : args.filter_high_addresses <;> simp [step09, h]
lemma fr10_06 (args : Args) (c : GlobalConfig) : (step10 args c).ENDIAN = c.ENDIAN := by cases h : args.filtered_addresses_as_constants <;> simp [step10, h]
lemma fr11_06 (args : Args) (c : GlobalConfig) : (step11 args c).ENDIAN = c.ENDIAN := by cases h : args.filtered_addresses_as_hilo <;> simp [step11, h]
lemma fr12_06 (args : Args) (c : GlobalConfig) : (step12 args c).ENDIAN = c.ENDIAN := by cases h : args.asm_comments <;> simp [step12, h]
lemma fr13_06 (args : Args) (c : GlobalConfig) : (step13 args c).ENDIAN = c.ENDIAN := by cases h : args.glabel_count <;> simp [step13, h]
lemma fr14_06 (args : Args) (c : GlobalConfig) : (step14 args c).ENDIAN = c.ENDIAN := by cases h : args.asm_text_label <;> simp only [step14, h] <;> first | rfl | (split <;> rfl)
lemma fr15_06 (args : Args) (c : GlobalConfig) : (step15 args c).ENDIAN = c.ENDIAN := by cases h : args.asm_data_label <;> simp only [step15, h] <;> first | rfl | (split <;> rfl)
lemma fr16_06 (args : Args) (c : GlobalConfig) : (step16 args c).ENDIAN = c.ENDIAN := by cases h : args.asm_ent_label <;> simp only [step16, h] <;> first | rfl | (split <;> rfl)
lemma fr17_06 (args : Args) (c : GlobalConfig) : (step17 args c).ENDIAN = c.ENDIAN := by cases h : args.asm_end_label <;> simp only [step17, h] <;> first | rfl | (split <;> rfl)
lemma fr18_06 (args : Args) (c : GlobalConfig) : (step18 args c).ENDIAN = c.ENDIAN := by cases h : args.asm_func_as_label <;> simp [step18, h]
lemma fr19_06 (args : Args) (c : GlobalConfig) : (step19 args c).ENDIAN = c.ENDIAN := by cases h : args.print_new_file_boundaries <;> simp [step19, h]
lemma fr20_06 (args : Args) (c : GlobalConfig) : (step20 args c).ENDIAN = c.ENDIAN := by cases h : args.use_dot_byte <;> simp [step20, h]
lemma fr21_06 (args : Args) (c : GlobalConfig) : (step21 args c).ENDIAN = c.ENDIAN := by cases h : args.use_dot_short <;> simp [step21, h]
lemma fr22_06 (args : Args) (c : GlobalConfig) : (step22 args c).ENDIAN = c.ENDIAN := by cases h : args.verbose <;> simp [step22, h]
lemma fr23_06 (args : Args) (c : GlobalConfig) : (step23 args c).ENDIAN = c.ENDIAN := by cases h : args.quiet <;> simp [step23, h]
lemma fr24_06 (args : Args) (c : GlobalConfig) : (step24 args c).ENDIAN = c.ENDIAN := by cases h : args.debug_func_analysis <;> simp [step24, h]
lemma fr25_06 (args : Args) (c : GlobalConfig) : (step25 args c).ENDIAN = c.ENDIAN := by cases h : args.debug_symbol_finder <;> simp [step25, h]
lemma fr26_06 (args : Args) (c : GlobalConfig) : (step26 args c).ENDIAN = c.ENDIAN := by cases h : args.debug_unpaired_luis <;> simp [step26, h]

lemma fr01_07 (args : Args) (c : GlobalConfig) : (step01 args c).GP_VALUE = c.GP_VALUE := by cases h : args.disasm_unknown <;> simp [step01, h]
lemma fr02_07 (args : Args) (c : GlobalConfig) : (step02 args c).GP_VALUE = c.GP_VALUE := by cases h : args.string_guesser <;> simp [step02, h]
lemma fr03_07 (args : Args) (c : GlobalConfig) : (step03 args c).GP_VALUE = c.GP_VALUE := by cases h : args.name_vars_by_section <;> simp [step03, h]
lemma fr04_07 (args : Args) (c : GlobalConfig) : (step04 args c).GP_VALUE = c.GP_VALUE := by cases h : args.name_vars_by_type <;> simp [step04, h]
lemma fr05_07 (args : Args) (c : GlobalConfig) : (step05 args c).GP_VALUE = c.GP_VALUE := by cases h : args.compiler <;> simp [step05, h]
lemma fr06_07 (args : Args) (c : GlobalConfig) : (step06 args c).GP_VALUE = c.GP_VALUE := by by_cases h1 : args.endian = "little" <;> by_cases h2 : args.endian = "middle" <;> simp [step06, h1, h2]
lemma fr08_07 (args : Args) (c : GlobalConfig) : (step08 args c).GP_VALUE = c.GP_VALUE := by cases h : args.filter_low_addresses <;> simp [step08, h]
lemma fr09_07 (args : Args) (c : GlobalConfig) : (step09 args c).GP_VALUE = c.GP_VALUE := by cases h : args.filter_high_addresses <;> simp [step09, h]
lemma fr10_07 (args : Args) (c : GlobalConfig) : (step10 args c).GP_VALUE = c.GP_VALUE := by cases h : args.filtered_addresses_as_constants <;> simp [step10, h]
lemma fr11_07 (args : Args) (c : GlobalConfig) : (step11 args c).GP_VALUE = c.GP_VALUE := by cases h : args.filtered_addresses_as_hilo <;> simp [step11, h]
lemma fr12_07 (args : Args) (c : GlobalConfig) : (step12 args c).GP_VALUE = c.GP_VALUE := by cases h : args.asm_comments <;> simp [step12, h]
lemma fr13_07 (args : Args) (c : GlobalConfig) : (step13 args c).GP_VALUE = c.GP_VALUE := by cases h : args.glabel_count <;> simp [step13, h]
lemma fr14_07 (args : Args) (c : GlobalConfig) : (step14 args c).GP_VALUE = c.GP_VALUE := by cases h : args.asm_text_label <;> simp only [step14, h] <;> first | rfl | (split <;> rfl)
lemma fr15_07 (args : Args) (c : GlobalConfig) : (step15 args c).GP_VALUE = c.GP_VALUE := by cases h : args.asm_data_label <;> simp only [step15, h] <;> first | rfl | (split <;> rfl)
lemma fr16_07 (args : Args) (c : GlobalConfig) : (step16 args c).GP_VALUE = c.GP_VALUE := by cases h : args.asm_ent_label <;> simp only [step16, h] <;> first | rfl | (split <;> rfl)
lemma fr17_07 (args : Args) (c : GlobalConfig) : (step17 args c).GP_VALUE = c.GP_VALUE := by cases h : args.asm_end_label <;> simp only [step17, h] <;> first | rfl | (split <;> rfl)
lemma fr18_07 (args : Args) (c : GlobalConfig) : (step18 args c).GP_VALUE = c.GP_VALUE := by cases h : args.asm_func_as_label <;> simp [step18, h]
lemma fr19_07 (args : Args) (c : GlobalConfig) : (step19 args c).GP_VALUE = c.GP_VALUE := by cases h : args.print_new_file_boundaries <;> simp [step19, h]
lemma fr20_07 (args : Args) (c : GlobalConfig) : (step20 args c).GP_VALUE = c.GP_VALUE := by cases h : args.use_dot_byte <;> simp [step20, h]
lemma fr21_07 (args : Args) (c : GlobalConfig) : (step21 args c).GP_VALUE = c.GP_VALUE := by cases h : args.use_dot_short <;> simp [step21, h]
lemma fr22_07 (args : Args) (c : GlobalConfig) : (step22 args c).GP_VALUE = c.GP_VALUE := by cases h : args.verbose <;> simp [step22, h]
lemma fr23_07 (args : Args) (c : GlobalConfig) : (step23 args c).GP_VALUE = c.GP_VALUE := by cases h : args.quiet <;> simp [step23, h]
lemma fr24_07 (args : Args) (c : GlobalConfig) : (step24 args c).GP_VALUE = c.GP_VALUE := by cases h : args.debug_func_analysis <;> simp [step24, h]
lemma fr25_07 (args : Args) (c : GlobalConfig) : (step25 args c).GP_VALUE = c.GP_VALUE := by cases h : args.debug_symbol_finder <;> simp [step25, h]
lemma fr26_07 (args : Args) (c : GlobalConfig) : (step26 args c).GP_VALUE = c.GP_VALUE := by cases h : args.debug_unpaired_luis <;> simp [step26, h]

lemma fr01_08 (args : Args) (c : GlobalConfig) : (step01 args c).SYMBOL_FINDER_FILTER_LOW_ADDRESSES = c.SYMBOL_FINDER_FILTER_LOW_ADDRESSES := by cases h : args.disasm_unknown <;> simp [step01, h]
lemma fr02_08 (args : Args) (c : GlobalConfig) : (step02 args c).SYMBOL_FINDER_FILTER_LOW_ADDRESSES = c.SYMBOL_FINDER_FILTER_LOW_ADDRESSES := by cases h : args.string_guesser <;> simp [step02, h]
lemma fr03_08 (args : Args) (c : GlobalConfig) : (step03 args c).SYMBOL_FINDER_FILTER_LOW_ADDRESSES = c.SYMBOL_FINDER_FILTER_LOW_ADDRESSES := by cases h : args.name_vars_by_section <;> simp [step03, h]
lemma fr04_08 (args : Args) (c : GlobalConfig) : (step04 args c).SYMBOL_FINDER_FILTER_LOW_ADDRESSES = c.SYMBOL_FINDER_FILTER_LOW_ADDRESSES := by cases h : args.name_vars_by_type <;> simp [step04, h]
lemma fr05_08 (args : Args) (c : GlobalConfig) : (step05 args c).SYMBOL_FINDER_FILTER_LOW_ADDRESSES = c.SYMBOL_FINDER_FILTER_LOW_ADDRESSES := by cases h : args.compiler <;> simp [step05, h]
lemma fr06_08 (args : Args) (c : GlobalConfig) : (step06 args c).SYMBOL_FINDER_FILTER_LOW_ADDRESSES = c.SYMBOL_FINDER_FILTER_LOW_ADDRESSES := by by_cases h1 : args.endian = "little" <;> by_cases h2 : args.endian = "middle" <;> simp [step06, h1, h2]
lemma fr07_08 (args : Args) (c : GlobalConfig) : (step07 args c).SYMBOL_FINDER_FILTER_LOW_ADDRESSES = c.SYMBOL_FINDER_FILTER_LOW_ADDRESSES := by cases h : args.gp <;> simp [step07, h]
lemma fr09_08 (args : Args) (c : GlobalConfig) : (step09 args c).SYMBOL_FINDER_FILTER_LOW_ADDRESSES = c.SYMBOL_FINDER_FILTER_LOW_ADDRESSES := by cases h : args.filter_high_addresses <;> simp [step09, h]
lemma fr10_08 (args : Args) (c : GlobalConfig) : (step10 args c).SYMBOL_FINDER_FILTER_LOW_ADDRESSES = c.SYMBOL_FINDER_FILTER_LOW_ADDRESSES := by cases h : args.filtered_addresses_as_constants <;> simp [step10, h]
lemma fr11_08 (args : Args) (c : GlobalConfig) : (step11 args c).SYMBOL_FINDER_FILTER_LOW_ADDRESSES = c.SYMBOL_FINDER_FILTER_LOW_ADDRESSES := by cases h : args.filtered_addresses_as_hilo <;> simp [step11, h]
lemma fr12_08 (args : Args) (c : GlobalConfig) : (step12 args c).SYMBOL_FINDER_FILTER_LOW_ADDRESSES = c.SYMBOL_FINDER_FILTER_LOW_ADDRESSES := by cases h : args.asm_comments <;> simp [step12, h]
lemma fr13_08 (args : Args) (c : GlobalConfig) : (step13 args c).SYMBOL_FINDER_FILTER_LOW_ADDRESSES = c.SYMBOL_FINDER_FILTER_LOW_ADDRESSES := by cases h : args.glabel_count <;> simp [step13, h]
lemma fr14_08 (args : Args) (c : GlobalConfig) : (step14 args c).SYMBOL_FINDER_FILTER_LOW_ADDRESSES = c.SYMBOL_FINDER_FILTER_LOW_ADDRESSES := by cases h : args.asm_text_label <;> simp only [step14, h] <;> first | rfl | (split <;> rfl)
lemma fr15_08 (args : Args) (c : GlobalConfig) : (step15 args c).SYMBOL_FINDER_FILTER_LOW_ADDRESSES = c.SYMBOL_FINDER_FILTER_LOW_ADDRESSES := by cases h : args.asm_data_label <;> simp only [step15, h] <;> first | rfl | (split <;> rfl)
lemma fr16_08 (args : Args) (c : GlobalConfig) : (step16 args c).SYMBOL_FINDER_FILTER_LOW_ADDRESSES = c.SYMBOL_FINDER_FILTER_LOW_ADDRESSES := by cases h : args.asm_ent_label <;> simp only [step16, h] <;> first | rfl | (split <;> rfl)
lemma fr17_08 (args : Args) (c : GlobalConfig) : (step17 args c).SYMBOL_FINDER_FILTER_LOW_ADDRESSES = c.SYMBOL_FINDER_FILTER_LOW_ADDRESSES := by cases h : args.asm_end_label <;> simp only [step17, h] <;> first | rfl | (split <;> rfl)
lemma fr18_08 (args : Args) (c : GlobalConfig) : (step18 args c).SYMBOL_FINDER_FILTER_LOW_ADDRESSES = c.SYMBOL_FINDER_FILTER_LOW_ADDRESSES := by cases h : args.asm_func_as_label <;> simp [step18, h]
lemma fr19_08 (args : Args) (c : GlobalConfig) : (step19 args c).SYMBOL_FINDER_FILTER_LOW_ADDRESSES = c.SYMBOL_FINDER_FILTER_LOW_ADDRESSES := by cases h : args.print_new_file_boundaries <;> simp [step19, h]
lemma fr20_08 (args : Args) (c : GlobalConfig) : (step20 args c).SYMBOL_FINDER_FILTER_LOW_ADDRESSES = c.SYMBOL_FINDER_FILTER_LOW_ADDRESSES := by cases h : args.use_dot_byte <;> simp [step20, h]
lemma fr21_08 (args : Args) (c : GlobalConfig) : (step21 args c).SYMBOL_FINDER_FILTER_LOW_ADDRESSES = c.SYMBOL_FINDER_FILTER_LOW_ADDRESSES := by cases h : args.use_dot_short <;> simp [step21, h]
lemma fr22_08 (args : Args) (c : GlobalConfig) : (step22 args c).SYMBOL_FINDER_FILTER_LOW_ADDRESSES = c.SYMBOL_FINDER_FILTER_LOW_ADDRESSES := by cases h : args.verbose <;> simp [step22, h]
lemma fr23_08 (args : Args) (c : GlobalConfig) : (step23 args c).SYMBOL_FINDER_FILTER_LOW_ADDRESSES = c.SYMBOL_FINDER_FILTER_LOW_ADDRESSES := by cases h : args.quiet <;> simp [step23, h]
lemma fr24_08 (args : Args) (c : GlobalConfig) : (step24 args c).SYMBOL_FINDER_FILTER_LOW_ADDRESSES = c.SYMBOL_FINDER_FILTER_LOW_ADDRESSES := by cases h : args.debug_func_analysis <;> simp [step24, h]
lemma fr25_08 (args : Args) (c : GlobalConfig) : (step25 args c).SYMBOL_FINDER_FILTER_LOW_ADDRESSES = c.SYMBOL_FINDER_FILTER_LOW_ADDRESSES := by cases h : args.debug_symbol_finder <;> simp [step25, h]
lemma fr26_08 (args : Args) (c : GlobalConfig) : (step26 args c).SYMBOL_FINDER_FILTER_LOW_ADDRESSES = c.SYMBOL_FINDER_FILTER_LOW_ADDRESSES := by cases h : args.debug_unpaired_luis <;> simp [step26, h]

lemma fr01_09 (args : Args) (c : GlobalConfig) : (step01 args c).SYMBOL_FINDER_FILTER_HIGH_ADDRESSES = c.SYMBOL_FINDER_FILTER_HIGH_ADDRESSES := by cases h : args.disasm_unknown <;> simp [step01, h]
lemma fr02_09 (args : Args) (c : GlobalConfig) : (step02 args c).SYMBOL_FINDER_FILTER_HIGH_ADDRESSES = c.SYMBOL_FINDER_FILTER_HIGH_ADDRESSES := by cases h : args.string_guesser <;> simp [step02, h]
lemma fr03_09 (args : Args) (c : GlobalConfig) : (step03 args c).SYMBOL_FINDER_FILTER_HIGH_ADDRESSES = c.SYMBOL_FINDER_FILTER_HIGH_ADDRESSES := by cases h : args.name_vars_by_section <;> simp [step03, h]
lemma fr04_09 (args : Args) (c : GlobalConfig) : (step04 args c).SYMBOL_FINDER_FILTER_HIGH_ADDRESSES = c.SYMBOL_FINDER_FILTER_HIGH_ADDRESSES := by cases h : args.name_vars_by_type <;> simp [step04, h]
lemma fr05_09 (args : Args) (c : GlobalConfig) : (step05 args c).SYMBOL_FINDER_FILTER_HIGH_ADDRESSES = c.SYMBOL_FINDER_FILTER_HIGH_ADDRESSES := by cases h : args.compiler <;> simp [step05, h]
lemma fr06_09 (args : Args) (c : GlobalConfig) : (step06 args c).SYMBOL_FINDER_FILTER_HIGH_ADDRESSES = c.SYMBOL_FINDER_FILTER_HIGH_ADDRESSES := by by_cases h1 : args.endian = "little" <;> by_cases h2 : args.endian = "middle" <;> simp [step06, h1, h2]
lemma fr07_09 (args : Args) (c : GlobalConfig) : (step07 args c).SYMBOL_FINDER_FILTER_HIGH_ADDRESSES = c.SYMBOL_FINDER_FILTER_HIGH_ADDRESSES := by cases h : args.gp <;> simp [step07, h]
lemma fr08_09 (args : Args) (c : GlobalConfig) : (step08 args c).SYMBOL_FINDER_FILTER_HIGH_ADDRESSES = c.SYMBOL_FINDER_FILTER_HIGH_ADDRESSES := by cases h : args.filter_low_addresses <;> simp [step08, h]
lemma fr10_09 (args : Args) (c : GlobalConfig) : (step10 args c).SYMBOL_FINDER_FILTER_HIGH_ADDRESSES = c.SYMBOL_FINDER_FILTER_HIGH_ADDRESSES := by cases h : args.filtered_addresses_as_constants <;> simp [step10, h]
lemma fr11_09 (args : Args) (c : GlobalConfig) : (step11 args c).SYMBOL_FINDER_FILTER_HIGH_ADDRESSES = c.SYMBOL_FINDER_FILTER_HIGH_ADDRESSES := by cases h : args.filtered_addresses_as_hilo <;> simp [step11, h]
lemma fr12_09 (args : Args) (c : GlobalConfig) : (step12 args c).SYMBOL_FINDER_FILTER_HIGH_ADDRESSES = c.SYMBOL_FINDER_FILTER_HIGH_ADDRESSES := by cases h : args.asm_comments <;> simp [step12, h]
lemma fr13_09 (args : Args) (c : GlobalConfig) : (step13 args c).SYMBOL_FINDER_FILTER_HIGH_ADDRESSES = c.SYMBOL_FINDER_FILTER_HIGH_ADDRESSES := by cases h : args.glabel_count <;> simp [step13, h]
lemma fr14_09 (args : Args) (c : GlobalConfig) : (step14 args c).SYMBOL_FINDER_FILTER_HIGH_ADDRESSES = c.SYMBOL_FINDER_FILTER_HIGH_ADDRESSES := by cases h : args.asm_text_label <;> simp only [step14, h] <;> first | rfl | (split <;> rfl)
lemma fr15_09 (args : Args) (c : GlobalConfig) : (step15 args c).SYMBOL_FINDER_FILTER_HIGH_ADDRESSES = c.SYMBOL_FINDER_FILTER_HIGH_ADDRESSES := by cases h : args.asm_data_label <;> simp only [step15, h] <;> first | rfl | (split <;> rfl)
lemma fr16_09 (args : Args) (c : GlobalConfig) : (step16 args c).SYMBOL_FINDER_FILTER_HIGH_ADDRESSES = c.SYMBOL_FINDER_FILTER_HIGH_ADDRESSES := by cases h : args.asm_ent_label <;> simp only [step16, h] <;> first | rfl | (split <;> rfl)
lemma fr17_09 (args : Args) (c : GlobalConfig) : (step17 args c).SYMBOL_FINDER_FILTER_HIGH_ADDRESSES = c.SYMBOL_FINDER_FILTER_HIGH_ADDRESSES := by cases h : args.asm_end_label <;> simp only [step17, h] <;> first | rfl | (split <;> rfl)
lemma fr18_09 (args : Args) (c : GlobalConfig) : (step18 args c).SYMBOL_FINDER_FILTER_HIGH_ADDRESSES = c.SYMBOL_FINDER_FILTER_HIGH_ADDRESSES := by cases h : args.asm_func_as_label <;> simp [step18, h]
lemma fr19_09 (args : Args) (c : GlobalConfig) : (step19 args c).SYMBOL_FINDER_FILTER_HIGH_ADDRESSES = c.SYMBOL_FINDER_FILTER_HIGH_ADDRESSES := by cases h : args.print_new_file_boundaries <;> simp [step19, h]
lemma fr20_09 (args : Args) (c : GlobalConfig) : (step20 args c).SYMBOL_FINDER_FILTER_HIGH_ADDRESSES = c.SYMBOL_FINDER_FILTER_HIGH_ADDRESSES := by cases h : args.use_dot_byte <;> simp [step20, h]
lemma fr21_09 (args : Args) (c : GlobalConfig) : (step21 args c).SYMBOL_FINDER_FILTER_HIGH_ADDRESSES = c.SYMBOL_FINDER_FILTER_HIGH_ADDRESSES := by cases h : args.use_dot_short <;> simp [step21, h]
lemma fr22_09 (args : Args) (c : GlobalConfig) : (step22 args c).SYMBOL_FINDER_FILTER_HIGH_ADDRESSES = c.SYMBOL_FINDER_FILTER_HIGH_ADDRESSES := by cases h : args.verbose <;> simp [step22, h]
lemma fr23_09 (args : Args) (c : GlobalConfig) : (step23 args c).SYMBOL_FINDER_FILTER_HIGH_ADDRESSES = c.SYMBOL_FINDER_FILTER_HIGH_ADDRESSES := by cases h : args.quiet <;> simp [step23, h]
lemma fr24_09 (args : Args) (c : GlobalConfig) : (step24 args c).SYMBOL_FINDER_FILTER_HIGH_ADDRESSES = c.SYMBOL_FINDER_FILTER_HIGH_ADDRESSES := by cases h : args.debug_func_analysis <;> simp [step24, h]
lemma fr25_09 (args : Args) (c : GlobalConfig) : (step25 args c).SYMBOL_FINDER_FILTER_HIGH_ADDRESSES = c.SYMBOL_FINDER_FILTER_HIGH_ADDRESSES := by cases h : args.debug_symbol_finder <;> simp [step25, h]
lemma fr26_09 (args : Args) (c : GlobalConfig) : (step26 args c).SYMBOL_FINDER_FILTER_HIGH_ADDRESSES = c.SYMBOL_FINDER_FILTER_HIGH_ADDRESSES := by cases h : args.debug_unpaired_luis <;> simp [step26, h]

lemma fr01_10 (args : Args) (c : GlobalConfig) : (step01 args c).SYMBOL_FINDER_FILTERED_ADDRESSES_AS_CONSTANTS = c.SYMBOL_FINDER_FILTERED_ADDRESSES_AS_CONSTANTS := by cases h : args.disasm_unknown <;> simp [step01, h]
lemma fr02_10 (args : Args) (c : GlobalConfig) : (step02 args c).SYMBOL_FINDER_FILTERED_ADDRESSES_AS_CONSTANTS = c.SYMBOL_FINDER_FILTERED_ADDRESSES_AS_CONSTANTS := by cases h : args.string_guesser <;> simp [step02, h]
lemma fr03_10 (args : Args) (c : GlobalConfig) : (step03 args c).SYMBOL_FINDER_FILTERED_ADDRESSES_AS_CONSTANTS = c.SYMBOL_FINDER_FILTERED_ADDRESSES_AS_CONSTANTS := by cases h : args.name_vars_by_section <;> simp [step03, h]
lemma fr04_10 (args : Args) (c : GlobalConfig) : (step04 args c).SYMBOL_FINDER_FILTERED_ADDRESSES_AS_CONSTANTS = c.SYMBOL_FINDER_FILTERED_ADDRESSES_AS_CONSTANTS := by cases h : args.name_vars_by_type <;> simp [step04, h]
lemma fr05_10 (args : Args) (c : GlobalConfig) : (step05 args c).SYMBOL_FINDER_FILTERED_ADDRESSES_AS_CONSTANTS = c.SYMBOL_FINDER_FILTERED_ADDRESSES_AS_CONSTANTS := by cases h : args.compiler <;> simp [step05, h]
lemma fr06_10 (args : Args) (c : GlobalConfig) : (step06 args c).SYMBOL_FINDER_FILTERED_ADDRESSES_AS_CONSTANTS = c.SYMBOL_FINDER_FILTERED_ADDRESSES_AS_CONSTANTS := by by_cases h1 : args.endian = "little" <;> by_cases h2 : args.endian = "middle" <;> simp [step06, h1, h2]
lemma fr07_10 (args : Args) (c : GlobalConfig) : (step07 args c).SYMBOL_FINDER_FILTERED_ADDRESSES_AS_CONSTANTS = c.SYMBOL_FINDER_FILTERED_ADDRESSES_AS_CONSTANTS := by cases h : args.gp <;> simp [step07, h]
lemma fr08_10 (args : Args) (c : GlobalConfig) : (step08 args c).SYMBOL_FINDER_FILTERED_ADDRESSES_AS_CONSTANTS = c.SYMBOL_FINDER_FILTERED_ADDRESSES_AS_CONSTANTS := by cases h : args.filter_low_addresses <;> simp [step08, h]
lemma fr09_10 (args : Args) (c : GlobalConfig) : (step09 args c).SYMBOL_FINDER_FILTERED_ADDRESSES_AS_CONSTANTS = c.SYMBOL_FINDER_FILTERED_ADDRESSES_AS_CONSTANTS := by cases h : args.filter_high_addresses <;> simp [step09, h]
lemma fr11_10 (args : Args) (c : GlobalConfig) : (step11 args c).SYMBOL_FINDER_FILTERED_ADDRESSES_AS_CONSTANTS = c.SYMBOL_FINDER_FILTERED_ADDRESSES_AS_CONSTANTS := by cases h : args.filtered_addresses_as_hilo <;> simp [step11, h]
lemma fr12_10 (args : Args) (c : GlobalConfig) : (step12 args c).SYMBOL_FINDER_FILTERED_ADDRESSES_AS_CONSTANTS = c.SYMBOL_FINDER_FILTERED_ADDRESSES_AS_CONSTANTS := by cases h : args.asm_comments <;> simp [step12, h]
lemma fr13_10 (args : Args) (c : GlobalConfig) : (step13 args c).SYMBOL_FINDER_FILTERED_ADDRESSES_AS_CONSTANTS = c.SYMBOL_FINDER_FILTERED_ADDRESSES_AS_CONSTANTS := by cases h : args.glabel_count <;> simp [step13, h]
lemma fr14_10 (args : Args) (c : GlobalConfig) : (step14 args c).SYMBOL_FINDER_FILTERED_ADDRESSES_AS_CONSTANTS = c.SYMBOL_FINDER_FILTERED_ADDRESSES_AS_CONSTANTS := by cases h : args.asm_text_label <;> simp only [step14, h] <;> first | rfl | (split <;> rfl)
lemma fr15_10 (args : Args) (c : GlobalConfig) : (step15 args c).SYMBOL_FINDER_FILTERED_ADDRESSES_AS_CONSTANTS = c.SYMBOL_FINDER_FILTERED_ADDRESSES_AS_CONSTANTS := by cases h : args.asm_data_label <;> simp only [step15, h] <;> first | rfl | (split <;> rfl)
lemma fr16_10 (args : Args) (c : GlobalConfig) : (step16 args c).SYMBOL_FINDER_FILTERED_ADDRESSES_AS_CONSTANTS = c.SYMBOL_FINDER_FILTERED_ADDRESSES_AS_CONSTANTS := by cases h : args.asm_ent_label <;> simp only [step16, h] <;> first | rfl | (split <;> rfl)
lemma fr17_10 (args : Args) (c : GlobalConfig) : (step17 args c).SYMBOL_FINDER_FILTERED_ADDRESSES_AS_CONSTANTS = c.SYMBOL_FINDER_FILTERED_ADDRESSES_AS_CONSTANTS := by cases h : args.asm_end_label <;> simp only [step17, h] <;> first | rfl | (split <;> rfl)
lemma fr18_10 (args : Args) (c : GlobalConfig) : (step18 args c).SYMBOL_FINDER_FILTERED_ADDRESSES_AS_CONSTANTS = c.SYMBOL_FINDER_FILTERED_ADDRESSES_AS_CONSTANTS := by cases h : args.asm_func_as_label <;> simp [step18, h]
lemma fr19_10 (args : Args) (c : GlobalConfig) : (step19 args c).SYMBOL_FINDER_FILTERED_ADDRESSES_AS_CONSTANTS = c.SYMBOL_FINDER_FILTERED_ADDRESSES_AS_CONSTANTS := by cases h : args.print_new_file_boundaries <;> simp [step19, h]
lemma fr20_10 (args : Args) (c : GlobalConfig) : (step20 args c).SYMBOL_FINDER_FILTERED_ADDRESSES_AS_CONSTANTS = c.SYMBOL_FINDER_FILTERED_ADDRESSES_AS_CONSTANTS := by cases h : args.use_dot_byte <;> simp [step20, h]
lemma fr21_10 (args : Args) (c : GlobalConfig) : (step21 args c).SYMBOL_FINDER_FILTERED_ADDRESSES_AS_CONSTANTS = c.SYMBOL_FINDER_FILTERED_ADDRESSES_AS_CONSTANTS := by cases h : args.use_dot_short <;> simp [step21, h]
lemma fr22_10 (args : Args) (c : GlobalConfig) : (step22 args c).SYMBOL_FINDER_FILTERED_ADDRESSES_AS_CONSTANTS = c.SYMBOL_FINDER_FILTERED_ADDRESSES_AS_CONSTANTS := by cases h : args.verbose <;> simp [step22, h]
lemma fr23_10 (args : Args) (c : GlobalConfig) : (step23 args c).SYMBOL_FINDER_FILTERED_ADDRESSES_AS_CONSTANTS = c.SYMBOL_FINDER_FILTERED_ADDRESSES_AS_CONSTANTS := by cases h : args.quiet <;> simp [step23, h]
lemma fr24_10 (args : Args) (c : GlobalConfig) : (step24 args c).SYMBOL_FINDER_FILTERED_ADDRESSES_AS_CONSTANTS = c.SYMBOL_FINDER_FILTERED_ADDRESSES_AS_CONSTANTS := by cases h : args.debug_func_analysis <;> simp [step24, h]
lemma fr25_10 (args : Args) (c : GlobalConfig) : (step25 args c).SYMBOL_FINDER_FILTERED_ADDRESSES_AS_CONSTANTS = c.SYMBOL_FINDER_FILTERED_ADDRESSES_AS_CONSTANTS := by cases h : args.debug_symbol_finder <;> simp [step25, h]
lemma fr26_10 (args : Args) (c : GlobalConfig) : (step26 args c).SYMBOL_FINDER_FILTERED_ADDRESSES_AS_CONSTANTS = c.SYMBOL_FINDER_FILTERED_ADDRESSES_AS_CONSTANTS := by cases h : args.debug_unpaired_luis <;> simp [step26, h]

lemma fr01_11 (args : Args) (c : GlobalConfig) : (step01 args c).SYMBOL_FINDER_FILTERED_ADDRESSES_AS_HILO = c.SYMBOL_FINDER_FILTERED_ADDRESSES_AS_HILO := by cases h : args.disasm_unknown <;> simp [step01, h]
lemma fr02_11 (args : Args) (c : GlobalConfig) : (step02 args c).SYMBOL_FINDER_FILTERED_ADDRESSES_AS_HILO = c.SYMBOL_FINDER_FILTERED_ADDRESSES_AS_HILO := by cases h : args.string_guesser <;> simp [step02, h]
lemma fr03_11 (args : Args) (c : GlobalConfig) : (step03 args c).SYMBOL_FINDER_FILTERED_ADDRESSES_AS_HILO = c.SYMBOL_FINDER_FILTERED_ADDRESSES_AS_HILO := by cases h : args.name_vars_by_section <;> simp [step03, h]
lemma fr04_11 (args : Args) (c : GlobalConfig) : (step04 args c).SYMBOL_FINDER_FILTERED_ADDRESSES_AS_HILO = c.SYMBOL_FINDER_FILTERED_ADDRESSES_AS_HILO := by cases h : args.name_vars_by_type <;> simp [step04, h]
lemma fr05_11 (args : Args) (c : GlobalConfig) : (step05 args c).SYMBOL_FINDER_FILTERED_ADDRESSES_AS_HILO = c.SYMBOL_FINDER_FILTERED_ADDRESSES_AS_HILO := by cases h : args.compiler <;> simp [step05, h]
lemma fr06_11 (args : Args) (c : GlobalConfig) : (step06 args c).SYMBOL_FINDER_FILTERED_ADDRESSES_AS_HILO = c.SYMBOL_FINDER_FILTERED_ADDRESSES_AS_HILO := by by_cases h1 : args.endian = "little" <;> by_cases h2 : args.endian = "middle" <;> simp [step06, h1, h2]
lemma fr07_11 (args : Args) (c : GlobalConfig) : (step07 args c).SYMBOL_FINDER_FILTERED_ADDRESSES_AS_HILO = c.SYMBOL_FINDER_FILTERED_ADDRESSES_AS_HILO := by cases h : args.gp <;> simp [step07, h]
lemma fr08_11 (args : Args) (c : GlobalConfig) : (step08 args c).SYMBOL_FINDER_FILTERED_ADDRESSES_AS_HILO = c.SYMBOL_FINDER_FILTERED_ADDRESSES_AS_HILO := by cases h : args.filter_low_addresses <;> simp [step08, h]
lemma fr09_11 (args : Args) (c : GlobalConfig) : (step09 args c).SYMBOL_FINDER_FILTERED_ADDRESSES_AS_HILO = c.SYMBOL_FINDER_FILTERED_ADDRESSES_AS_HILO := by cases h : args.filter_high_addresses <;> simp [step09, h]
lemma fr10_11 (args : Args) (c : GlobalConfig) : (step10 args c).SYMBOL_FINDER_FILTERED_ADDRESSES_AS_HILO = c.SYMBOL_FINDER_FILTERED_ADDRESSES_AS_HILO := by cases h : args.filtered_addresses_as_constants <;> simp [step10, h]
lemma fr12_11 (args : Args) (c : GlobalConfig) : (step12 args c).SYMBOL_FINDER_FILTERED_ADDRESSES_AS_HILO = c.SYMBOL_FINDER_FILTERED_ADDRESSES_AS_HILO := by cases h : args.asm_comments <;> simp [step12, h]
lemma fr13_11 (args : Args) (c : GlobalConfig) : (step13 args c).SYMBOL_FINDER_FILTERED_ADDRESSES_AS_HILO = c.SYMBOL_FINDER_FILTERED_ADDRESSES_AS_HILO := by cases h : args.glabel_count <;> simp [step13, h]
lemma fr14_11 (args : Args) (c : GlobalConfig) : (step14 args c).SYMBOL_FINDER_FILTERED_ADDRESSES_AS_HILO = c.SYMBOL_FINDER_FILTERED_ADDRESSES_AS_HILO := by cases h : args.asm_text_label <;> simp only [step14, h] <;> first | rfl | (split <;> rfl)
lemma fr15_11 (args : Args) (c : GlobalConfig) : (step15 args c).SYMBOL_FINDER_FILTERED_ADDRESSES_AS_HILO = c.SYMBOL_FINDER_FILTERED_ADDRESSES_AS_HILO := by cases h : args.asm_data_label <;> simp only [step15, h] <;> first | rfl | (split <;> rfl)
lemma fr16_11 (args : Args) (c : GlobalConfig) : (step16 args c).SYMBOL_FINDER_FILTERED_ADDRESSES_AS_HILO = c.SYMBOL_FINDER_FILTERED_ADDRESSES_AS_HILO := by cases h : args.asm_ent_label <;> simp only [step16, h] <;> first | rfl | (split <;> rfl)
lemma fr17_11 (args : Args) (c : GlobalConfig) : (step17 args c).SYMBOL_FINDER_FILTERED_ADDRESSES_AS_HILO = c.SYMBOL_FINDER_FILTERED_ADDRESSES_AS_HILO := by cases h : args.asm_end_label <;> simp only [step17, h] <;> first | rfl | (split <;> rfl)
lemma fr18_11 (args : Args) (c : GlobalConfig) : (step18 args c).SYMBOL_FINDER_FILTERED_ADDRESSES_AS_HILO = c.SYMBOL_FINDER_FILTERED_ADDRESSES_AS_HILO := by cases h : args.asm_func_as_label <;> simp [step18, h]
lemma fr19_11 (args : Args) (c : GlobalConfig) : (step19 args c).SYMBOL_FINDER_FILTERED_ADDRESSES_AS_HILO = c.SYMBOL_FINDER_FILTERED_ADDRESSES_AS_HILO := by cases h : args.print_new_file_boundaries <;> simp [step19, h]
lemma fr20_11 (args : Args) (c : GlobalConfig) : (step20 args c).SYMBOL_FINDER_FILTERED_ADDRESSES_AS_HILO = c.SYMBOL_FINDER_FILTERED_ADDRESSES_AS_HILO := by cases h : args.use_dot_byte <;> simp [step20, h]
lemma fr21_11 (args : Args) (c : GlobalConfig) : (step21 args c).SYMBOL_FINDER_FILTERED_ADDRESSES_AS_HILO = c.SYMBOL_FINDER_FILTERED_ADDRESSES_AS_HILO := by cases h : args.use_dot_short <;> simp [step21, h]
lemma fr22_11 (args : Args) (c : GlobalConfig) : (step22 args c).SYMBOL_FINDER_FILTERED_ADDRESSES_AS_HILO = c.SYMBOL_FINDER_FILTERED_ADDRESSES_AS_HILO := by cases h : args.verbose <;> simp [step22, h]
lemma fr23_11 (args : Args) (c : GlobalConfig) : (step23 args c).SYMBOL_FINDER_FILTERED_ADDRESSES_AS_HILO = c.SYMBOL_FINDER_FILTERED_ADDRESSES_AS_HILO := by cases h : args.quiet <;> simp [step23, h]
lemma fr24_11 (args : Args) (c : GlobalConfig) : (step24 args c).SYMBOL_FINDER_FILTERED_ADDRESSES_AS_HILO = c.SYMBOL_FINDER_FILTERED_ADDRESSES_AS_HILO := by cases h : args.debug_func_analysis <;> simp [step24, h]
lemma fr25_11 (args : Args) (c : GlobalConfig) : (step25 args c).SYMBOL_FINDER_FILTERED_ADDRESSES_AS_HILO = c.SYMBOL_FINDER_FILTERED_ADDRESSES_AS_HILO := by cases h : args.debug_symbol_finder <;> simp [step25, h]
lemma fr26_11 (args : Args) (c : GlobalConfig) : (step26 args c).SYMBOL_FINDER_FILTERED_ADDRESSES_AS_HILO = c.SYMBOL_FINDER_FILTERED_ADDRESSES_AS_HILO := by cases h : args.debug_unpaired_luis <;> simp [step26, h]

lemma fr01_12 (args : Args) (c : GlobalConfig) : (step01 args c).ASM_COMMENT = c.ASM_COMMENT := by cases h : args.disasm_unknown <;> simp [step01, h]
lemma fr02_12 (args : Args) (c : GlobalConfig) : (step02 args c).ASM_COMMENT = c.ASM_COMMENT := by cases h : args.string_guesser <;> simp [step02, h]
lemma fr03_12 (args : Args) (c : GlobalConfig) : (step03 args c).ASM_COMMENT = c.ASM_COMMENT := by cases h : args.name_vars_by_section <;> simp [step03, h]
lemma fr04_12 (args : Args) (c : GlobalConfig) : (step04 args c).ASM_COMMENT = c.ASM_COMMENT := by cases h : args.name_vars_by_type <;> simp [step04, h]
lemma fr05_12 (args : Args) (c : GlobalConfig) : (step05 args c).ASM_COMMENT = c.ASM_COMMENT := by cases h : args.compiler <;> simp [step05, h]
lemma fr06_12 (args : Args) (c : GlobalConfig) : (step06 args c).ASM_COMMENT = c.ASM_COMMENT := by by_cases h1 : args.endian = "little" <;> by_cases h2 : args.endian = "middle" <;> simp [step06, h1, h2]
lemma fr07_12 (args : Args) (c : GlobalConfig) : (step07 args c).ASM_COMMENT = c.ASM_COMMENT := by cases h : args.gp <;> simp [step07, h]
lemma fr08_12 (args : Args) (c : GlobalConfig) : (step08 args c).ASM_COMMENT = c.ASM_COMMENT := by cases h : args.filter_low_addresses <;> simp [step08, h]
lemma fr09_12 (args : Args) (c : GlobalConfig) : (step09 args c).ASM_COMMENT = c.ASM_COMMENT := by cases h : args.filter_high_addresses <;> simp [step09, h]
lemma fr10_12 (args : Args) (c : GlobalConfig) : (step10 args c).ASM_COMMENT = c.ASM_COMMENT := by cases h : args.filtered_addresses_as_constants <;> simp [step10, h]
lemma fr11_12 (args : Args) (c : GlobalConfig) : (step11 args c).ASM_COMMENT = c.ASM_COMMENT := by cases h : args.filtered_addresses_as_hilo <;> simp [step11, h]
lemma fr13_12 (args : Args) (c : GlobalConfig) : (step13 args c).ASM_COMMENT = c.ASM_COMMENT := by cases h : args.glabel_count <;> simp [step13, h]
lemma fr14_12 (args : Args) (c : GlobalConfig) : (step14 args c).ASM_COMMENT = c.ASM_COMMENT := by cases h : args.asm_text_label <;> simp only [step14, h] <;> first | rfl | (split <;> rfl)
lemma fr15_12 (args : Args) (c : GlobalConfig) : (step15 args c).ASM_COMMENT = c.ASM_COMMENT := by cases h : args.asm_data_label <;> simp only [step15, h] <;> first | rfl | (split <;> rfl)
lemma fr16_12 (args : Args) (c : GlobalConfig) : (step16 args c).ASM_COMMENT = c.ASM_COMMENT := by cases h : args.asm_ent_label <;> simp only [step16, h] <;> first | rfl | (split <;> rfl)
lemma fr17_12 (args : Args) (c : GlobalConfig) : (step17 args c).ASM_COMMENT = c.ASM_COMMENT := by cases h : args.asm_end_label <;> simp only [step17, h] <;> first | rfl | (split <;> rfl)
lemma fr18_12 (args : Args) (c : GlobalConfig) : (step18 args c).ASM_COMMENT = c.ASM_COMMENT := by cases h : args.asm_func_as_label <;> simp [step18, h]
lemma fr19_12 (args : Args) (c : GlobalConfig) : (step19 args c).ASM_COMMENT = c.ASM_COMMENT := by cases h : args.print_new_file_boundaries <;> simp [step19, h]
lemma fr20_12 (args : Args) (c : GlobalConfig) : (step20 args c).ASM_COMMENT = c.ASM_COMMENT := by cases h : args.use_dot_byte <;> simp [step20, h]
lemma fr21_12 (args : Args) (c : GlobalConfig) : (step21 args c).ASM_COMMENT = c.ASM_COMMENT := by cases h : args.use_dot_short <;> simp [step21, h]
lemma fr22_12 (args : Args) (c : GlobalConfig) : (step22 args c).ASM_COMMENT = c.ASM_COMMENT := by cases h : args.verbose <;> simp [step22, h]
lemma fr23_12 (args : Args) (c : GlobalConfig) : (step23 args c).ASM_COMMENT = c.ASM_COMMENT := by cases h : args.quiet <;> simp [step23, h]
lemma fr24_12 (args : Args) (c : GlobalConfig) : (step24 args c).ASM_COMMENT = c.ASM_COMMENT := by cases h : args.debug_func_analysis <;> simp [step24, h]
lemma fr25_12 (args : Args) (c : GlobalConfig) : (step25 args c).ASM_COMMENT = c.ASM_COMMENT := by cases h : args.debug_symbol_finder <;> simp [step25, h]
lemma fr26_12 (args : Args) (c : GlobalConfig) : (step26 args c).ASM_COMMENT = c.ASM_COMMENT := by cases h : args.debug_unpaired_luis <;> simp [step26, h]

lemma fr01_13 (args : Args) (c : GlobalConfig) : (step01 args c).GLABEL_ASM_COUNT = c.GLABEL_ASM_COUNT := by cases h : args.disasm_unknown <;> simp [step01, h]
lemma fr02_13 (args : Args) (c : GlobalConfig) : (step02 args c).GLABEL_ASM_COUNT = c.GLABEL_ASM_COUNT := by cases h : args.string_guesser <;> simp [step02, h]
lemma fr03_13 (args : Args) (c : GlobalConfig) : (step03 args c).GLABEL_ASM_COUNT = c.GLABEL_ASM_COUNT := by cases h : args.name_vars_by_section <;> simp [step03, h]
lemma fr04_13 (args : Args) (c : GlobalConfig) : (step04 args c).GLABEL_ASM_COUNT = c.GLABEL_ASM_COUNT := by cases h : args.name_vars_by_type <;> simp [step04, h]
lemma fr05_13 (args : Args) (c : GlobalConfig) : (step05 args c).GLABEL_ASM_COUNT = c.GLABEL_ASM_COUNT := by cases h : args.compiler <;> simp [step05, h]
lemma fr06_13 (args : Args) (c : GlobalConfig) : (step06 args c).GLABEL_ASM_COUNT = c.GLABEL_ASM_COUNT := by by_cases h1 : args.endian = "little" <;> by_cases h2 : args.endian = "middle" <;> simp [step06, h1, h2]
lemma fr07_13 (args : Args) (c : GlobalConfig) : (step07 args c).GLABEL_ASM_COUNT = c.GLABEL_ASM_COUNT := by cases h : args.gp <;> simp [step07, h]
lemma fr08_13 (args : Args) (c : GlobalConfig) : (step08 args c).GLABEL_ASM_COUNT = c.GLABEL_ASM_COUNT := by cases h : args.filter_low_addresses <;> simp [step08, h]
lemma fr09_13 (args : Args) (c : GlobalConfig) : (step09 args c).GLABEL_ASM_COUNT = c.GLABEL_ASM_COUNT := by cases h : args.filter_high_addresses <;> simp [step09, h]
lemma fr10_13 (args : Args) (c : GlobalConfig) : (step10 args c).GLABEL_ASM_COUNT = c.GLABEL_ASM_COUNT := by cases h : args.filtered_addresses_as_constants <;> simp [step10, h]
lemma fr11_13 (args : Args) (c : GlobalConfig) : (step11 args c).GLABEL_ASM_COUNT = c.GLABEL_ASM_COUNT := by cases h : args.filtered_addresses_as_hilo <;> simp [step11, h]
lemma fr12_13 (args : Args) (c : GlobalConfig) : (step12 args c).GLABEL_ASM_COUNT = c.GLABEL_ASM_COUNT := by cases h : args.asm_comments <;> simp [step12, h]
lemma fr14_13 (args : Args) (c : GlobalConfig) : (step14 args c).GLABEL_ASM_COUNT = c.GLABEL_ASM_COUNT := by cases h : args.asm_text_label <;> simp only [step14, h] <;> first | rfl | (split <;> rfl)
lemma fr15_13 (args : Args) (c : GlobalConfig) : (step15 args c).GLABEL_ASM_COUNT = c.GLABEL_ASM_COUNT := by cases h : args.asm_data_label <;> simp only [step15, h] <;> first | rfl | (split <;> rfl)
lemma fr16_13 (args : Args) (c : GlobalConfig) : (step16 args c).GLABEL_ASM_COUNT = c.GLABEL_ASM_COUNT := by cases h : args.asm_ent_label <;> simp only [step16, h] <;> first | rfl | (split <;> rfl)
lemma fr17_13 (args : Args) (c : GlobalConfig) : (step17 args c).GLABEL_ASM_COUNT = c.GLABEL_ASM_COUNT := by cases h : args.asm_end_label <;> simp only [step17, h] <;> first | rfl | (split <;> rfl)
lemma fr18_13 (args : Args) (c : GlobalConfig) : (step18 args c).GLABEL_ASM_COUNT = c.GLABEL_ASM_COUNT := by cases h : args.asm_func_as_label <;> simp [step18, h]
lemma fr19_13 (args : Args) (c : GlobalConfig) : (step19 args c).GLABEL_ASM_COUNT = c.GLABEL_ASM_COUNT := by cases h : args.print_new_file_boundaries <;> simp [step19, h]
lemma fr20_13 (args : Args) (c : GlobalConfig) : (step20 args c).GLABEL_ASM_COUNT = c.GLABEL_ASM_COUNT := by cases h : args.use_dot_byte <;> simp [step20, h]
lemma fr21_13 (args : Args) (c : GlobalConfig) : (step21 args c).GLABEL_ASM_COUNT = c.GLABEL_ASM_COUNT := by cases h : args.use_dot_short <;> simp [step21, h]
lemma fr22_13 (args : Args) (c : GlobalConfig) : (step22 args c).GLABEL_ASM_COUNT = c.GLABEL_ASM_COUNT := by cases h : args.verbose <;> simp [step22, h]
lemma fr23_13 (args : Args) (c : GlobalConfig) : (step23 args c).GLABEL_ASM_COUNT = c.GLABEL_ASM_COUNT := by cases h : args.quiet <;> simp [step23, h]
lemma fr24_13 (args : Args) (c : GlobalConfig) : (step24 args c).GLABEL_ASM_COUNT = c.GLABEL_ASM_COUNT := by cases h : args.debug_func_analysis <;> simp [step24, h]
lemma fr25_13 (args : Args) (c : GlobalConfig) : (step25 args c).GLABEL_ASM_COUNT = c.GLABEL_ASM_COUNT := by cases h : args.debug_symbol_finder <;> simp [step25, h]
lemma fr26_13 (args : Args) (c : GlobalConfig) : (step26 args c).GLABEL_ASM_COUNT = c.GLABEL_ASM_COUNT := by cases h : args.debug_unpaired_luis <;> simp [step26, h]

lemma fr01_14 (args : Args) (c : GlobalConfig) : (step01 args c).ASM_TEXT_LABEL = c.ASM_TEXT_LABEL := by cases h : args.disasm_unknown <;> simp [step01, h]
lemma fr02_14 (args : Args) (c : GlobalConfig) : (step02 args c).ASM_TEXT_LABEL = c.ASM_TEXT_LABEL := by cases h : args.string_guesser <;> simp [step02, h]
lemma fr03_14 (args : Args) (c : GlobalConfig) : (step03 args c).ASM_TEXT_LABEL = c.ASM_TEXT_LABEL := by cases h : args.name_vars_by_section <;> simp [step03, h]
lemma fr04_14 (args : Args) (c : GlobalConfig) : (step04 args c).ASM_TEXT_LABEL = c.ASM_TEXT_LABEL := by cases h : args.name_vars_by_type <;> simp [step04, h]
lemma fr05_14 (args : Args) (c : GlobalConfig) : (step05 args c).ASM_TEXT_LABEL = c.ASM_TEXT_LABEL := by cases h : args.compiler <;> simp [step05, h]
lemma fr06_14 (args : Args) (c : GlobalConfig) : (step06 args c).ASM_TEXT_LABEL = c.ASM_TEXT_LABEL := by by_cases h1 : args.endian = "little" <;> by_cases h2 : args.endian = "middle" <;> simp [step06, h1, h2]
lemma fr07_14 (args : Args) (c : GlobalConfig) : (step07 args c).ASM_TEXT_LABEL = c.ASM_TEXT_LABEL := by cases h : args.gp <;> simp [step07, h]
lemma fr08_14 (args : Args) (c : GlobalConfig) : (step08 args c).ASM_TEXT_LABEL = c.ASM_TEXT_LABEL := by cases h : args.filter_low_addresses <;> simp [step08, h]
lemma fr09_14 (args : Args) (c : GlobalConfig) : (step09 args c).ASM_TEXT_LABEL = c.ASM_TEXT_LABEL := by cases h : args.filter_high_addresses <;> simp [step09, h]
lemma fr10_14 (args : Args) (c : GlobalConfig) : (step10 args c).ASM_TEXT_LABEL = c.ASM_TEXT_LABEL := by cases h : args.filtered_addresses_as_constants <;> simp [step10, h]
lemma fr11_14 (args : Args) (c : GlobalConfig) : (step11 args c).ASM_TEXT_LABEL = c.ASM_TEXT_LABEL := by cases h : args.filtered_addresses_as_hilo <;> simp [step11, h]
lemma fr12_14 (args : Args) (c : GlobalConfig) : (step12 args c).ASM_TEXT_LABEL = c.ASM_TEXT_LABEL := by cases h : args.asm_comments <;> simp [step12, h]
lemma fr13_14 (args : Args) (c : GlobalConfig) : (step13 args c).ASM_TEXT_LABEL = c.ASM_TEXT_LABEL := by cases h : args.glabel_count <;> simp [step13, h]
lemma fr15_14 (args : Args) (c : GlobalConfig) : (step15 args c).ASM_TEXT_LABEL = c.ASM_TEXT_LABEL := by cases h : args.asm_data_label <;> simp only [step15, h] <;> first | rfl | (split <;> rfl)
lemma fr16_14 (args : Args) (c : GlobalConfig) : (step16 args c).ASM_TEXT_LABEL = c.ASM_TEXT_LABEL := by cases h : args.asm_ent_label <;> simp only [step16, h] <;> first | rfl | (split <;> rfl)
lemma fr17_14 (args : Args) (c : GlobalConfig) : (step17 args c).ASM_TEXT_LABEL = c.ASM_TEXT_LABEL := by cases h : args.asm_end_label <;> simp only [step17, h] <;> first | rfl | (split <;> rfl)
lemma fr18_14 (args : Args) (c : GlobalConfig) : (step18 args c).ASM_TEXT_LABEL = c.ASM_TEXT_LABEL := by cases h : args.asm_func_as_label <;> simp [step18, h]
lemma fr19_14 (args : Args) (c : GlobalConfig) : (step19 args c).ASM_TEXT_LABEL = c.ASM_TEXT_LABEL := by cases h : args.print_new_file_boundaries <;> simp [step19, h]
lemma fr20_14 (args : Args) (c : GlobalConfig) : (step20 args c).ASM_TEXT_LABEL = c.ASM_TEXT_LABEL := by cases h : args.use_dot_byte <;> simp [step20, h]
lemma fr21_14 (args : Args) (c : GlobalConfig) : (step21 args c).ASM_TEXT_LABEL = c.ASM_TEXT_LABEL := by cases h : args.use_dot_short <;> simp [step21, h]
lemma fr22_14 (args : Args) (c : GlobalConfig) : (step22 args c).ASM_TEXT_LABEL = c.ASM_TEXT_LABEL := by cases h : args.verbose <;> simp [step22, h]
lemma fr23_14 (args : Args) (c : GlobalConfig) : (step23 args c).ASM_TEXT_LABEL = c.ASM_TEXT_LABEL := by cases h : args.quiet <;> simp [step23, h]
lemma fr24_14 (args : Args) (c : GlobalConfig) : (step24 args c).ASM_TEXT_LABEL = c.ASM_TEXT_LABEL := by cases h : args.debug_func_analysis <;> simp [step24, h]
lemma fr25_14 (args : Args) (c : GlobalConfig) : (step25 args c).ASM_TEXT_LABEL = c.ASM_TEXT_LABEL := by cases h : args.debug_symbol_finder <;> simp [step25, h]
lemma fr26_14 (args : Args) (c : GlobalConfig) : (step26 args c).ASM_TEXT_LABEL = c.ASM_TEXT_LABEL := by cases h : args.debug_unpaired_luis <;> simp [step26, h]

lemma fr01_15 (args : Args) (c : GlobalConfig) : (step01 args c).ASM_DATA_LABEL = c.ASM_DATA_LABEL := by cases h : args.disasm_unknown <;> simp [step01, h]
lemma fr02_15 (args : Args) (c : GlobalConfig) : (step02 args c).ASM_DATA_LABEL = c.ASM_DATA_LABEL := by cases h : args.string_guesser <;> simp [step02, h]
lemma fr03_15 (args : Args) (c : GlobalConfig) : (step03 args c).ASM_DATA_LABEL = c.ASM_DATA_LABEL := by cases h : args.name_vars_by_section <;> simp [step03, h]
lemma fr04_15 (args : Args) (c : GlobalConfig) : (step04 args c).ASM_DATA_LABEL = c.ASM_DATA_LABEL := by cases h : args.name_vars_by_type <;> simp [step04, h]
lemma fr05_15 (args : Args) (c : GlobalConfig) : (step05 args c).ASM_DATA_LABEL = c.ASM_DATA_LABEL := by cases h : args.compiler <;> simp [step05, h]
lemma fr06_15 (args : Args) (c : GlobalConfig) : (step06 args c).ASM_DATA_LABEL = c.ASM_DATA_LABEL := by by_cases h1 : args.endian = "little" <;> by_cases h2 : args.endian = "middle" <;> simp [step06, h1, h2]
lemma fr07_15 (args : Args) (c : GlobalConfig) : (step07 args c).ASM_DATA_LABEL = c.ASM_DATA_LABEL := by cases h : args.gp <;> simp [step07, h]
lemma fr08_15 (args : Args) (c : GlobalConfig) : (step08 args c).ASM_DATA_LABEL = c.ASM_DATA_LABEL := by cases h : args.filter_low_addresses <;> simp [step08, h]
lemma fr09_15 (args : Args) (c : GlobalConfig) : (step09 args c).ASM_DATA_LABEL = c.ASM_DATA_LABEL := by cases h : args.filter_high_addresses <;> simp [step09, h]
lemma fr10_15 (args : Args) (c : GlobalConfig) : (step10 args c).ASM_DATA_LABEL = c.ASM_DATA_LABEL := by cases h : args.filtered_addresses_as_constants <;> simp [step10, h]
lemma fr11_15 (args : Args) (c : GlobalConfig) : (step11 args c).ASM_DATA_LABEL = c.ASM_DATA_LABEL := by cases h : args.filtered_addresses_as_hilo <;> simp [step11, h]
lemma fr12_15 (args : Args) (c : GlobalConfig) : (step12 args c).ASM_DATA_LABEL = c.ASM_DATA_LABEL := by cases h : args.asm_comments <;> simp [step12, h]
lemma fr13_15 (args : Args) (c : GlobalConfig) : (step13 args c).ASM_DATA_LABEL = c.ASM_DATA_LABEL := by cases h : args.glabel_count <;> simp [step13, h]
lemma fr14_15 (args : Args) (c : GlobalConfig) : (step14 args c).ASM_DATA_LABEL = c.ASM_DATA_LABEL := by cases h : args.asm_text_label <;> simp only [step14, h] <;> first | rfl | (split <;> rfl)
lemma fr16_15 (args : Args) (c : GlobalConfig) : (step16 args c).ASM_DATA_LABEL = c.ASM_DATA_LABEL := by cases h : args.asm_ent_label <;> simp only [step16, h] <;> first | rfl | (split <;> rfl)
lemma fr17_15 (args : Args) (c : GlobalConfig) : (step17 args c).ASM_DATA_LABEL = c.ASM_DATA_LABEL := by cases h : args.asm_end_label <;> simp only [step17, h] <;> first | rfl | (split <;> rfl)
lemma fr18_15 (args : Args) (c : GlobalConfig) : (step18 args c).ASM_DATA_LABEL = c.ASM_DATA_LABEL := by cases h : args.asm_func_as_label <;> simp [step18, h]
lemma fr19_15 (args : Args) (c : GlobalConfig) : (step19 args c).ASM_DATA_LABEL = c.ASM_DATA_LABEL := by cases h : args.print_new_file_boundaries <;> simp [step19, h]
lemma fr20_15 (args : Args) (c : GlobalConfig) : (step20 args c).ASM_DATA_LABEL = c.ASM_DATA_LABEL := by cases h : args.use_dot_byte <;> simp [step20, h]
lemma fr21_15 (args : Args) (c : GlobalConfig) : (step21 args c).ASM_DATA_LABEL = c.ASM_DATA_LABEL := by cases h : args.use_dot_short <;> simp [step21, h]
lemma fr22_15 (args : Args) (c : GlobalConfig) : (step22 args c).ASM_DATA_LABEL = c.ASM_DATA_LABEL := by cases h : args.verbose <;> simp [step22, h]
lemma fr23_15 (args : Args) (c : GlobalConfig) : (step23 args c).ASM_DATA_LABEL = c.ASM_DATA_LABEL := by cases h : args.quiet <;> simp [step23, h]
lemma fr24_15 (args : Args) (c : GlobalConfig) : (step24 args c).ASM_DATA_LABEL = c.ASM_DATA_LABEL := by cases h : args.debug_func_analysis <;> simp [step24, h]
lemma fr25_15 (args : Args) (c : GlobalConfig) : (step25 args c).ASM_DATA_LABEL = c.ASM_DATA_LABEL := by cases h : args.debug_symbol_finder <;> simp [step25, h]
lemma fr26_15 (args : Args) (c : GlobalConfig) : (step26 args c).ASM_DATA_LABEL = c.ASM_DATA_LABEL := by cases h : args.debug_unpaired_luis <;> simp [step26, h]

lemma fr01_16 (args : Args) (c : GlobalConfig) : (step01 args c).ASM_TEXT_ENT_LABEL = c.ASM_TEXT_ENT_LABEL := by cases h : args.disasm_unknown <;> simp [step01, h]
lemma fr02_16 (args : Args) (c : GlobalConfig) : (step02 args c).ASM_TEXT_ENT_LABEL = c.ASM_TEXT_ENT_LABEL := by cases h : args.string_guesser <;> simp [step02, h]
lemma fr03_16 (args : Args) (c : GlobalConfig) : (step03 args c).ASM_TEXT_ENT_LABEL = c.ASM_TEXT_ENT_LABEL := by cases h : args.name_vars_by_section <;> simp [step03, h]
lemma fr04_16 (args : Args) (c : GlobalConfig) : (step04 args c).ASM_TEXT_ENT_LABEL = c.ASM_TEXT_ENT_LABEL := by cases h : args.name_vars_by_type <;> simp [step04, h]
lemma fr05_16 (args : Args) (c : GlobalConfig) : (step05 args c).ASM_TEXT_ENT_LABEL = c.ASM_TEXT_ENT_LABEL := by cases h : args.compiler <;> simp [step05, h]
lemma fr06_16 (args : Args) (c : GlobalConfig) : (step06 args c).ASM_TEXT_ENT_LABEL = c.ASM_TEXT_ENT_LABEL := by by_cases h1 : args.endian = "little" <;> by_cases h2 : args.endian = "middle" <;> simp [step06, h1, h2]
lemma fr07_16 (args : Args) (c : GlobalConfig) : (step07 args c).ASM_TEXT_ENT_LABEL = c.ASM_TEXT_ENT_LABEL := by cases h : args.gp <;> simp [step07, h]
lemma fr08_16 (args : Args) (c : GlobalConfig) : (step08 args c).ASM_TEXT_ENT_LABEL = c.ASM_TEXT_ENT_LABEL := by cases h : args.filter_low_addresses <;> simp [step08, h]
lemma fr09_16 (args : Args) (c : GlobalConfig) : (step09 args c).ASM_TEXT_ENT_LABEL = c.ASM_TEXT_ENT_LABEL := by cases h : args.filter_high_addresses <;> simp [step09, h]
lemma fr10_16 (args : Args) (c : GlobalConfig) : (step10 args c).ASM_TEXT_ENT_LABEL = c.ASM_TEXT_ENT_LABEL := by cases h : args.filtered_addresses_as_constants <;> simp [step10, h]
lemma fr11_16 (args : Args) (c : GlobalConfig) : (step11 args c).ASM_TEXT_ENT_LABEL = c.ASM_TEXT_ENT_LABEL := by cases h : args.filtered_addresses_as_hilo <;> simp [step11, h]
lemma fr12_16 (args : Args) (c : GlobalConfig) : (step12 args c).ASM_TEXT_ENT_LABEL = c.ASM_TEXT_ENT_LABEL := by cases h : args.asm_comments <;> simp [step12, h]
lemma fr13_16 (args : Args) (c : GlobalConfig) : (step13 args c).ASM_TEXT_ENT_LABEL = c.ASM_TEXT_ENT_LABEL := by cases h : args.glabel_count <;> simp [step13, h]
lemma fr14_16 (args : Args) (c : GlobalConfig) : (step14 args c).ASM_TEXT_ENT_LABEL = c.ASM_TEXT_ENT_LABEL := by cases h : args.asm_text_label <;> simp only [step14, h] <;> first | rfl | (split <;> rfl)
lemma fr15_16 (args : Args) (c : GlobalConfig) : (step15 args c).ASM_TEXT_ENT_LABEL = c.ASM_TEXT_ENT_LABEL := by cases h : args.asm_data_label <;> simp only [step15, h] <;> first | rfl | (split <;> rfl)
lemma fr17_16 (args : Args) (c : GlobalConfig) : (step17 args c).ASM_TEXT_ENT_LABEL = c.ASM_TEXT_ENT_LABEL := by cases h : args.asm_end_label <;> simp only [step17, h] <;> first | rfl | (split <;> rfl)
lemma fr18_16 (args : Args) (c : GlobalConfig) : (step18 args c).ASM_TEXT_ENT_LABEL = c.ASM_TEXT_ENT_LABEL := by cases h : args.asm_func_as_label <;> simp [step18, h]
lemma fr19_16 (args : Args) (c : GlobalConfig) : (step19 args c).ASM_TEXT_ENT_LABEL = c.ASM_TEXT_ENT_LABEL := by cases h : args.print_new_file_boundaries <;> simp [step19, h]
lemma fr20_16 (args : Args) (c : GlobalConfig) : (step20 args c).ASM_TEXT_ENT_LABEL = c.ASM_TEXT_ENT_LABEL := by cases h : args.use_dot_byte <;> simp [step20, h]
lemma fr21_16 (args : Args) (c : GlobalConfig) : (step21 args c).ASM_TEXT_ENT_LABEL = c.ASM_TEXT_ENT_LABEL := by cases h : args.use_dot_short <;> simp [step21, h]
lemma fr22_16 (args : Args) (c : GlobalConfig) : (step22 args c).ASM_TEXT_ENT_LABEL = c.ASM_TEXT_ENT_LABEL := by cases h : args.verbose <;> simp [step22, h]
lemma fr23_16 (args : Args) (c : GlobalConfig) : (step23 args c).ASM_TEXT_ENT_LABEL = c.ASM_TEXT_ENT_LABEL := by cases h : args.quiet <;> simp [step23, h]
lemma fr24_16 (args : Args) (c : GlobalConfig) : (step24 args c).ASM_TEXT_ENT_LABEL = c.ASM_TEXT_ENT_LABEL := by cases h : args.debug_func_analysis <;> simp [step24, h]
lemma fr25_16 (args : Args) (c : GlobalConfig) : (step25 args c).ASM_TEXT_ENT_LABEL = c.ASM_TEXT_ENT_LABEL := by cases h : args.debug_symbol_finder <;> simp [step25, h]
lemma fr26_16 (args : Args) (c : GlobalConfig) : (step26 args c).ASM_TEXT_ENT_LABEL = c.ASM_TEXT_ENT_LABEL := by cases h : args.debug_unpaired_luis <;> simp [step26, h]

lemma fr01_17 (args : Args) (c : GlobalConfig) : (step01 args c).ASM_TEXT_END_LABEL = c.ASM_TEXT_END_LABEL := by cases h : args.disasm_unknown <;> simp [step01, h]
lemma fr02_17 (args : Args) (c : GlobalConfig) : (step02 args c).ASM_TEXT_END_LABEL = c.ASM_TEXT_END_LABEL := by cases h : args.string_guesser <;> simp [step02, h]
lemma fr03_17 (args : Args) (c : GlobalConfig) : (step03 args c).ASM_TEXT_END_LABEL = c.ASM_TEXT_END_LABEL := by cases h : args.name_vars_by_section <;> simp [step03, h]
lemma fr04_17 (args : Args) (c : GlobalConfig) : (step04 args c).ASM_TEXT_END_LABEL = c.ASM_TEXT_END_LABEL := by cases h : args.name_vars_by_type <;> simp [step04, h]
lemma fr05_17 (args : Args) (c : GlobalConfig) : (step05 args c).ASM_TEXT_END_LABEL = c.ASM_TEXT_END_LABEL := by cases h : args.compiler <;> simp [step05, h]
lemma fr06_17 (args : Args) (c : GlobalConfig) : (step06 args c).ASM_TEXT_END_LABEL = c.ASM_TEXT_END_LABEL := by by_cases h1 : args.endian = "little" <;> by_cases h2 : args.endian = "middle" <;> simp [step06, h1, h2]
lemma fr07_17 (args : Args) (c : GlobalConfig) : (step07 args c).ASM_TEXT_END_LABEL = c.ASM_TEXT_END_LABEL := by cases h : args.gp <;> simp [step07, h]
lemma fr08_17 (args : Args) (c : GlobalConfig) : (step08 args c).ASM_TEXT_END_LABEL = c.ASM_TEXT_END_LABEL := by cases h : args.filter_low_addresses <;> simp [step08, h]
lemma fr09_17 (args : Args) (c : GlobalConfig) : (step09 args c).ASM_TEXT_END_LABEL = c.ASM_TEXT_END_LABEL := by cases h : args.filter_high_addresses <;> simp [step09, h]
lemma fr10_17 (args : Args) (c : GlobalConfig) : (step10 args c).ASM_TEXT_END_LABEL = c.ASM_TEXT_END_LABEL := by cases h : args.filtered_addresses_as_constants <;> simp [step10, h]
lemma fr11_17 (args : Args) (c : GlobalConfig) : (step11 args c).ASM_TEXT_END_LABEL = c.ASM_TEXT_END_LABEL := by cases h : args.filtered_addresses_as_hilo <;> simp [step11, h]
lemma fr12_17 (args : Args) (c : GlobalConfig) : (step12 args c).ASM_TEXT_END_LABEL = c.ASM_TEXT_END_LABEL := by cases h : args.asm_comments <;> simp [step12, h]
lemma fr13_17 (args : Args) (c : GlobalConfig) : (step13 args c).ASM_TEXT_END_LABEL = c.ASM_TEXT_END_LABEL := by cases h : args.glabel_count <;> simp [step13, h]
lemma fr14_17 (args : Args) (c : GlobalConfig) : (step14 args c).ASM_TEXT_END_LABEL = c.ASM_TEXT_END_LABEL := by cases h : args.asm_text_label <;> simp only [step14, h] <;> first | rfl | (split <;> rfl)
lemma fr15_17 (args : Args) (c : GlobalConfig) : (step15 args c).ASM_TEXT_END_LABEL = c.ASM_TEXT_END_LABEL := by cases h : args.asm_data_label <;> simp only [step15, h] <;> first | rfl | (split <;> rfl)
lemma fr16_17 (args : Args) (c : GlobalConfig) : (step16 args c).ASM_TEXT_END_LABEL = c.ASM_TEXT_END_LABEL := by cases h : args.asm_ent_label <;> simp only [step16, h] <;> first | rfl | (split <;> rfl)
lemma fr18_17 (args : Args) (c : GlobalConfig) : (step18 args c).ASM_TEXT_END_LABEL = c.ASM_TEXT_END_LABEL := by cases h : args.asm_func_as_label <;> simp [step18, h]
lemma fr19_17 (args : Args) (c : GlobalConfig) : (step19 args c).ASM_TEXT_END_LABEL = c.ASM_TEXT_END_LABEL := by cases h : args.print_new_file_boundaries <;> simp [step19, h]
lemma fr20_17 (args : Args) (c : GlobalConfig) : (step20 args c).ASM_TEXT_END_LABEL = c.ASM_TEXT_END_LABEL := by cases h : args.use_dot_byte <;> simp [step20, h]
lemma fr21_17 (args : Args) (c : GlobalConfig) : (step21 args c).ASM_TEXT_END_LABEL = c.ASM_TEXT_END_LABEL := by cases h : args.use_dot_short <;> simp [step21, h]
lemma fr22_17 (args : Args) (c : GlobalConfig) : (step22 args c).ASM_TEXT_END_LABEL = c.ASM_TEXT_END_LABEL := by cases h : args.verbose <;> simp [step22, h]
lemma fr23_17 (args : Args) (c : GlobalConfig) : (step23 args c).ASM_TEXT_END_LABEL = c.ASM_TEXT_END_LABEL := by cases h : args.quiet <;> simp [step23, h]
lemma fr24_17 (args : Args) (c : GlobalConfig) : (step24 args c).ASM_TEXT_END_LABEL = c.ASM_TEXT_END_LABEL := by cases h : args.debug_func_analysis <;> simp [step24, h]
lemma fr25_17 (args : Args) (c : GlobalConfig) : (step25 args c).ASM_TEXT_END_LABEL = c.ASM_TEXT_END_LABEL := by cases h : args.debug_symbol_finder <;> simp [step25, h]
lemma fr26_17 (args : Args) (c : GlobalConfig) : (step26 args c).ASM_TEXT_END_LABEL = c.ASM_TEXT_END_LABEL := by cases h : args.debug_unpaired_luis <;> simp [step26, h]

lemma fr01_18 (args : Args) (c : GlobalConfig) : (step01 args c).ASM_TEXT_FUNC_AS_LABEL = c.ASM_TEXT_FUNC_AS_LABEL := by cases h : args.disasm_unknown <;> simp [step01, h]
lemma fr02_18 (args : Args) (c : GlobalConfig) : (step02 args c).ASM_TEXT_FUNC_AS_LABEL = c.ASM_TEXT_FUNC_AS_LABEL := by cases h : args.string_guesser <;> simp [step02, h]
lemma fr03_18 (args : Args) (c : GlobalConfig) : (step03 args c).ASM_TEXT_FUNC_AS_LABEL = c.ASM_TEXT_FUNC_AS_LABEL := by cases h : args.name_vars_by_section <;> simp [step03, h]
lemma fr04_18 (args : Args) (c : GlobalConfig) : (step04 args c).ASM_TEXT_FUNC_AS_LABEL = c.ASM_TEXT_FUNC_AS_LABEL := by cases h : args.name_vars_by_type <;> simp [step04, h]
lemma fr05_18 (args : Args) (c : GlobalConfig) : (step05 args c).ASM_TEXT_FUNC_AS_LABEL = c.ASM_TEXT_FUNC_AS_LABEL := by cases h : args.compiler <;> simp [step05, h]
lemma fr06_18 (args : Args) (c : GlobalConfig) : (step06 args c).ASM_TEXT_FUNC_AS_LABEL = c.ASM_TEXT_FUNC_AS_LABEL := by by_cases h1 : args.endian = "little" <;> by_cases h2 : args.endian = "middle" <;> simp [step06, h1, h2]
lemma fr07_18 (args : Args) (c : GlobalConfig) : (step07 args c).ASM_TEXT_FUNC_AS_LABEL = c.ASM_TEXT_FUNC_AS_LABEL := by cases h : args.gp <;> simp [step07, h]
lemma fr08_18 (args : Args) (c : GlobalConfig) : (step08 args c).ASM_TEXT_FUNC_AS_LABEL = c.ASM_TEXT_FUNC_AS_LABEL := by cases h : args.filter_low_addresses <;> simp [step08, h]
lemma fr09_18 (args : Args) (c : GlobalConfig) : (step09 args c).ASM_TEXT_FUNC_AS_LABEL = c.ASM_TEXT_FUNC_AS_LABEL := by cases h : args.filter_high_addresses <;> simp [step09, h]
lemma fr10_18 (args : Args) (c : GlobalConfig) : (step10 args c).ASM_TEXT_FUNC_AS_LABEL = c.ASM_TEXT_FUNC_AS_LABEL := by cases h : args.filtered_addresses_as_constants <;> simp [step10, h]
lemma fr11_18 (args : Args) (c : GlobalConfig) : (step11 args c).ASM_TEXT_FUNC_AS_LABEL = c.ASM_TEXT_FUNC_AS_LABEL := by cases h : args.filtered_addresses_as_hilo <;> simp [step11, h]
lemma fr12_18 (args : Args) (c : GlobalConfig) : (step12 args c).ASM_TEXT_FUNC_AS_LABEL = c.ASM_TEXT_FUNC_AS_LABEL := by cases h : args.asm_comments <;> simp [step12, h]
lemma fr13_18 (args : Args) (c : GlobalConfig) : (step13 args c).ASM_TEXT_FUNC_AS_LABEL = c.ASM_TEXT_FUNC_AS_LABEL := by cases h : args.glabel_count <;> simp [step13, h]
lemma fr14_18 (args : Args) (c : GlobalConfig) : (step14 args c).ASM_TEXT_FUNC_AS_LABEL = c.ASM_TEXT_FUNC_AS_LABEL := by cases h : args.asm_text_label <;> simp only [step14, h] <;> first | rfl | (split <;> rfl)
lemma fr15_18 (args : Args) (c : GlobalConfig) : (step15 args c).ASM_TEXT_FUNC_AS_LABEL = c.ASM_TEXT_FUNC_AS_LABEL := by cases h : args.asm_data_label <;> simp only [step15, h] <;> first | rfl | (split <;> rfl)
lemma fr16_18 (args : Args) (c : GlobalConfig) : (step16 args c).ASM_TEXT_FUNC_AS_LABEL = c.ASM_TEXT_FUNC_AS_LABEL := by cases h : args.asm_ent_label <;> simp only [step16, h] <;> first | rfl | (split <;> rfl)
lemma fr17_18 (args : Args) (c : GlobalConfig) : (step17 args c).ASM_TEXT_FUNC_AS_LABEL = c.ASM_TEXT_FUNC_AS_LABEL := by cases h : args.asm_end_label <;> simp only [step17, h] <;> first | rfl | (split <;> rfl)
lemma fr19_18 (args : Args) (c : GlobalConfig) : (step19 args c).ASM_TEXT_FUNC_AS_LABEL = c.ASM_TEXT_FUNC_AS_LABEL := by cases h : args.print_new_file_boundaries <;> simp [step19, h]
lemma fr20_18 (args : Args) (c : GlobalConfig) : (step20 args c).ASM_TEXT_FUNC_AS_LABEL = c.ASM_TEXT_FUNC_AS_LABEL := by cases h : args.use_dot_byte <;> simp [step20, h]
lemma fr21_18 (args : Args) (c : GlobalConfig) : (step21 args c).ASM_TEXT_FUNC_AS_LABEL = c.ASM_TEXT_FUNC_AS_LABEL := by cases h : args.use_dot_short <;> simp [step21, h]
lemma fr22_18 (args : Args) (c : GlobalConfig) : (step22 args c).ASM_TEXT_FUNC_AS_LABEL = c.ASM_TEXT_FUNC_AS_LABEL := by cases h : args.verbose <;> simp [step22, h]
lemma fr23_18 (args : Args) (c : GlobalConfig) : (step23 args c).ASM_TEXT_FUNC_AS_LABEL = c.ASM_TEXT_FUNC_AS_LABEL := by cases h : args.quiet <;> simp [step23, h]
lemma fr24_18 (args : Args) (c : GlobalConfig) : (step24 args c).ASM_TEXT_FUNC_AS_LABEL = c.ASM_TEXT_FUNC_AS_LABEL := by cases h : args.debug_func_analysis <;> simp [step24, h]
lemma fr25_18 (args : Args) (c : GlobalConfig) : (step25 args c).ASM_TEXT_FUNC_AS_LABEL = c.ASM_TEXT_FUNC_AS_LABEL := by cases h : args.debug_symbol_finder <;> simp [step25, h]
lemma fr26_18 (args : Args) (c : GlobalConfig) : (step26 args c).ASM_TEXT_FUNC_AS_LABEL = c.ASM_TEXT_FUNC_AS_LABEL := by cases h : args.debug_unpaired_luis <;> simp [step26, h]

lemma fr01_19 (args : Args) (c : GlobalConfig) : (step01 args c).PRINT_NEW_FILE_BOUNDARIES = c.PRINT_NEW_FILE_BOUNDARIES := by cases h : args.disasm_unknown <;> simp [step01, h]
lemma fr02_19 (args : Args) (c : GlobalConfig) : (step02 args c).PRINT_NEW_FILE_BOUNDARIES = c.PRINT_NEW_FILE_BOUNDARIES := by cases h : args.string_guesser <;> simp [step02, h]
lemma fr03_19 (args : Args) (c : GlobalConfig) : (step03 args c).PRINT_NEW_FILE_BOUNDARIES = c.PRINT_NEW_FILE_BOUNDARIES := by cases h : args.name_vars_by_section <;> simp [step03, h]
lemma fr04_19 (args : Args) (c : GlobalConfig) : (step04 args c).PRINT_NEW_FILE_BOUNDARIES = c.PRINT_NEW_FILE_BOUNDARIES := by cases h : args.name_vars_by_type <;> simp [step04, h]
lemma fr05_19 (args : Args) (c : GlobalConfig) : (step05 args c).PRINT_NEW_FILE_BOUNDARIES = c.PRINT_NEW_FILE_BOUNDARIES := by cases h : args.compiler <;> simp [step05, h]
lemma fr06_19 (args : Args) (c : GlobalConfig) : (step06 args c).PRINT_NEW_FILE_BOUNDARIES = c.PRINT_NEW_FILE_BOUNDARIES := by by_cases h1 : args.endian = "little" <;> by_cases h2 : args.endian = "middle" <;> simp [step06, h1, h2]
lemma fr07_19 (args : Args) (c : GlobalConfig) : (step07 args c).PRINT_NEW_FILE_BOUNDARIES = c.PRINT_NEW_FILE_BOUNDARIES := by cases h : args.gp <;> simp [step07, h]
lemma fr08_19 (args : Args) (c : GlobalConfig) : (step08 args c).PRINT_NEW_FILE_BOUNDARIES = c.PRINT_NEW_FILE_BOUNDARIES := by cases h : args.filter_low_addresses <;> simp [step08, h]
lemma fr09_19 (args : Args) (c : GlobalConfig) : (step09 args c).PRINT_NEW_FILE_BOUNDARIES = c.PRINT_NEW_FILE_BOUNDARIES := by cases h : args.filter_high_addresses <;> simp [step09, h]
lemma fr10_19 (args : Args) (c : GlobalConfig) : (step10 args c).PRINT_NEW_FILE_BOUNDARIES = c.PRINT_NEW_FILE_BOUNDARIES := by cases h : args.filtered_addresses_as_constants <;> simp [step10, h]
lemma fr11_19 (args : Args) (c : GlobalConfig) : (step11 args c).PRINT_NEW_FILE_BOUNDARIES = c.PRINT_NEW_FILE_BOUNDARIES := by cases h : args.filtered_addresses_as_hilo <;> simp [step11, h]
lemma fr12_19 (args : Args) (c : GlobalConfig) : (step12 args c).PRINT_NEW_FILE_BOUNDARIES = c.PRINT_NEW_FILE_BOUNDARIES := by cases h : args.asm_comments <;> simp [step12, h]
lemma fr13_19 (args : Args) (c : GlobalConfig) : (step13 args c).PRINT_NEW_FILE_BOUNDARIES = c.PRINT_NEW_FILE_BOUNDARIES := by cases h : args.glabel_count <;> simp [step13, h]
lemma fr14_19 (args : Args) (c : GlobalConfig) : (step14 args c).PRINT_NEW_FILE_BOUNDARIES = c.PRINT_NEW_FILE_BOUNDARIES := by cases h : args.asm_text_label <;> simp only [step14, h] <;> first | rfl | (split <;> rfl)
lemma fr15_19 (args : Args) (c : GlobalConfig) : (step15 args c).PRINT_NEW_FILE_BOUNDARIES = c.PRINT_NEW_FILE_BOUNDARIES := by cases h : args.asm_data_label <;> simp only [step15, h] <;> first | rfl | (split <;> rfl)
lemma fr16_19 (args : Args) (c : GlobalConfig) : (step16 args c).PRINT_NEW_FILE_BOUNDARIES = c.PRINT_NEW_FILE_BOUNDARIES := by cases h : args.asm_ent_label <;> simp only [step16, h] <;> first | rfl | (split <;> rfl)
lemma fr17_19 (args : Args) (c : GlobalConfig) : (step17 args c).PRINT_NEW_FILE_BOUNDARIES = c.PRINT_NEW_FILE_BOUNDARIES := by cases h : args.asm_end_label <;> simp only [step17, h] <;> first | rfl | (split <;> rfl)
lemma fr18_19 (args : Args) (c : GlobalConfig) : (step18 args c).PRINT_NEW_FILE_BOUNDARIES = c.PRINT_NEW_FILE_BOUNDARIES := by cases h : args.asm_func_as_label <;> simp [step18, h]
lemma fr20_19 (args : Args) (c : GlobalConfig) : (step20 args c).PRINT_NEW_FILE_BOUNDARIES = c.PRINT_NEW_FILE_BOUNDARIES := by cases h : args.use_dot_byte <;> simp [step20, h]
lemma fr21_19 (args : Args) (c : GlobalConfig) : (step21 args c).PRINT_NEW_FILE_BOUNDARIES = c.PRINT_NEW_FILE_BOUNDARIES := by cases h : args.use_dot_short <;> simp [step21, h]
lemma fr22_19 (args : Args) (c : GlobalConfig) : (step22 args c).PRINT_NEW_FILE_BOUNDARIES = c.PRINT_NEW_FILE_BOUNDARIES := by cases h : args.verbose <;> simp [step22, h]
lemma fr23_19 (args : Args) (c : GlobalConfig) : (step23 args c).PRINT_NEW_FILE_BOUNDARIES = c.PRINT_NEW_FILE_BOUNDARIES := by cases h : args.quiet <;> simp [step23, h]
lemma fr24_19 (args : Args) (c : GlobalConfig) : (step24 args c).PRINT_NEW_FILE_BOUNDARIES = c.PRINT_NEW_FILE_BOUNDARIES := by cases h : args.debug_func_analysis <;> simp [step24, h]
lemma fr25_19 (args : Args) (c : GlobalConfig) : (step25 args c).PRINT_NEW_FILE_BOUNDARIES = c.PRINT_NEW_FILE_BOUNDARIES := by cases h : args.debug_symbol_finder <;> simp [step25, h]
lemma fr26_19 (args : Args) (c : GlobalConfig) : (step26 args c).PRINT_NEW_FILE_BOUNDARIES = c.PRINT_NEW_FILE_BOUNDARIES := by cases h : args.debug_unpaired_luis <;> simp [step26, h]

lemma fr01_20 (args : Args) (c : GlobalConfig) : (step01 args c).USE_DOT_BYTE = c.USE_DOT_BYTE := by cases h : args.disasm_unknown <;> simp [step01, h]
lemma fr02_20 (args : Args) (c : GlobalConfig) : (step02 args c).USE_DOT_BYTE = c.USE_DOT_BYTE := by cases h : args.string_guesser <;> simp [step02, h]
lemma fr03_20 (args : Args) (c : GlobalConfig) : (step03 args c).USE_DOT_BYTE = c.USE_DOT_BYTE := by cases h : args.name_vars_by_section <;> simp [step03, h]
lemma fr04_20 (args : Args) (c : GlobalConfig) : (step04 args c).USE_DOT_BYTE = c.USE_DOT_BYTE := by cases h : args.name_vars_by_type <;> simp [step04, h]
lemma fr05_20 (args : Args) (c : GlobalConfig) : (step05 args c).USE_DOT_BYTE = c.USE_DOT_BYTE := by cases h : args.compiler <;> simp [step05, h]
lemma fr06_20 (args : Args) (c : GlobalConfig) : (step06 args c).USE_DOT_BYTE = c.USE_DOT_BYTE := by by_cases h1 : args.endian = "little" <;> by_cases h2 : args.endian = "middle" <;> simp [step06, h1, h2]
lemma fr07_20 (args : Args) (c : GlobalConfig) : (step07 args c).USE_DOT_BYTE = c.USE_DOT_BYTE := by cases h : args.gp <;> simp [step07, h]
lemma fr08_20 (args : Args) (c : GlobalConfig) : (step08 args c).USE_DOT_BYTE = c.USE_DOT_BYTE := by cases h : args.filter_low_addresses <;> simp [step08, h]
lemma fr09_20 (args : Args) (c : GlobalConfig) : (step09 args c).USE_DOT_BYTE = c.USE_DOT_BYTE := by cases h : args.filter_high_addresses <;> simp [step09, h]
lemma fr10_20 (args : Args) (c : GlobalConfig) : (step10 args c).USE_DOT_BYTE = c.USE_DOT_BYTE := by cases h : args.filtered_addresses_as_constants <;> simp [step10, h]
lemma fr11_20 (args : Args) (c : GlobalConfig) : (step11 args c).USE_DOT_BYTE = c.USE_DOT_BYTE := by cases h : args.filtered_addresses_as_hilo <;> simp [step11, h]
lemma fr12_20 (args : Args) (c : GlobalConfig) : (step12 args c).USE_DOT_BYTE = c.USE_DOT_BYTE := by cases h : args.asm_comments <;> simp [step12, h]
lemma fr13_20 (args : Args) (c : GlobalConfig) : (step13 args c).USE_DOT_BYTE = c.USE_DOT_BYTE := by cases h : args.glabel_count <;> simp [step13, h]
lemma fr14_20 (args : Args) (c : GlobalConfig) : (step14 args c).USE_DOT_BYTE = c.USE_DOT_BYTE := by cases h : args.asm_text_label <;> simp only [step14, h] <;> first | rfl | (split <;> rfl)
lemma fr15_20 (args : Args) (c : GlobalConfig) : (step15 args c).USE_DOT_BYTE = c.USE_DOT_BYTE := by cases h : args.asm_data_label <;> simp only [step15, h] <;> first | rfl | (split <;> rfl)
lemma fr16_20 (args : Args) (c : GlobalConfig) : (step16 args c).USE_DOT_BYTE = c.USE_DOT_BYTE := by cases h : args.asm_ent_label <;> simp only [step16, h] <;> first | rfl | (split <;> rfl)
lemma fr17_20 (args : Args) (c : GlobalConfig) : (step17 args c).USE_DOT_BYTE = c.USE_DOT_BYTE := by cases h : args.asm_end_label <;> simp only [step17, h] <;> first | rfl | (split <;> rfl)
lemma fr18_20 (args : Args) (c : GlobalConfig) : (step18 args c).USE_DOT_BYTE = c.USE_DOT_BYTE := by cases h : args.asm_func_as_label <;> simp [step18, h]
lemma fr19_20 (args : Args) (c : GlobalConfig) : (step19 args c).USE_DOT_BYTE = c.USE_DOT_BYTE := by cases h : args.print_new_file_boundaries <;> simp [step19, h]
lemma fr21_20 (args : Args) (c : GlobalConfig) : (step21 args c).USE_DOT_BYTE = c.USE_DOT_BYTE := by cases h : args.use_dot_short <;> simp [step21, h]
lemma fr22_20 (args : Args) (c : GlobalConfig) : (step22 args c).USE_DOT_BYTE = c.USE_DOT_BYTE := by cases h : args.verbose <;> simp [step22, h]
lemma fr23_20 (args : Args) (c : GlobalConfig) : (step23 args c).USE_DOT_BYTE = c.USE_DOT_BYTE := by cases h : args.quiet <;> simp [step23, h]
lemma fr24_20 (args : Args) (c : GlobalConfig) : (step24 args c).USE_DOT_BYTE = c.USE_DOT_BYTE := by cases h : args.debug_func_analysis <;> simp [step24, h]
lemma fr25_20 (args : Args) (c : GlobalConfig) : (step25 args c).USE_DOT_BYTE = c.USE_DOT_BYTE := by cases h : args.debug_symbol_finder <;> simp [step25, h]
lemma fr26_20 (args : Args) (c : GlobalConfig) : (step26 args c).USE_DOT_BYTE = c.USE_DOT_BYTE := by cases h : args.debug_unpaired_luis <;> simp [step26, h]

lemma fr01_21 (args : Args) (c : GlobalConfig) : (step01 args c).USE_DOT_SHORT = c.USE_DOT_SHORT := by cases h : args.disasm_unknown <;> simp [step01, h]
lemma fr02_21 (args : Args) (c : GlobalConfig) : (step02 args c).USE_DOT_SHORT = c.USE_DOT_SHORT := by cases h : args.string_guesser <;> simp [step02, h]
lemma fr03_21 (args : Args) (c : GlobalConfig) : (step03 args c).USE_DOT_SHORT = c.USE_DOT_SHORT := by cases h : args.name_vars_by_section <;> simp [step03, h]
lemma fr04_21 (args : Args) (c : GlobalConfig) : (step04 args c).USE_DOT_SHORT = c.USE_DOT_SHORT := by cases h : args.name_vars_by_type <;> simp [step04, h]
lemma fr05_21 (args : Args) (c : GlobalConfig) : (step05 args c).USE_DOT_SHORT = c.USE_DOT_SHORT := by cases h : args.compiler <;> simp [step05, h]
lemma fr06_21 (args : Args) (c : GlobalConfig) : (step06 args c).USE_DOT_SHORT = c.USE_DOT_SHORT := by by_cases h1 : args.endian = "little" <;> by_cases h2 : args.endian = "middle" <;> simp [step06, h1, h2]
lemma fr07_21 (args : Args) (c : GlobalConfig) : (step07 args c).USE_DOT_SHORT = c.USE_DOT_SHORT := by cases h : args.gp <;> simp [step07, h]
lemma fr08_21 (args : Args) (c : GlobalConfig) : (step08 args c).USE_DOT_SHORT = c.USE_DOT_SHORT := by cases h : args.filter_low_addresses <;> simp [step08, h]
lemma fr09_21 (args : Args) (c : GlobalConfig) : (step09 args c).USE_DOT_SHORT = c.USE_DOT_SHORT := by cases h : args.filter_high_addresses <;> simp [step09, h]
lemma fr10_21 (args : Args) (c : GlobalConfig) : (step10 args c).USE_DOT_SHORT = c.USE_DOT_SHORT := by cases h : args.filtered_addresses_as_constants <;> simp [step10, h]
lemma fr11_21 (args : Args) (c : GlobalConfig) : (step11 args c).USE_DOT_SHORT = c.USE_DOT_SHORT := by cases h : args.filtered_addresses_as_hilo <;> simp [step11, h]
lemma fr12_21 (args : Args) (c : GlobalConfig) : (step12 args c).USE_DOT_SHORT = c.USE_DOT_SHORT := by cases h : args.asm_comments <;> simp [step12, h]
lemma fr13_21 (args : Args) (c : GlobalConfig) : (step13 args c).USE_DOT_SHORT = c.USE_DOT_SHORT := by cases h : args.glabel_count <;> simp [step13, h]
lemma fr14_21 (args : Args) (c : GlobalConfig) : (step14 args c).USE_DOT_SHORT = c.USE_DOT_SHORT := by cases h : args.asm_text_label <;> simp only [step14, h] <;> first | rfl | (split <;> rfl)
lemma fr15_21 (args : Args) (c : GlobalConfig) : (step15 args c).USE_DOT_SHORT = c.USE_DOT_SHORT := by cases h : args.asm_data_label <;> simp only [step15, h] <;> first | rfl | (split <;> rfl)
lemma fr16_21 (args : Args) (c : GlobalConfig) : (step16 args c).USE_DOT_SHORT = c.USE_DOT_SHORT := by cases h : args.asm_ent_label <;> simp only [step16, h] <;> first | rfl | (split <;> rfl)
lemma fr17_21 (args : Args) (c : GlobalConfig) : (step17 args c).USE_DOT_SHORT = c.USE_DOT_SHORT := by cases h : args.asm_end_label <;> simp only [step17, h] <;> first | rfl | (split <;> rfl)
lemma fr18_21 (args : Args) (c : GlobalConfig) : (step18 args c).USE_DOT_SHORT = c.USE_DOT_SHORT := by cases h : args.asm_func_as_label <;> simp [step18, h]
lemma fr19_21 (args : Args) (c : GlobalConfig) : (step19 args c).USE_DOT_SHORT = c.USE_DOT_SHORT := by cases h : args.print_new_file_boundaries <;> simp [step19, h]
lemma fr20_21 (args : Args) (c : GlobalConfig) : (step20 args c).USE_DOT_SHORT = c.USE_DOT_SHORT := by cases h : args.use_dot_byte <;> simp [step20, h]
lemma fr22_21 (args : Args) (c : GlobalConfig) : (step22 args c).USE_DOT_SHORT = c.USE_DOT_SHORT := by cases h : args.verbose <;> simp [step22, h]
lemma fr23_21 (args : Args) (c : GlobalConfig) : (step23 args c).USE_DOT_SHORT = c.USE_DOT_SHORT := by cases h : args.quiet <;> simp [step23, h]
lemma fr24_21 (args : Args) (c : GlobalConfig) : (step24 args c).USE_DOT_SHORT = c.USE_DOT_SHORT := by cases h : args.debug_func_analysis <;> simp [step24, h]
lemma fr25_21 (args : Args) (c : GlobalConfig) : (step25 args c).USE_DOT_SHORT = c.USE_DOT_SHORT := by cases h : args.debug_symbol_finder <;> simp [step25, h]
lemma fr26_21 (args : Args) (c : GlobalConfig) : (step26 args c).USE_DOT_SHORT = c.USE_DOT_SHORT := by cases h : args.debug_unpaired_luis <;> simp [step26, h]

lemma fr01_22 (args : Args) (c : GlobalConfig) : (step01 args c).VERBOSE = c.VERBOSE := by cases h : args.disasm_unknown <;> simp [step01, h]
lemma fr02_22 (args : Args) (c : GlobalConfig) : (step02 args c).VERBOSE = c.VERBOSE := by cases h : args.string_guesser <;> simp [step02, h]
lemma fr03_22 (args : Args) (c : GlobalConfig) : (step03 args c).VERBOSE = c.VERBOSE := by cases h : args.name_vars_by_section <;> simp [step03, h]
lemma fr04_22 (args : Args) (c : GlobalConfig) : (step04 args c).VERBOSE = c.VERBOSE := by cases h : args.name_vars_by_type <;> simp [step04, h]
lemma fr05_22 (args : Args) (c : GlobalConfig) : (step05 args c).VERBOSE = c.VERBOSE := by cases h : args.compiler <;> simp [step05, h]
lemma fr06_22 (args : Args) (c : GlobalConfig) : (step06 args c).VERBOSE = c.VERBOSE := by by_cases h1 : args.endian = "little" <;> by_cases h2 : args.endian = "middle" <;> simp [step06, h1, h2]
lemma fr07_22 (args : Args) (c : GlobalConfig) : (step07 args c).VERBOSE = c.VERBOSE := by cases h : args.gp <;> simp [step07, h]
lemma fr08_22 (args : Args) (c : GlobalConfig) : (step08 args c).VERBOSE = c.VERBOSE := by cases h : args.filter_low_addresses <;> simp [step08, h]
lemma fr09_22 (args : Args) (c : GlobalConfig) : (step09 args c).VERBOSE = c.VERBOSE := by cases h : args.filter_high_addresses <;> simp [step09, h]
lemma fr10_22 (args : Args) (c : GlobalConfig) : (step10 args c).VERBOSE = c.VERBOSE := by cases h : args.filtered_addresses_as_constants <;> simp [step10, h]
lemma fr11_22 (args : Args) (c : GlobalConfig) : (step11 args c).VERBOSE = c.VERBOSE := by cases h : args.filtered_addresses_as_hilo <;> simp [step11, h]
lemma fr12_22 (args : Args) (c : GlobalConfig) : (step12 args c).VERBOSE = c.VERBOSE := by cases h : args.asm_comments <;> simp [step12, h]
lemma fr13_22 (args : Args) (c : GlobalConfig) : (step13 args c).VERBOSE = c.VERBOSE := by cases h : args.glabel_count <;> simp [step13, h]
lemma fr14_22 (args : Args) (c : GlobalConfig) : (step14 args c).VERBOSE = c.VERBOSE := by cases h : args.asm_text_label <;> simp only [step14, h] <;> first | rfl | (split <;> rfl)
lemma fr15_22 (args : Args) (c : GlobalConfig) : (step15 args c).VERBOSE = c.VERBOSE := by cases h : args.asm_data_label <;> simp only [step15, h] <;> first | rfl | (split <;> rfl)
lemma fr16_22 (args : Args) (c : GlobalConfig) : (step16 args c).VERBOSE = c.VERBOSE := by cases h : args.asm_ent_label <;> simp only [step16, h] <;> first | rfl | (split <;> rfl)
lemma fr17_22 (args : Args) (c : GlobalConfig) : (step17 args c).VERBOSE = c.VERBOSE := by cases h : args.asm_end_label <;> simp only [step17, h] <;> first | rfl | (split <;> rfl)
lemma fr18_22 (args : Args) (c : GlobalConfig) : (step18 args c).VERBOSE = c.VERBOSE := by cases h : args.asm_func_as_label <;> simp [step18, h]
lemma fr19_22 (args : Args) (c : GlobalConfig) : (step19 args c).VERBOSE = c.VERBOSE := by cases h : args.print_new_file_boundaries <;> simp [step19, h]
lemma fr20_22 (args : Args) (c : GlobalConfig) : (step20 args c).VERBOSE = c.VERBOSE := by cases h : args.use_dot_byte <;> simp [step20, h]
lemma fr21_22 (args : Args) (c : GlobalConfig) : (step21 args c).VERBOSE = c.VERBOSE := by cases h : args.use_dot_short <;> simp [step21, h]
lemma fr23_22 (args : Args) (c : GlobalConfig) : (step23 args c).VERBOSE = c.VERBOSE := by cases h : args.quiet <;> simp [step23, h]
lemma fr24_22 (args : Args) (c : GlobalConfig) : (step24 args c).VERBOSE = c.VERBOSE := by cases h : args.debug_func_analysis <;> simp [step24, h]
lemma fr25_22 (args : Args) (c : GlobalConfig) : (step25 args c).VERBOSE = c.VERBOSE := by cases h : args.debug_symbol_finder <;> simp [step25, h]
lemma fr26_22 (args : Args) (c : GlobalConfig) : (step26 args c).VERBOSE = c.VERBOSE := by cases h : args.debug_unpaired_luis <;> simp [step26, h]

lemma fr01_23 (args : Args) (c : GlobalConfig) : (step01 args c).QUIET = c.QUIET := by cases h : args.disasm_unknown <;> simp [step01, h]
lemma fr02_23 (args : Args) (c : GlobalConfig) : (step02 args c).QUIET = c.QUIET := by cases h : args.string_guesser <;> simp [step02, h]
lemma fr03_23 (args : Args) (c : GlobalConfig) : (step03 args c).QUIET = c.QUIET := by cases h : args.name_vars_by_section <;> simp [step03, h]
lemma fr04_23 (args : Args) (c : GlobalConfig) : (step04 args c).QUIET = c.QUIET := by cases h : args.name_vars_by_type <;> simp [step04, h]
lemma fr05_23 (args : Args) (c : GlobalConfig) : (step05 args c).QUIET = c.QUIET := by cases h : args.compiler <;> simp [step05, h]
lemma fr06_23 (args : Args) (c : GlobalConfig) : (step06 args c).QUIET = c.QUIET := by by_cases h1 : args.endian = "little" <;> by_cases h2 : args.endian = "middle" <;> simp [step06, h1, h2]
lemma fr07_23 (args : Args) (c : GlobalConfig) : (step07 args c).QUIET = c.QUIET := by cases h : args.gp <;> simp [step07, h]
lemma fr08_23 (args : Args) (c : GlobalConfig) : (step08 args c).QUIET = c.QUIET := by cases h : args.filter_low_addresses <;> simp [step08, h]
lemma fr09_23 (args : Args) (c : GlobalConfig) : (step09 args c).QUIET = c.QUIET := by cases h : args.filter_high_addresses <;> simp [step09, h]
lemma fr10_23 (args : Args) (c : GlobalConfig) : (step10 args c).QUIET = c.QUIET := by cases h : args.filtered_addresses_as_constants <;> simp [step10, h]
lemma fr11_23 (args : Args) (c : GlobalConfig) : (step11 args c).QUIET = c.QUIET := by cases h : args.filtered_addresses_as_hilo <;> simp [step11, h]
lemma fr12_23 (args : Args) (c : GlobalConfig) : (step12 args c).QUIET = c.QUIET := by cases h : args.asm_comments <;> simp [step12, h]
lemma fr13_23 (args : Args) (c : GlobalConfig) : (step13 args c).QUIET = c.QUIET := by cases h : args.glabel_count <;> simp [step13, h]
lemma fr14_23 (args : Args) (c : GlobalConfig) : (step14 args c).QUIET = c.QUIET := by cases h : args.asm_text_label <;> simp only [step14, h] <;> first | rfl | (split <;> rfl)
lemma fr15_23 (args : Args) (c : GlobalConfig) : (step15 args c).QUIET = c.QUIET := by cases h : args.asm_data_label <;> simp only [step15, h] <;> first | rfl | (split <;> rfl)
lemma fr16_23 (args : Args) (c : GlobalConfig) : (step16 args c).QUIET = c.QUIET := by cases h : args.asm_ent_label <;> simp only [step16, h] <;> first | rfl | (split <;> rfl)
lemma fr17_23 (args : Args) (c : GlobalConfig) : (step17 args c).QUIET = c.QUIET := by cases h : args.asm_end_label <;> simp only [step17, h] <;> first | rfl | (split <;> rfl)
lemma fr18_23 (args : Args) (c : GlobalConfig) : (step18 args c).QUIET = c.QUIET := by cases h : args.asm_func_as_label <;> simp [step18, h]
lemma fr19_23 (args : Args) (c : GlobalConfig) : (step19 args c).QUIET = c.QUIET := by cases h : args.print_new_file_boundaries <;> simp [step19, h]
lemma fr20_23 (args : Args) (c : GlobalConfig) : (step20 args c).QUIET = c.QUIET := by cases h : args.use_dot_byte <;> simp [step20, h]
lemma fr21_23 (args : Args) (c : GlobalConfig) : (step21 args c).QUIET = c.QUIET := by cases h : args.use_dot_short <;> simp [step21, h]
lemma fr22_23 (args : Args) (c : GlobalConfig) : (step22 args c).QUIET = c.QUIET := by cases h : args.verbose <;> simp [step22, h]
lemma fr24_23 (args : Args) (c : GlobalConfig) : (step24 args c).QUIET = c.QUIET := by cases h : args.debug_func_analysis <;> simp [step24, h]
lemma fr25_23 (args : Args) (c : GlobalConfig) : (step25 args c).QUIET = c.QUIET := by cases h : args.debug_symbol_finder <;> simp [step25, h]
lemma fr26_23 (args : Args) (c : GlobalConfig) : (step26 args c).QUIET = c.QUIET := by cases h : args.debug_unpaired_luis <;> simp [step26, h]

lemma fr01_24 (args : Args) (c : GlobalConfig) : (step01 args c).PRINT_FUNCTION_ANALYSIS_DEBUG_INFO = c.PRINT_FUNCTION_ANALYSIS_DEBUG_INFO := by cases h : args.disasm_unknown <;> simp [step01, h]
lemma fr02_24 (args : Args) (c : GlobalConfig) : (step02 args c).PRINT_FUNCTION_ANALYSIS_DEBUG_INFO = c.PRINT_FUNCTION_ANALYSIS_DEBUG_INFO := by cases h : args.string_guesser <;> simp [step02, h]
lemma fr03_24 (args : Args) (c : GlobalConfig) : (step03 args c).PRINT_FUNCTION_ANALYSIS_DEBUG_INFO = c.PRINT_FUNCTION_ANALYSIS_DEBUG_INFO := by cases h : args.name_vars_by_section <;> simp [step03, h]
lemma fr04_24 (args : Args) (c : GlobalConfig) : (step04 args c).PRINT_FUNCTION_ANALYSIS_DEBUG_INFO = c.PRINT_FUNCTION_ANALYSIS_DEBUG_INFO := by cases h : args.name_vars_by_type <;> simp [step04, h]
lemma fr05_24 (args : Args) (c : GlobalConfig) : (step05 args c).PRINT_FUNCTION_ANALYSIS_DEBUG_INFO = c.PRINT_FUNCTION_ANALYSIS_DEBUG_INFO := by cases h : args.compiler <;> simp [step05, h]
lemma fr06_24 (args : Args) (c : GlobalConfig) : (step06 args c).PRINT_FUNCTION_ANALYSIS_DEBUG_INFO = c.PRINT_FUNCTION_ANALYSIS_DEBUG_INFO := by by_cases h1 : args.endian = "little" <;> by_cases h2 : args.endian = "middle" <;> simp [step06, h1, h2]
lemma fr07_24 (args : Args) (c : GlobalConfig) : (step07 args c).PRINT_FUNCTION_ANALYSIS_DEBUG_INFO = c.PRINT_FUNCTION_ANALYSIS_DEBUG_INFO := by cases h : args.gp <;> simp [step07, h]
lemma fr08_24 (args : Args) (c : GlobalConfig) : (step08 args c).PRINT_FUNCTION_ANALYSIS_DEBUG_INFO = c.PRINT_FUNCTION_ANALYSIS_DEBUG_INFO := by cases h : args.filter_low_addresses <;> simp [step08, h]
lemma fr09_24 (args : Args) (c : GlobalConfig) : (step09 args c).PRINT_FUNCTION_ANALYSIS_DEBUG_INFO = c.PRINT_FUNCTION_ANALYSIS_DEBUG_INFO := by cases h : args.filter_high_addresses <;> simp [step09, h]
lemma fr10_24 (args : Args) (c : GlobalConfig) : (step10 args c).PRINT_FUNCTION_ANALYSIS_DEBUG_INFO = c.PRINT_FUNCTION_ANALYSIS_DEBUG_INFO := by cases h : args.filtered_addresses_as_constants <;> simp [step10, h]
lemma fr11_24 (args : Args) (c : GlobalConfig) : (step11 args c).PRINT_FUNCTION_ANALYSIS_DEBUG_INFO = c.PRINT_FUNCTION_ANALYSIS_DEBUG_INFO := by cases h : args.filtered_addresses_as_hilo <;> simp [step11, h]
lemma fr12_24 (args : Args) (c : GlobalConfig) : (step12 args c).PRINT_FUNCTION_ANALYSIS_DEBUG_INFO = c.PRINT_FUNCTION_ANALYSIS_DEBUG_INFO := by cases h : args.asm_comments <;> simp [step12, h]
lemma fr13_24 (args : Args) (c : GlobalConfig) : (step13 args c).PRINT_FUNCTION_ANALYSIS_DEBUG_INFO = c.PRINT_FUNCTION_ANALYSIS_DEBUG_INFO := by cases h : args.glabel_count <;> simp [step13, h]
lemma fr14_24 (args : Args) (c : GlobalConfig) : (step14 args c).PRINT_FUNCTION_ANALYSIS_DEBUG_INFO = c.PRINT_FUNCTION_ANALYSIS_DEBUG_INFO := by cases h : args.asm_text_label <;> simp only [step14, h] <;> first | rfl | (split <;> rfl)
lemma fr15_24 (args : Args) (c : GlobalConfig) : (step15 args c).PRINT_FUNCTION_ANALYSIS_DEBUG_INFO = c.PRINT_FUNCTION_ANALYSIS_DEBUG_INFO := by cases h : args.asm_data_label <;> simp only [step15, h] <;> first | rfl | (split <;> rfl)
lemma fr16_24 (args : Args) (c : GlobalConfig) : (step16 args c).PRINT_FUNCTION_ANALYSIS_DEBUG_INFO = c.PRINT_FUNCTION_ANALYSIS_DEBUG_INFO := by cases h : args.asm_ent_label <;> simp only [step16, h] <;> first | rfl | (split <;> rfl)
lemma fr17_24 (args : Args) (c : GlobalConfig) : (step17 args c).PRINT_FUNCTION_ANALYSIS_DEBUG_INFO = c.PRINT_FUNCTION_ANALYSIS_DEBUG_INFO := by cases h : args.asm_end_label <;> simp only [step17, h] <;> first | rfl | (split <;> rfl)
lemma fr18_24 (args : Args) (c : GlobalConfig) : (step18 args c).PRINT_FUNCTION_ANALYSIS_DEBUG_INFO = c.PRINT_FUNCTION_ANALYSIS_DEBUG_INFO := by cases h : args.asm_func_as_label <;> simp [step18, h]
lemma fr19_24 (args : Args) (c : GlobalConfig) : (step19 args c).PRINT_FUNCTION_ANALYSIS_DEBUG_INFO = c.PRINT_FUNCTION_ANALYSIS_DEBUG_INFO := by cases h : args.print_new_file_boundaries <;> simp [step19, h]
lemma fr20_24 (args : Args) (c : GlobalConfig) : (step20 args c).PRINT_FUNCTION_ANALYSIS_DEBUG_INFO = c.PRINT_FUNCTION_ANALYSIS_DEBUG_INFO := by cases h : args.use_dot_byte <;> simp [step20, h]
lemma fr21_24 (args : Args) (c : GlobalConfig) : (step21 args c).PRINT_FUNCTION_ANALYSIS_DEBUG_INFO = c.PRINT_FUNCTION_ANALYSIS_DEBUG_INFO := by cases h : args.use_dot_short <;> simp [step21, h]
lemma fr22_24 (args : Args) (c : GlobalConfig) : (step22 args c).PRINT_FUNCTION_ANALYSIS_DEBUG_INFO = c.PRINT_FUNCTION_ANALYSIS_DEBUG_INFO := by cases h : args.verbose <;> simp [step22, h]
lemma fr23_24 (args : Args) (c : GlobalConfig) : (step23 args c).PRINT_FUNCTION_ANALYSIS_DEBUG_INFO = c.PRINT_FUNCTION_ANALYSIS_DEBUG_INFO := by cases h : args.quiet <;> simp [step23, h]
lemma fr25_24 (args : Args) (c : GlobalConfig) : (step25 args c).PRINT_FUNCTION_ANALYSIS_DEBUG_INFO = c.PRINT_FUNCTION_ANALYSIS_DEBUG_INFO := by cases h : args.debug_symbol_finder <;> simp [step25, h]
lemma fr26_24 (args : Args) (c : GlobalConfig) : (step26 args c).PRINT_FUNCTION_ANALYSIS_DEBUG_INFO = c.PRINT_FUNCTION_ANALYSIS_DEBUG_INFO := by cases h : args.debug_unpaired_luis <;> simp [step26, h]

lemma fr01_25 (args : Args) (c : GlobalConfig) : (step01 args c).PRINT_SYMBOL_FINDER_DEBUG_INFO = c.PRINT_SYMBOL_FINDER_DEBUG_INFO := by cases h : args.disasm_unknown <;> simp [step01, h]
lemma fr02_25 (args : Args) (c : GlobalConfig) : (step02 args c).PRINT_SYMBOL_FINDER_DEBUG_INFO = c.PRINT_SYMBOL_FINDER_DEBUG_INFO := by cases h : args.string_guesser <;> simp [step02, h]
lemma fr03_25 (args : Args) (c : GlobalConfig) : (step03 args c).PRINT_SYMBOL_FINDER_DEBUG_INFO = c.PRINT_SYMBOL_FINDER_DEBUG_INFO := by cases h : args.name_vars_by_section <;> simp [step03, h]
lemma fr04_25 (args : Args) (c : GlobalConfig) : (step04 args c).PRINT_SYMBOL_FINDER_DEBUG_INFO = c.PRINT_SYMBOL_FINDER_DEBUG_INFO := by cases h : args.name_vars_by_type <;> simp [step04, h]
lemma fr05_25 (args : Args) (c : GlobalConfig) : (step05 args c).PRINT_SYMBOL_FINDER_DEBUG_INFO = c.PRINT_SYMBOL_FINDER_DEBUG_INFO := by cases h : args.compiler <;> simp [step05, h]
lemma fr06_25 (args : Args) (c : GlobalConfig) : (step06 args c).PRINT_SYMBOL_FINDER_DEBUG_INFO = c.PRINT_SYMBOL_FINDER_DEBUG_INFO := by by_cases h1 : args.endian = "little" <;> by_cases h2 : args.endian = "middle" <;> simp [step06, h1, h2]
lemma fr07_25 (args : Args) (c : GlobalConfig) : (step07 args c).PRINT_SYMBOL_FINDER_DEBUG_INFO = c.PRINT_SYMBOL_FINDER_DEBUG_INFO := by cases h : args.gp <;> simp [step07, h]
lemma fr08_25 (args : Args) (c : GlobalConfig) : (step08 args c).PRINT_SYMBOL_FINDER_DEBUG_INFO = c.PRINT_SYMBOL_FINDER_DEBUG_INFO := by cases h : args.filter_low_addresses <;> simp [step08, h]
lemma fr09_25 (args : Args) (c : GlobalConfig) : (step09 args c).PRINT_SYMBOL_FINDER_DEBUG_INFO = c.PRINT_SYMBOL_FINDER_DEBUG_INFO := by cases h : args.filter_high_addresses <;> simp [step09, h]
lemma fr10_25 (args : Args) (c : GlobalConfig) : (step10 args c).PRINT_SYMBOL_FINDER_DEBUG_INFO = c.PRINT_SYMBOL_FINDER_DEBUG_INFO := by cases h : args.filtered_addresses_as_constants <;> simp [step10, h]
lemma fr11_25 (args : Args) (c : GlobalConfig) : (step11 args c).PRINT_SYMBOL_FINDER_DEBUG_INFO = c.PRINT_SYMBOL_FINDER_DEBUG_INFO := by cases h : args.filtered_addresses_as_hilo <;> simp [step11, h]
lemma fr12_25 (args : Args) (c : GlobalConfig) : (step12 args c).PRINT_SYMBOL_FINDER_DEBUG_INFO = c.PRINT_SYMBOL_FINDER_DEBUG_INFO := by cases h : args.asm_comments <;> simp [step12, h]
lemma fr13_25 (args : Args) (c : GlobalConfig) : (step13 args c).PRINT_SYMBOL_FINDER_DEBUG_INFO = c.PRINT_SYMBOL_FINDER_DEBUG_INFO := by cases h : args.glabel_count <;> simp [step13, h]
lemma fr14_25 (args : Args) (c : GlobalConfig) : (step14 args c).PRINT_SYMBOL_FINDER_DEBUG_INFO = c.PRINT_SYMBOL_FINDER_DEBUG_INFO := by cases h : args.asm_text_label <;> simp only [step14, h] <;> first | rfl | (split <;> rfl)
lemma fr15_25 (args : Args) (c : GlobalConfig) : (step15 args c).PRINT_SYMBOL_FINDER_DEBUG_INFO = c.PRINT_SYMBOL_FINDER_DEBUG_INFO := by cases h : args.asm_data_label <;> simp only [step15, h] <;> first | rfl | (split <;> rfl)
lemma fr16_25 (args : Args) (c : GlobalConfig) : (step16 args c).PRINT_SYMBOL_FINDER_DEBUG_INFO = c.PRINT_SYMBOL_FINDER_DEBUG_INFO := by cases h : args.asm_ent_label <;> simp only [step16, h] <;> first | rfl | (split <;> rfl)
lemma fr17_25 (args : Args) (c : GlobalConfig) : (step17 args c).PRINT_SYMBOL_FINDER_DEBUG_INFO = c.PRINT_SYMBOL_FINDER_DEBUG_INFO := by cases h : args.asm_end_label <;> simp only [step17, h] <;> first | rfl | (split <;> rfl)
lemma fr18_25 (args : Args) (c : GlobalConfig) : (step18 args c).PRINT_SYMBOL_FINDER_DEBUG_INFO = c.PRINT_SYMBOL_FINDER_DEBUG_INFO := by cases h : args.asm_func_as_label <;> simp [step18, h]
lemma fr19_25 (args : Args) (c : GlobalConfig) : (step19 args c).PRINT_SYMBOL_FINDER_DEBUG_INFO = c.PRINT_SYMBOL_FINDER_DEBUG_INFO := by cases h : args.print_new_file_boundaries <;> simp [step19, h]
lemma fr20_25 (args : Args) (c : GlobalConfig) : (step20 args c).PRINT_SYMBOL_FINDER_DEBUG_INFO = c.PRINT_SYMBOL_FINDER_DEBUG_INFO := by cases h : args.use_dot_byte <;> simp [step20, h]
lemma fr21_25 (args : Args) (c : GlobalConfig) : (step21 args c).PRINT_SYMBOL_FINDER_DEBUG_INFO = c.PRINT_SYMBOL_FINDER_DEBUG_INFO := by cases h : args.use_dot_short <;> simp [step21, h]
lemma fr22_25 (args : Args) (c : GlobalConfig) : (step22 args c).PRINT_SYMBOL_FINDER_DEBUG_INFO = c.PRINT_SYMBOL_FINDER_DEBUG_INFO := by cases h : args.verbose <;> simp [step22, h]
lemma fr23_25 (args : Args) (c : GlobalConfig) : (step23 args c).PRINT_SYMBOL_FINDER_DEBUG_INFO = c.PRINT_SYMBOL_FINDER_DEBUG_INFO := by cases h : args.quiet <;> simp [step23, h]
lemma fr24_25 (args : Args) (c : GlobalConfig) : (step24 args c).PRINT_SYMBOL_FINDER_DEBUG_INFO = c.PRINT_SYMBOL_FINDER_DEBUG_INFO := by cases h : args.debug_func_analysis <;> simp [step24, h]
lemma fr26_25 (args : Args) (c : GlobalConfig) : (step26 args c).PRINT_SYMBOL_FINDER_DEBUG_INFO = c.PRINT_SYMBOL_FINDER_DEBUG_INFO := by cases h : args.debug_unpaired_luis <;> simp [step26, h]

lemma fr01_26 (args : Args) (c : GlobalConfig) : (step01 args c).PRINT_UNPAIRED_LUIS_DEBUG_INFO = c.PRINT_UNPAIRED_LUIS_DEBUG_INFO := by cases h : args.disasm_unknown <;> simp [step01, h]
lemma fr02_26 (args : Args) (c : GlobalConfig) : (step02 args c).PRINT_UNPAIRED_LUIS_DEBUG_INFO = c.PRINT_UNPAIRED_LUIS_DEBUG_INFO := by cases h : args.string_guesser <;> simp [step02, h]
lemma fr03_26 (args : Args) (c : GlobalConfig) : (step03 args c).PRINT_UNPAIRED_LUIS_DEBUG_INFO = c.PRINT_UNPAIRED_LUIS_DEBUG_INFO := by cases h : args.name_vars_by_section <;> simp [step03, h]
lemma fr04_26 (args : Args) (c : GlobalConfig) : (step04 args c).PRINT_UNPAIRED_LUIS_DEBUG_INFO = c.PRINT_UNPAIRED_LUIS_DEBUG_INFO := by cases h : args.name_vars_by_type <;> simp [step04, h]
lemma fr05_26 (args : Args) (c : GlobalConfig) : (step05 args c).PRINT_UNPAIRED_LUIS_DEBUG_INFO = c.PRINT_UNPAIRED_LUIS_DEBUG_INFO := by cases h : args.compiler <;> simp [step05, h]
lemma fr06_26 (args : Args) (c : GlobalConfig) : (step06 args c).PRINT_UNPAIRED_LUIS_DEBUG_INFO = c.PRINT_UNPAIRED_LUIS_DEBUG_INFO := by by_cases h1 : args.endian = "little" <;> by_cases h2 : args.endian = "middle" <;> simp [step06, h1, h2]
lemma fr07_26 (args : Args) (c : GlobalConfig) : (step07 args c).PRINT_UNPAIRED_LUIS_DEBUG_INFO = c.PRINT_UNPAIRED_LUIS_DEBUG_INFO := by cases h : args.gp <;> simp [step07, h]
lemma fr08_26 (args : Args) (c : GlobalConfig) : (step08 args c).PRINT_UNPAIRED_LUIS_DEBUG_INFO = c.PRINT_UNPAIRED_LUIS_DEBUG_INFO := by cases h : args.filter_low_addresses <;> simp [step08, h]
lemma fr09_26 (args : Args) (c : GlobalConfig) : (step09 args c).PRINT_UNPAIRED_LUIS_DEBUG_INFO = c.PRINT_UNPAIRED_LUIS_DEBUG_INFO := by cases h : args.filter_high_addresses <;> simp [step09, h]
lemma fr10_26 (args : Args) (c : GlobalConfig) : (step10 args c).PRINT_UNPAIRED_LUIS_DEBUG_INFO = c.PRINT_UNPAIRED_LUIS_DEBUG_INFO := by cases h : args.filtered_addresses_as_constants <;> simp [step10, h]
lemma fr11_26 (args : Args) (c : GlobalConfig) : (step11 args c).PRINT_UNPAIRED_LUIS_DEBUG_INFO = c.PRINT_UNPAIRED_LUIS_DEBUG_INFO := by cases h : args.filtered_addresses_as_hilo <;> simp [step11, h]
lemma fr12_26 (args : Args) (c : GlobalConfig) : (step12 args c).PRINT_UNPAIRED_LUIS_DEBUG_INFO = c.PRINT_UNPAIRED_LUIS_DEBUG_INFO := by cases h : args.asm_comments <;> simp [step12, h]
lemma fr13_26 (args : Args) (c : GlobalConfig) : (step13 args c).PRINT_UNPAIRED_LUIS_DEBUG_INFO = c.PRINT_UNPAIRED_LUIS_DEBUG_INFO := by cases h : args.glabel_count <;> simp [step13, h]
lemma fr14_26 (args : Args) (c : GlobalConfig) : (step14 args c).PRINT_UNPAIRED_LUIS_DEBUG_INFO = c.PRINT_UNPAIRED_LUIS_DEBUG_INFO := by cases h : args.asm_text_label <;> simp only [step14, h] <;> first | rfl | (split <;> rfl)
lemma fr15_26 (args : Args) (c : GlobalConfig) : (step15 args c).PRINT_UNPAIRED_LUIS_DEBUG_INFO = c.PRINT_UNPAIRED_LUIS_DEBUG_INFO := by cases h : args.asm_data_label <;> simp only [step15, h] <;> first | rfl | (split <;> rfl)
lemma fr16_26 (args : Args) (c : GlobalConfig) : (step16 args c).PRINT_UNPAIRED_LUIS_DEBUG_INFO = c.PRINT_UNPAIRED_LUIS_DEBUG_INFO := by cases h : args.asm_ent_label <;> simp only [step16, h] <;> first | rfl | (split <;> rfl)
lemma fr17_26 (args : Args) (c : GlobalConfig) : (step17 args c).PRINT_UNPAIRED_LUIS_DEBUG_INFO = c.PRINT_UNPAIRED_LUIS_DEBUG_INFO := by cases h : args.asm_end_label <;> simp only [step17, h] <;> first | rfl | (split <;> rfl)
lemma fr18_26 (args : Args) (c : GlobalConfig) : (step18 args c).PRINT_UNPAIRED_LUIS_DEBUG_INFO = c.PRINT_UNPAIRED_LUIS_DEBUG_INFO := by cases h : args.asm_func_as_label <;> simp [step18, h]
lemma fr19_26 (args : Args) (c : GlobalConfig) : (step19 args c).PRINT_UNPAIRED_LUIS_DEBUG_INFO = c.PRINT_UNPAIRED_LUIS_DEBUG_INFO := by cases h : args.print_new_file_boundaries <;> simp [step19, h]
lemma fr20_26 (args : Args) (c : GlobalConfig) : (step20 args c).PRINT_UNPAIRED_LUIS_DEBUG_INFO = c.PRINT_UNPAIRED_LUIS_DEBUG_INFO := by cases h : args.use_dot_byte <;> simp [step20, h]
lemma fr21_26 (args : Args) (c : GlobalConfig) : (step21 args c).PRINT_UNPAIRED_LUIS_DEBUG_INFO = c.PRINT_UNPAIRED_LUIS_DEBUG_INFO := by cases h : args.use_dot_short <;> simp [step21, h]
lemma fr22_26 (args : Args) (c : GlobalConfig) : (step22 args c).PRINT_UNPAIRED_LUIS_DEBUG_INFO = c.PRINT_UNPAIRED_LUIS_DEBUG_INFO := by cases h : args.verbose <;> simp [step22, h]
lemma fr23_26 (args : Args) (c : GlobalConfig) : (step23 args c).PRINT_UNPAIRED_LUIS_DEBUG_INFO = c.PRINT_UNPAIRED_LUIS_DEBUG_INFO := by cases h : args.quiet <;> simp [step23, h]
lemma fr24_26 (args : Args) (c : GlobalConfig) : (step24 args c).PRINT_UNPAIRED_LUIS_DEBUG_INFO = c.PRINT_UNPAIRED_LUIS_DEBUG_INFO := by cases h : args.debug_func_analysis <;> simp [step24, h]
lemma fr25_26 (args : Args) (c : GlobalConfig) : (step25 args c).PRINT_UNPAIRED_LUIS_DEBUG_INFO = c.PRINT_UNPAIRED_LUIS_DEBUG_INFO := by cases h : args.debug_symbol_finder <;> simp [step25, h]

lemma id01 (args : Args) (c : GlobalConfig) (h : args.disasm_unknown = none) : step01 args c = c := by simp [step01, h]
lemma id02 (args : Args) (c : GlobalConfig) (h : args.string_guesser = none) : step02 args c = c := by simp [step02, h]
lemma id03 (args : Args) (c : GlobalConfig) (h : args.name_vars_by_section = none) : step03 args c = c := by simp [step03, h]
lemma id04 (args : Args) (c : GlobalConfig) (h : args.name_vars_by_type = none) : step04 args c = c := by simp [step04, h]
lemma id05 (args : Args) (c : GlobalConfig) (h : args.compiler = none) : step05 args c = c := by simp [step05, h]
lemma id07 (args : Args) (c : GlobalConfig) (h : args.gp = none) : step07 args c = c := by simp [step07, h]
lemma id08 (args : Args) (c : GlobalConfig) (h : args.filter_low_addresses = none) : step08 args c = c := by simp [step08, h]
lemma id09 (args : Args) (c : GlobalConfig) (h : args.filter_high_addresses = none) : step09 args c = c := by simp [step09, h]
lemma id10 (args : Args) (c : GlobalConfig) (h : args.filtered_addresses_as_constants = none) : step10 args c = c := by simp [step10, h]
lemma id11 (args : Args) (c : GlobalConfig) (h : args.filtered_addresses_as_hilo = none) : step11 args c = c := by simp [step11, h]
lemma id12 (args : Args) (c : GlobalConfig) (h : args.asm_comments = none) : step12 args c = c := by simp [step12, h]
lemma id13 (args : Args) (c : GlobalConfig) (h : args.glabel_count = none) : step13 args c = c := by simp [step13, h]
lemma id14 (args : Args) (c : GlobalConfig) (h : args.asm_text_label = none ∨ args.asm_text_label = some "") : step14 args c = c := by rcases h with h | h <;> simp only [step14, h] <;> first | rfl | (rw [if_pos (by decide)])
lemma id15 (args : Args) (c : GlobalConfig) (h : args.asm_data_label = none ∨ args.asm_data_label = some "") : step15 args c = c := by rcases h with h | h <;> simp only [step15, h] <;> first | rfl | (rw [if_pos (by decide)])
lemma id16 (args : Args) (c : GlobalConfig) (h : args.asm_ent_label = none ∨ args.asm_ent_label = some "") : step16 args c = c := by rcases h with h | h <;> simp only [step16, h] <;> first | rfl | (rw [if_pos (by decide)])
lemma id17 (args : Args) (c : GlobalConfig) (h : args.asm_end_label = none ∨ args.asm_end_label = some "") : step17 args c = c := by rcases h with h | h <;> simp only [step17, h] <;> first | rfl | (rw [if_pos (by decide)])
lemma id18 (args : Args) (c : GlobalConfig) (h : args.asm_func_as_label = none) : step18 args c = c := by simp [step18, h]
lemma id19 (args : Args) (c : GlobalConfig) (h : args.print_new_file_boundaries = none) : step19 args c = c := by simp [step19, h]
lemma id20 (args : Args) (c : GlobalConfig) (h : args.use_dot_byte = none) : step20 args c = c := by simp [step20, h]
lemma id21 (args : Args) (c : GlobalConfig) (h : args.use_dot_short = none) : step21 args c = c := by simp [step21, h]
lemma id22 (args : Args) (c : GlobalConfig) (h : args.verbose = none) : step22 args c = c := by simp [step22, h]
lemma id23 (args : Args) (c : GlobalConfig) (h : args.quiet = none) : step23 args c = c := by simp [step23, h]
lemma id24 (args : Args) (c : GlobalConfig) (h : args.debug_func_analysis = none) : step24 args c = c := by simp [step24, h]
lemma id25 (args : Args) (c : GlobalConfig) (h : args.debug_symbol_finder = none) : step25 args c = c := by simp [step25, h]
lemma id26 (args : Args) (c : GlobalConfig) (h : args.debug_unpaired_luis = none) : step26 args c = c := by simp [step26, h]

/-- C9: in `parseArgs`, the endianness argument maps "little" to
`InputEndian.LITTLE`, "middle" to `InputEndian.MIDDLE`, and every
other value (including "big" and unrecognized strings) to
`InputEndian.BIG`. -/
theorem C9_parseArgs_endian (args : Args) (cfg : GlobalConfig) :
    (parseArgs args cfg).ENDIAN =
      (if args.endian = "little" then InputEndian.LITTLE
       else if args.endian = "middle" then InputEndian.MIDDLE
       else InputEndian.BIG) := by
  simp only [parseArgs]
  rw [fr26_06, fr25_06, fr24_06, fr23_06, fr22_06, fr21_06, fr20_06, fr19_06, fr18_06, fr17_06, fr16_06, fr15_06, fr14_06, fr13_06, fr12_06, fr11_06, fr10_06, fr09_06, fr08_06, fr07_06]
  by_cases h1 : args.endian = "little" <;> by_cases h2 : args.endian = "middle" <;> simp [step06, h1, h2]

/-- C10: `parseArgs` modifies only the fields whose argument was
supplied: a `None` option leaves the matching `GlobalConfig` field at
its prior value, and the four label options are guarded by Python
truthiness, so an empty string also leaves the field unchanged. -/
theorem C10_parseArgs_frame (args : Args) (cfg : GlobalConfig) :
    (args.disasm_unknown = none →
      (parseArgs args cfg).DISASSEMBLE_UNKNOWN_INSTRUCTIONS = cfg.DISASSEMBLE_UNKNOWN_INSTRUCTIONS) ∧
    (args.string_guesser = none →
      (parseArgs args cfg).STRING_GUESSER = cfg.STRING_GUESSER) ∧
    (args.name_vars_by_section = none →
      (parseArgs args cfg).AUTOGENERATED_NAMES_BASED_ON_SECTION_TYPE = cfg.AUTOGENERATED_NAMES_BASED_ON_SECTION_TYPE) ∧
    (args.name_vars_by_type = none →
      (parseArgs args cfg).AUTOGENERATED_NAMES_BASED_ON_DATA_TYPE = cfg.AUTOGENERATED_NAMES_BASED_ON_DATA_TYPE) ∧
    (args.compiler = none →
      (parseArgs args cfg).COMPILER = cfg.COMPILER) ∧
    (args.gp = none →
      (parseArgs args cfg).GP_VALUE = cfg.GP_VALUE) ∧
    (args.filter_low_addresses = none →
      (parseArgs args cfg).SYMBOL_FINDER_FILTER_LOW_ADDRESSES = cfg.SYMBOL_FINDER_FILTER_LOW_ADDRESSES) ∧
    (args.filter_high_addresses = none →
      (parseArgs args cfg).SYMBOL_FINDER_FILTER_HIGH_ADDRESSES = cfg.SYMBOL_FINDER_FILTER_HIGH_ADDRESSES) ∧
    (args.filtered_addresses_as_constants = none →
      (parseArgs args cfg).SYMBOL_FINDER_FILTERED_ADDRESSES_AS_CONSTANTS = cfg.SYMBOL_FINDER_FILTERED_ADDRESSES_AS_CONSTANTS) ∧
    (args.filtered_addresses_as_hilo = none →
      (parseArgs args cfg).SYMBOL_FINDER_FILTERED_ADDRESSES_AS_HILO = cfg.SYMBOL_FINDER_FILTERED_ADDRESSES_AS_HILO) ∧
    (args.asm_comments = none →
      (parseArgs args cfg).ASM_COMMENT = cfg.ASM_COMMENT) ∧
    (args.glabel_count = none →
      (parseArgs args cfg).GLABEL_ASM_COUNT = cfg.GLABEL_ASM_COUNT) ∧
    ((args.asm_text_label = none ∨ args.asm_text_label = some "") →
      (parseArgs args cfg).ASM_TEXT_LABEL = cfg.ASM_TEXT_LABEL) ∧
    ((args.asm_data_label = none ∨ args.asm_data_label = some "") →
      (parseArgs args cfg).ASM_DATA_LABEL = cfg.ASM_DATA_LABEL) ∧
    ((args.asm_ent_label = none ∨ args.asm_ent_label = some "") →
      (parseArgs args cfg).ASM_TEXT_ENT_LABEL = cfg.ASM_TEXT_ENT_LABEL) ∧
    ((args.asm_end_label = none ∨ args.asm_end_label = some "") →
      (parseArgs args cfg).ASM_TEXT_END_LABEL = cfg.ASM_TEXT_END_LABEL) ∧
    (args.asm_func_as_label = none →
      (parseArgs args cfg).ASM_TEXT_FUNC_AS_LABEL = cfg.ASM_TEXT_FUNC_AS_LABEL) ∧
    (args.print_new_file_boundaries = none →
      (parseArgs args cfg).PRINT_NEW_FILE_BOUNDARIES = cfg.PRINT_NEW_FILE_BOUNDARIES) ∧
    (args.use_dot_byte = none →
      (parseArgs args cfg).USE_DOT_BYTE = cfg.USE_DOT_BYTE) ∧
    (args.use_dot_short = none →
      (parseArgs args cfg).USE_DOT_SHORT = cfg.USE_DOT_SHORT) ∧
    (args.verbose = none →
      (parseArgs args cfg).VERBOSE = cfg.VERBOSE) ∧
    (args.quiet = none →
      (parseArgs args cfg).QUIET = cfg.QUIET) ∧
    (args.debug_func_analysis = none →
      (parseArgs args cfg).PRINT_FUNCTION_ANALYSIS_DEBUG_INFO = cfg.PRINT_FUNCTION_ANALYSIS_DEBUG_INFO) ∧
    (args.debug_symbol_finder = none →
      (parseArgs args cfg).PRINT_SYMBOL_FINDER_DEBUG_INFO = cfg.PRINT_SYMBOL_FINDER_DEBUG_INFO) ∧
    (args.debug_unpaired_luis = none →
      (parseArgs args cfg).PRINT_UNPAIRED_LUIS_DEBUG_INFO = cfg.PRINT_UNPAIRED_LUIS_DEBUG_INFO) := by
  refine ⟨?_, ?_, ?_, ?_, ?_, ?_, ?_, ?_, ?_, ?_, ?_, ?_, ?_, ?_, ?_, ?_, ?_, ?_, ?_, ?_, ?_, ?_, ?_, ?_, ?_⟩
  · intro h
    simp only [parseArgs]
    rw [fr26_01, fr25_01, fr24_01, fr23_01, fr22_01, fr21_01, fr20_01, fr19_01, fr18_01, fr17_01, fr16_01, fr15_01, fr14_01, fr13_01, fr12_01, fr11_01, fr10_01, fr09_01, fr08_01, fr07_01, fr06_01, fr05_01, fr04_01, fr03_01, fr02_01]
    rw [id01 args _ h]
  · intro h
    simp only [parseArgs]
    rw [fr26_02, fr25_02, fr24_02, fr23_02, fr22_02, fr21_02, fr20_02, fr19_02, fr18_02, fr17_02, fr16_02, fr15_02, fr14_02, fr13_02, fr12_02, fr11_02, fr10_02, fr09_02, fr08_02, fr07_02, fr06_02, fr05_02, fr04_02, fr03_02]
    rw [id02 args _ h]
    rw [fr01_02]
  · intro h
    simp only [parseArgs]
    rw [fr26_03, fr25_03, fr24_03, fr23_03, fr22_03, fr21_03, fr20_03, fr19_03, fr18_03, fr17_03, fr16_03, fr15_03, fr14_03, fr13_03, fr12_03, fr11_03, fr10_03, fr09_03, fr08_03, fr07_03, fr06_03, fr05_03, fr04_03]
    rw [id03 args _ h]
    rw [fr02_03, fr01_03]
  · intro h
    simp only [parseArgs]
    rw [fr26_04, fr25_04, fr24_04, fr23_04, fr22_04, fr21_04, fr20_04, fr19_04, fr18_04, fr17_04, fr16_04, fr15_04, fr14_04, fr13_04, fr12_04, fr11_04, fr10_04, fr09_04, fr08_04, fr07_04, fr06_04, fr05_04]
    rw [id04 args _ h]
    rw [fr03_04, fr02_04, fr01_04]
  · intro h
    simp only [parseArgs]
    rw [fr26_05, fr25_05, fr24_05, fr23_05, fr22_05, fr21_05, fr20_05, fr19_05, fr18_05, fr17_05, fr16_05, fr15_05, fr14_05, fr13_05, fr12_05, fr11_05, fr10_05, fr09_05, fr08_05, fr07_05, fr06_05]
    rw [id05 args _ h]
    rw [fr04_05, fr03_05, fr02_05, fr01_05]
  · intro h
    simp only [parseArgs]
    rw [fr26_07, fr25_07, fr24_07, fr23_07, fr22_07, fr21_07, fr20_07, fr19_07, fr18_07, fr17_07, fr16_07, fr15_07, fr14_07, fr13_07, fr12_07, fr11_07, fr10_07, fr09_07, fr08_07]
    rw [id07 args _ h]
    rw [fr06_07, fr05_07, fr04_07, fr03_07, fr02_07, fr01_07]
  · intro h
    simp only [parseArgs]
    rw [fr26_08, fr25_08, fr24_08, fr23_08, fr22_08, fr21_08, fr20_08, fr19_08, fr18_08, fr17_08, fr16_08, fr15_08, fr14_08, fr13_08, fr12_08, fr11_08, fr10_08, fr09_08]
    rw [id08 args _ h]
    rw [fr07_08, fr06_08, fr05_08, fr04_08, fr03_08, fr02_08, fr01_08]
  · intro h
    simp only [parseArgs]
    rw [fr26_09, fr25_09, fr24_09, fr23_09, fr22_09, fr21_09, fr20_09, fr19_09, fr18_09, fr17_09, fr16_09, fr15_09, fr14_09, fr13_09, fr12_09, fr11_09, fr10_09]
    rw [id09 args _ h]
    rw [fr08_09, fr07_09, fr06_09, fr05_09, fr04_09, fr03_09, fr02_09, fr01_09]
  · intro h
    simp only [parseArgs]
    rw [fr26_10, fr25_10, fr24_10, fr23_10, fr22_10, fr21_10, fr20_10, fr19_10, fr18_10, fr17_10, fr16_10, fr15_10, fr14_10, fr13_10, fr12_10, fr11_10]
    rw [id10 args _ h]
    rw [fr09_10, fr08_10, fr07_10, fr06_10, fr05_10, fr04_10, fr03_10, fr02_10, fr01_10]
  · intro h
    simp only [parseArgs]
    rw [fr26_11, fr25_11, fr24_11, fr23_11, fr22_11, fr21_11, fr20_11, fr19_11, fr18_11, fr17_11, fr16_11, fr15_11, fr14_11, fr13_11, fr12_11]
    rw [id11 args _ h]
    rw [fr10_11, fr09_11, fr08_11, fr07_11, fr06_11, fr05_11, fr04_11, fr03_11, fr02_11, fr01_11]
  · intro h
    simp only [parseArgs]
    rw [fr26_12, fr25_12, fr24_12, fr23_12, fr22_12, fr21_12, fr20_12, fr19_12, fr18_12, fr17_12, fr16_12, fr15_12, fr14_12, fr13_12]
    rw [id12 args _ h]
    rw [fr11_12, fr10_12, fr09_12, fr08_12, fr07_12, fr06_12, fr05_12, fr04_12, fr03_12, fr02_12, fr01_12]
  · intro h
    simp only [parseArgs]
    rw [fr26_13, fr25_13, fr24_13, fr23_13, fr22_13, fr21_13, fr20_13, fr19_13, fr18_13, fr17_13, fr16_13, fr15_13, fr14_13]
    rw [id13 args _ h]
    rw [fr12_13, fr11_13, fr10_13, fr09_13, fr08_13, fr07_13, fr06_13, fr05_13, fr04_13, fr03_13, fr02_13, fr01_13]
  · intro h
    simp only [parseArgs]
    rw [fr26_14, fr25_14, fr24_14, fr23_14, fr22_14, fr21_14, fr20_14, fr19_14, fr18_14, fr17_14, fr16_14, fr15_14]
    rw [id14 args _ h]
    rw [fr13_14, fr12_14, fr11_14, fr10_14, fr09_14, fr08_14, fr07_14, fr06_14, fr05_14, fr04_14, fr03_14, fr02_14, fr01_14]
  · intro h
    simp only [parseArgs]
    rw [fr26_15, fr25_15, fr24_15, fr23_15, fr22_15, fr21_15, fr20_15, fr19_15, fr18_15, fr17_15, fr16_15]
    rw [id15 args _ h]
    rw [fr14_15, fr13_15, fr12_15, fr11_15, fr10_15, fr09_15, fr08_15, fr07_15, fr06_15, fr05_15, fr04_15, fr03_15, fr02_15, fr01_15]
  · intro h
    simp only [parseArgs]
    rw [fr26_16, fr25_16, fr24_16, fr23_16, fr22_16, fr21_16, fr20_16, fr19_16, fr18_16, fr17_16]
    rw [id16 args _ h]
    rw [fr15_16, fr14_16, fr13_16, fr12_16, fr11_16, fr10_16, fr09_16, fr08_16, fr07_16, fr06_16, fr05_16, fr04_16, fr03_16, fr02_16, fr01_16]
  · intro h
    simp only [parseArgs]
    rw [fr26_17, fr25_17, fr24_17, fr23_17, fr22_17, fr21_17, fr20_17, fr19_17, fr18_17]
    rw [id17 args _ h]
    rw [fr16_17, fr15_17, fr14_17, fr13_17, fr12_17, fr11_17, fr10_17, fr09_17, fr08_17, fr07_17, fr06_17, fr05_17, fr04_17, fr03_17, fr02_17, fr01_17]
  · intro h
    simp only [parseArgs]
    rw [fr26_18, fr25_18, fr24_18, fr23_18, fr22_18, fr21_18, fr20_18, fr19_18]
    rw [id18 args _ h]
    rw [fr17_18, fr16_18, fr15_18, fr14_18, fr13_18, fr12_18, fr11_18, fr10_18, fr09_18, fr08_18, fr07_18, fr06_18, fr05_18, fr04_18, fr03_18, fr02_18, fr01_18]
  · intro h
    simp only [parseArgs]
    rw [fr26_19, fr25_19, fr24_19, fr23_19, fr22_19, fr21_19, fr20_19]
    rw [id19 args _ h]
    rw [fr18_19, fr17_19, fr16_19, fr15_19, fr14_19, fr13_19, fr12_19, fr11_19, fr10_19, fr09_19, fr08_19, fr07_19, fr06_19, fr05_19, fr04_19, fr03_19, fr02_19, fr01_19]
  · intro h
    simp only [parseArgs]
    rw [fr26_20, fr25_20, fr24_20, fr23_20, fr22_20, fr21_20]
    rw [id20 args _ h]
    rw [fr19_20, fr18_20, fr17_20, fr16_20, fr15_20, fr14_20, fr13_20, fr12_20, fr11_20, fr10_20, fr09_20, fr08_20, fr07_20, fr06_20, fr05_20, fr04_20, fr03_20, fr02_20, fr01_20]
  · intro h
    simp only [parseArgs]
    rw [fr26_21, fr25_21, fr24_21, fr23_21, fr22_21]
    rw [id21 args _ h]
    rw [fr20_21, fr19_21, fr18_21, fr17_21, fr16_21, fr15_21, fr14_21, fr13_21, fr12_21, fr11_21, fr10_21, fr09_21, fr08_21, fr07_21, fr06_21, fr05_21, fr04_21, fr03_21, fr02_21, fr01_21]
  · intro h
    simp only [parseArgs]
    rw [fr26_22, fr25_22, fr24_22, fr23_22]
    rw [id22 args _ h]
    rw [fr21_22, fr20_22, fr19_22, fr18_22, fr17_22, fr16_22, fr15_22, fr14_22, fr13_22, fr12_22, fr11_22, fr10_22, fr09_22, fr08_22, fr07_22, fr06_22, fr05_22, fr04_22, fr03_22, fr02_22, fr01_22]
  · intro h
    simp only [parseArgs]
    rw [fr26_23, fr25_23, fr24_23]
    rw [id23 args _ h]
    rw [fr22_23, fr21_23, fr20_23, fr19_23, fr18_23, fr17_23, fr16_23, fr15_23, fr14_23, fr13_23, fr12_23, fr11_23, fr10_23, fr09_23, fr08_23, fr07_23, fr06_23, fr05_23, fr04_23, fr03_23, fr02_23, fr01_23]
  · intro h
    simp only [parseArgs]
    rw [fr26_24, fr25_24]
    rw [id24 args _ h]
    rw [fr23_24, fr22_24, fr21_24, fr20_24, fr19_24, fr18_24, fr17_24, fr16_24, fr15_24, fr14_24, fr13_24, fr12_24, fr11_24, fr10_24, fr09_24, fr08_24, fr07_24, fr06_24, fr05_24, fr04_24, fr03_24, fr02_24, fr01_24]
  · intro h
    simp only [parseArgs]
    rw [fr26_25]
    rw [id25 args _ h]
    rw [fr24_25, fr23_25, fr22_25, fr21_25, fr20_25, fr19_25, fr18_25, fr17_25, fr16_25, fr15_25, fr14_25, fr13_25, fr12_25, fr11_25, fr10_25, fr09_25, fr08_25, fr07_25, fr06_25, fr05_25, fr04_25, fr03_25, fr02_25, fr01_25]
  · intro h
    simp only [parseArgs]
    rw [id26 args _ h]
    rw [fr25_26, fr24_26, fr23_26, fr22_26, fr21_26, fr20_26, fr19_26, fr18_26, fr17_26, fr16_26, fr15_26, fr14_26, fr13_26, fr12_26, fr11_26, fr10_26, fr09_26, fr08_26, fr07_26, fr06_26, fr05_26, fr04_26, fr03_26, fr02_26, fr01_26]

/-- Witness for C10 at a concrete input: with no option supplied,
every guarded field of the default configuration is unchanged. -/
theorem C10_parseArgs_frame_witness :
    (parseArgs noneArgs defaultConfig).DISASSEMBLE_UNKNOWN_INSTRUCTIONS = defaultConfig.DISASSEMBLE_UNKNOWN_INSTRUCTIONS ∧
    (parseArgs noneArgs defaultConfig).STRING_GUESSER = defaultConfig.STRING_GUESSER ∧
    (parseArgs noneArgs defaultConfig).AUTOGENERATED_NAMES_BASED_ON_SECTION_TYPE = defaultConfig.AUTOGENERATED_NAMES_BASED_ON_SECTION_TYPE ∧
    (parseArgs noneArgs defaultConfig).AUTOGENERATED_NAMES_BASED_ON_DATA_TYPE = defaultConfig.AUTOGENERATED_NAMES_BASED_ON_DATA_TYPE ∧
    (parseArgs noneArgs defaultConfig).COMPILER = defaultConfig.COMPILER ∧
    (parseArgs noneArgs defaultConfig).GP_VALUE = defaultConfig.GP_VALUE ∧
    (parseArgs noneArgs defaultConfig).SYMBOL_FINDER_FILTER_LOW_ADDRESSES = defaultConfig.SYMBOL_FINDER_FILTER_LOW_ADDRESSES ∧
    (parseArgs noneArgs defaultConfig).SYMBOL_FINDER_FILTER_HIGH_ADDRESSES = defaultConfig.SYMBOL_FINDER_FILTER_HIGH_ADDRESSES ∧
    (parseArgs noneArgs defaultConfig).SYMBOL_FINDER_FILTERED_ADDRESSES_AS_CONSTANTS = defaultConfig.SYMBOL_FINDER_FILTERED_ADDRESSES_AS_CONSTANTS ∧
    (parseArgs noneArgs defaultConfig).SYMBOL_FINDER_FILTERED_ADDRESSES_AS_HILO = defaultConfig.SYMBOL_FINDER_FILTERED_ADDRESSES_AS_HILO ∧
    (parseArgs noneArgs defaultConfig).ASM_COMMENT = defaultConfig.ASM_COMMENT ∧
    (parseArgs noneArgs defaultConfig).GLABEL_ASM_COUNT = defaultConfig.GLABEL_ASM_COUNT ∧
    (parseArgs noneArgs defaultConfig).ASM_TEXT_LABEL = defaultConfig.ASM_TEXT_LABEL ∧
    (parseArgs noneArgs defaultConfig).ASM_DATA_LABEL = defaultConfig.ASM_DATA_LABEL ∧
    (parseArgs noneArgs defaultConfig).ASM_TEXT_ENT_LABEL = defaultConfig.ASM_TEXT_ENT_LABEL ∧
    (parseArgs noneArgs defaultConfig).ASM_TEXT_END_LABEL = defaultConfig.ASM_TEXT_END_LABEL ∧
    (parseArgs noneArgs defaultConfig).ASM_TEXT_FUNC_AS_LABEL = defaultConfig.ASM_TEXT_FUNC_AS_LABEL ∧
    (parseArgs noneArgs defaultConfig).PRINT_NEW_FILE_BOUNDARIES = defaultConfig.PRINT_NEW_FILE_BOUNDARIES ∧
    (parseArgs noneArgs defaultConfig).USE_DOT_BYTE = defaultConfig.USE_DOT_BYTE ∧
    (parseArgs noneArgs defaultConfig).USE_DOT_SHORT = defaultConfig.USE_DOT_SHORT ∧
    (parseArgs noneArgs defaultConfig).VERBOSE = defaultConfig.VERBOSE ∧
    (parseArgs noneArgs defaultConfig).QUIET = defaultConfig.QUIET ∧
    (parseArgs noneArgs defaultConfig).PRINT_FUNCTION_ANALYSIS_DEBUG_INFO = defaultConfig.PRINT_FUNCTION_ANALYSIS_DEBUG_INFO ∧
    (parseArgs noneArgs defaultConfig).PRINT_SYMBOL_FINDER_DEBUG_INFO = defaultConfig.PRINT_SYMBOL_FINDER_DEBUG_INFO ∧
    (parseArgs noneArgs defaultConfig).PRINT_UNPAIRED_LUIS_DEBUG_INFO = defaultConfig.PRINT_UNPAIRED_LUIS_DEBUG_INFO := by
  have h := C10_parseArgs_frame noneArgs defaultConfig
  exact ⟨h.1 rfl, h.2.1 rfl, h.2.2.1 rfl, h.2.2.2.1 rfl, h.2.2.2.2.1 rfl, h.2.2.2.2.2.1 rfl, h.2.2.2.2.2.2.1 rfl, h.2.2.2.2.2.2.2.1 rfl, h.2.2.2.2.2.2.2.2.1 rfl, h.2.2.2.2.2.2.2.2.2.1 rfl, h.2.2.2.2.2.2.2.2.2.2.1 rfl, h.2.2.2.2.2.2.2.2.2.2.2.1 rfl, h.2.2.2.2.2.2.2.2.2.2.2.2.1 (Or.inl rfl), h.2.2.2.2.2.2.2.2.2.2.2.2.2.1 (Or.inl rfl), h.2.2.2.2.2.2.2.2.2.2.2.2.2.2.1 (Or.inl rfl), h.2.2.2.2.2.2.2.2.2.2.2.2.2.2.2.1 (Or.inl rfl), h.2.2.2.2.2.2.2.2.2.2.2.2.2.2.2.2.1 rfl, h.2.2.2.2.2.2.2.2.2.2.2.2.2.2.2.2.2.1 rfl, h.2.2.2.2.2.2.2.2.2.2.2.2.2.2.2.2.2.2.1 rfl, h.2.2.2.2.2.2.2.2.2.2.2.2.2.2.2.2.2.2.2.1 rfl, h.2.2.2.2.2.2.2.2.2.2.2.2.2.2.2.2.2.2.2.2.1 rfl, h.2.2.2.2.2.2.2.2.2.2.2.2.2.2.2.2.2.2.2.2.2.1 rfl, h.2.2.2.2.2.2.2.2.2.2.2.2.2.2.2.2.2.2.2.2.2.2.1 rfl, h.2.2.2.2.2.2.2.2.2.2.2.2.2.2.2.2.2.2.2.2.2.2.2.1 rfl, h.2.2.2.2.2.2.2.2.2.2.2.2.2.2.2.2.2.2.2.2.2.2.2.2 rfl⟩


/-! ### Function boundary partition lemmas and C3 -/

lemma spansChain_le (sp : List (Nat × Nat)) :
    ∀ a b : Nat, spansChain sp a b → a ≤ b := by
  induction sp with
  | nil =>
    intro a b h
    simp only [spansChain] at h
    omega
  | cons q rest ih =>
    intro a b h
    obtain ⟨hq1, hq2, hrest⟩ := h
    have := ih q.2 b hrest
    omega

lemma spansChain_mem_bounds (sp : List (Nat × Nat)) :
    ∀ a b : Nat, spansChain sp a b →
      ∀ p ∈ sp, a ≤ p.1 ∧ p.1 < p.2 ∧ p.2 ≤ b := by
  induction sp with
  | nil =>
    intro a b _ p hp
    exact absurd hp (List.not_mem_nil p)
  | cons q rest ih =>
    intro a b h p hp
    obtain ⟨hq1, hq2, hrest⟩ := h
    rcases List.mem_cons.mp hp with rfl | hp
    · have := spansChain_le rest p.2 b hrest
      omega
    · have hb := ih q.2 b hrest p hp
      omega

lemma spansChain_existsUnique (sp : List (Nat × Nat)) :
    ∀ a b : Nat, spansChain sp a b → ∀ i : Nat, a ≤ i → i < b →
      ∃! p : Nat × Nat, p ∈ sp ∧ p.1 ≤ i ∧ i < p.2 := by
  induction sp with
  | nil =>
    intro a b h i hai hib
    simp only [spansChain] at h
    exact ((by omega : False)).elim
  | cons q rest ih =>
    intro a b h i hai hib
    obtain ⟨hq1, hq2, hrest⟩ := h
    by_cases hi : i < q.2
    · refine ⟨q, ⟨List.mem_cons_self q rest, by omega, hi⟩, ?_⟩
      rintro p ⟨hp, hp1, hp2⟩
      rcases List.mem_cons.mp hp with rfl | hp
      · rfl
      · have hb := spansChain_mem_bounds rest q.2 b hrest p hp
        exact ((by omega : False)).elim
    · obtain ⟨p0, ⟨hp0m, hp0a, hp0b⟩, huniq⟩ :=
        ih q.2 b hrest i (by omega) hib
      refine ⟨p0, ⟨List.mem_cons_of_mem q hp0m, hp0a, hp0b⟩, ?_⟩
      rintro p ⟨hp, hp1, hp2⟩
      rcases List.mem_cons.mp hp with rfl | hp
      · exact ((by omega : False)).elim
      · exact huniq p ⟨hp, hp1, hp2⟩

/-- The boundary walker always produces a chain of adjacent, nonempty
spans reaching from the current function start to the section end. -/
lemma fbWalk_chain (l : List Instruction) (hints : List Nat) :
    ∀ start k : Nat, start ≤ k → start < l.length →
      spansChain (fbWalk l hints start k) start l.length := by
  intro start k
  induction start, k using fbWalk.induct l hints with
  | case1 start k hle =>
    intro hsk hs
    rw [fbWalk, dif_pos hle]
    exact ⟨rfl, hs, rfl⟩
  | case2 start k hle hhint ih =>
    intro hsk hs
    rw [fbWalk, dif_neg hle, if_pos hhint]
    exact ⟨rfl, hhint.1, ih (Nat.le_refl k) (by omega)⟩
  | case3 start k hle hhint hclose ih =>
    intro hsk hs
    rw [fbWalk, dif_neg hle, if_neg hhint, if_pos hclose]
    exact ⟨rfl, by omega, ih (Nat.le_refl (k + 1)) hclose.2⟩
  | case4 start k hle hhint hclose ih =>
    intro hsk hs
    rw [fbWalk, dif_neg hle, if_neg hhint, if_neg hclose]
    exact ih (by omega) hs

/-- C3: for every nonempty text Section, the Function spans produced by
the Boundary Analyzer partition the Section: they chain gaplessly from
index 0 to the section length (the last Function being closed at the
Section boundary even without a clean return), and every instruction
index lies in exactly one span. -/
theorem C3_boundary_partition (l : List Instruction) (hints : List Nat) (hne : l ≠ []) :
    spansChain (findFunctions l hints) 0 l.length ∧
    ∀ i : Nat, i < l.length →
      ∃! p : Nat × Nat, p ∈ findFunctions l hints ∧ p.1 ≤ i ∧ i < p.2 := by
  have hlen : 0 < l.length := List.length_pos.mpr hne
  have hch : spansChain (findFunctions l hints) 0 l.length := by
    unfold findFunctions
    rw [if_neg (by omega)]
    exact fbWalk_chain l hints 0 0 (Nat.le_refl 0) hlen
  exact ⟨hch, fun i hi =>
    spansChain_existsUnique (findFunctions l hints) 0 l.length hch i (Nat.zero_le i) hi⟩

/-- Witness for C3 at a concrete input: a two-word section consisting
of `JR $ra` and its `NOP` delay slot. -/
theorem C3_boundary_partition_witness :
    spansChain (findFunctions [decode 0x03E00008, decode 0] []) 0
      [decode 0x03E00008, decode 0].length ∧
    ∀ i : Nat, i < [decode 0x03E00008, decode 0].length →
      ∃! p : Nat × Nat,
        p ∈ findFunctions [decode 0x03E00008, decode 0] [] ∧ p.1 ≤ i ∧ i < p.2 :=
  C3_boundary_partition [decode 0x03E00008, decode 0] [] (by simp)

/-! ### Relocation tracker lemmas and C6 -/

lemma lookupPending_mem (ps : List PendingHi) (r : Nat) :
    ∀ q : PendingHi, lookupPending ps r = some q → q ∈ ps := by
  induction ps with
  | nil => intro q h; simp [lookupPending] at h
  | cons e rest ih =>
    intro q h
    by_cases he : e.reg = r
    · rw [lookupPending, if_pos he] at h
      exact (Option.some.injEq e q ▸ h : e = q) ▸ List.mem_cons_self e rest
    · rw [lookupPending, if_neg he] at h
      exact List.mem_cons_of_mem e (ih q h)

lemma removeReg_subset (ps : List PendingHi) (r : Nat) :
    ∀ q ∈ removeReg ps r, q ∈ ps := by
  induction ps with
  | nil => intro q h; simp [removeReg] at h
  | cons e rest ih =>
    intro q h
    by_cases he : e.reg = r
    · rw [removeReg, if_pos he] at h
      exact List.mem_cons_of_mem e (ih q h)
    · rw [removeReg, if_neg he] at h
      rcases List.mem_cons.mp h with rfl | h
      · exact List.mem_cons_self q rest
      · exact List.mem_cons_of_mem e (ih q h)

lemma stepLow_unpaired_eq (st : TrackerState) (addr : Nat) (i : Instruction) :
    (stepLow st addr i).unpaired = st.unpaired := by
  unfold stepLow
  cases hlc : lowCandidate i with
  | none => rfl
  | some bl =>
    obtain ⟨b, lo⟩ := bl
    dsimp only
    cases hlp : lookupPending st.pending b <;> rfl

lemma stepLow_pending_sub (st : TrackerState) (addr : Nat) (i : Instruction) :
    ∀ q ∈ (stepLow st addr i).pending, q ∈ st.pending := by
  unfold stepLow
  cases hlc : lowCandidate i with
  | none => exact fun q hq => hq
  | some bl =>
    obtain ⟨b, lo⟩ := bl
    dsimp only
    cases hlp : lookupPending st.pending b with
    | none => exact fun q hq => hq
    | some p => exact fun q hq => removeReg_subset st.pending b q hq

lemma stepLow_pairs_src (st : TrackerState) (addr : Nat) (i : Instruction) :
    ∀ p ∈ (stepLow st addr i).pairs,
      p ∈ st.pairs ∨ ∃ q ∈ st.pending, p.hiAddr = q.hiAddr := by
  unfold stepLow
  cases hlc : lowCandidate i with
  | none => exact fun p hp => Or.inl hp
  | some bl =>
    obtain ⟨b, lo⟩ := bl
    dsimp only
    cases hlp : lookupPending st.pending b with
    | none => exact fun p hp => Or.inl hp
    | some q =>
      intro p hp
      rcases List.mem_append.mp hp with hp | hp
      · exact Or.inl hp
      · rcases List.mem_singleton.mp hp with rfl
        exact Or.inr ⟨q, lookupPending_mem st.pending b q hlp, rfl⟩

lemma stepWrite_pairs_eq (st : TrackerState) (i : Instruction) :
    (stepWrite st i).pairs = st.pairs := by
  unfold stepWrite
  cases hw : writesReg i with
  | none => rfl
  | some d =>
    dsimp only
    cases hlp : lookupPending st.pending d <;> rfl

lemma stepWrite_pending_sub (st : TrackerState) (i : Instruction) :
    ∀ q ∈ (stepWrite st i).pending, q ∈ st.pending := by
  unfold stepWrite
  cases hw : writesReg i with
  | none => exact fun q hq => hq
  | some d =>
    dsimp only
    cases hlp : lookupPending st.pending d with
    | none => exact fun q hq => hq
    | some p => exact fun q hq => removeReg_subset st.pending d q hq

lemma stepWrite_unpaired_mono (st : TrackerState) (i : Instruction) :
    ∀ u ∈ st.unpaired, u ∈ (stepWrite st i).unpaired := by
  unfold stepWrite
  cases hw : writesReg i with
  | none => exact fun u hu => hu
  | some d =>
    dsimp only
    cases hlp : lookupPending st.pending d with
    | none => exact fun u hu => hu
    | some p => exact fun u hu => List.mem_append.mpr (Or.inl hu)

lemma stepLui_pairs_eq (st : TrackerState) (addr : Nat) (i : Instruction) :
    (stepLui st addr i).pairs = st.pairs := by
  unfold stepLui
  split <;> rfl

lemma stepLui_unpaired_eq (st : TrackerState) (addr : Nat) (i : Instruction) :
    (stepLui st addr i).unpaired = st.unpaired := by
  unfold stepLui
  split <;> rfl

lemma stepLui_pending_src (st : TrackerState) (addr : Nat) (i : Instruction) :
    ∀ q ∈ (stepLui st addr i).pending, q ∈ st.pending ∨ q.hiAddr = addr := by
  unfold stepLui
  split
  · intro q hq
    rcases List.mem_append.mp hq with hq | hq
    · exact Or.inl hq
    · rcases List.mem_singleton.mp hq with rfl
      exact Or.inr rfl
  · exact fun q hq => Or.inl hq

lemma trackStep_pairs_src (st : TrackerState) (addr : Nat) (i : Instruction) :
    ∀ p ∈ (trackStep st addr i).pairs,
      p ∈ st.pairs ∨ ∃ q ∈ st.pending, p.hiAddr = q.hiAddr := by
  unfold trackStep
  rw [stepLui_pairs_eq, stepWrite_pairs_eq]
  exact stepLow_pairs_src st addr i

lemma trackStep_pending_src (st : TrackerState) (addr : Nat) (i : Instruction) :
    ∀ q ∈ (trackStep st addr i).pending, q ∈ st.pending ∨ q.hiAddr = addr := by
  unfold trackStep
  intro q hq
  rcases stepLui_pending_src (stepWrite (stepLow st addr i) i) addr i q hq with hq | hq
  · exact Or.inl (stepLow_pending_sub st addr i q
      (stepWrite_pending_sub (stepLow st addr i) i q hq))
  · exact Or.inr hq

lemma trackStep_unpaired_mono (st : TrackerState) (addr : Nat) (i : Instruction) :
    ∀ u ∈ st.unpaired, u ∈ (trackStep st addr i).unpaired := by
  unfold trackStep
  rw [stepLui_unpaired_eq]
  intro u hu
  exact stepWrite_unpaired_mono (stepLow st addr i) i u
    (stepLow_unpaired_eq st addr i ▸ hu)

lemma runTrackerAux_unpaired_mono (l : List Instruction) :
    ∀ (addr : Nat) (st : TrackerState) (u : Nat × Nat),
      u ∈ st.unpaired → u ∈ (runTrackerAux l addr st).unpaired := by
  induction l with
  | nil =>
    intro addr st u hu
    simp only [runTrackerAux]
    exact List.mem_append.mpr (Or.inl hu)
  | cons i restl ih =>
    intro addr st u hu
    exact ih (addr + 4) (trackStep st addr i) u (trackStep_unpaired_mono st addr i u hu)

/-- Once a high-part address has left the pending set and the scan has
moved strictly past it, no later relocation pair can carry it. -/
lemma runTrackerAux_no_pair (A : Nat) (l : List Instruction) :
    ∀ (addr : Nat) (st : TrackerState),
      A < addr →
      (∀ q ∈ st.pending, q.hiAddr ≠ A) →
      (∀ p ∈ st.pairs, p.hiAddr ≠ A) →
      ∀ p ∈ (runTrackerAux l addr st).pairs, p.hiAddr ≠ A := by
  induction l with
  | nil =>
    intro addr st hA hpend hpairs p hp
    exact hpairs p (by simpa [runTrackerAux] using hp)
  | cons i restl ih =>
    intro addr st hA hpend hpairs p hp
    refine ih (addr + 4) (trackStep st addr i) (by omega) ?_ ?_ p hp
    · intro q hq
      rcases trackStep_pending_src st addr i q hq with h | h
      · exact hpend q h
      · rw [h]; omega
    · intro p' hp'
      rcases trackStep_pairs_src st addr i p' hp' with h | ⟨q, hq, he⟩
      · exact hpairs p' h
      · rw [he]; exact hpend q hq

/-- C6: an `LUI` whose register is overwritten with an unrelated value
before any eligible low part is never paired: the tracker records it as
an unpaired diagnostic, no RelocationPair ever carries its address, and
the scan simply continues over the rest of the function. -/
theorem C6_overwritten_lui_unpaired
    (base r x d hiImm oImm loImm : Nat) (rest : List Instruction) (hxr : x ≠ r) :
    (base, hiImm) ∈ (trackFunction base
      (luiInstr r hiImm :: addiuInstr r x oImm :: addiuInstr d r loImm :: rest)).unpaired ∧
    ∀ p ∈ (trackFunction base
      (luiInstr r hiImm :: addiuInstr r x oImm :: addiuInstr d r loImm :: rest)).pairs,
      p.hiAddr ≠ base := by
  have hrx : ¬(r = x) := fun h => hxr h.symm
  have e1 : trackStep ⟨[], [], []⟩ base (luiInstr r hiImm)
      = ⟨[⟨r, base, hiImm⟩], [], []⟩ := by
    simp [trackStep, stepLow, stepWrite, stepLui, lowCandidate, writesReg,
      lookupPending, luiInstr]
  have e2 : trackStep ⟨[⟨r, base, hiImm⟩], [], []⟩ (base + 4) (addiuInstr r x oImm)
      = ⟨[], [], [(base, hiImm)]⟩ := by
    simp [trackStep, stepLow, stepWrite, stepLui, lowCandidate, writesReg,
      lookupPending, removeReg, addiuInstr, hrx]
  have e3 : trackStep ⟨[], [], [(base, hiImm)]⟩ (base + 4 + 4) (addiuInstr d r loImm)
      = ⟨[], [], [(base, hiImm)]⟩ := by
    simp [trackStep, stepLow, stepWrite, stepLui, lowCandidate, writesReg,
      lookupPending, addiuInstr]
  have hrun : trackFunction base
      (luiInstr r hiImm :: addiuInstr r x oImm :: addiuInstr d r loImm :: rest)
      = runTrackerAux rest (base + 4 + 4 + 4) ⟨[], [], [(base, hiImm)]⟩ := by
    unfold trackFunction
    simp only [runTrackerAux]
    rw [e1, e2, e3]
  rw [hrun]
  constructor
  · exact runTrackerAux_unpaired_mono rest (base + 4 + 4 + 4) ⟨[], [], [(base, hiImm)]⟩
      (base, hiImm) (List.mem_singleton.mpr rfl)
  · exact runTrackerAux_no_pair base rest (base + 4 + 4 + 4) ⟨[], [], [(base, hiImm)]⟩
      (by omega) (by intro q hq; simp at hq) (by intro p hp; simp at hp)

/-- Witness for C6 at a concrete input: `LUI $t0, 0x8012` whose `$t0`
is overwritten by `ADDIU $t0, $t1, 1` before `ADDIU $t2, $t0, 0x3456`. -/
theorem C6_overwritten_lui_unpaired_witness :
    (0x80000000, 0x8012) ∈ (trackFunction 0x80000000
      (luiInstr 8 0x8012 :: addiuInstr 8 9 1 :: addiuInstr 10 8 0x3456 :: [])).unpaired ∧
    ∀ p ∈ (trackFunction 0x80000000
      (luiInstr 8 0x8012 :: addiuInstr 8 9 1 :: addiuInstr 10 8 0x3456 :: [])).pairs,
      p.hiAddr ≠ 0x80000000 :=
  C6_overwritten_lui_unpaired 0x80000000 8 9 10 0x8012 1 0x3456 [] (by decide)

end Spimdisasm
